import Mathlib

/-!
Verification of the two patch scripts in this repository
(`scripts/update-handoff-standards.py` and `update-spec-guide.py`).

Both scripts read a markdown file, run a fixed sequence of textual
substitutions over its content, write the result back, and print fixed
confirmation lines.  The handoff script uses `content.replace(old, new)`;
the spec-guide script uses `re.sub(pattern, repl, content)` where each
pattern is a fully escaped literal with two capture groups that the
replacement re-inserts verbatim, so both substitution primitives are the
same function: replace every leftmost non-overlapping occurrence of a
literal anchor string by a literal replacement string.

`pyReplace` below is a shallow embedding of that primitive, including
Python's behaviour on an empty pattern (`"ab".replace("", "X") = "XaXbX"`).
Documents are `List Nat`: a Python `str` is a sequence of Unicode code
points, and representing each code point as a `Nat` keeps kernel
evaluation of the long markdown constants on native integer arithmetic.
`strCps` converts a transcribed Lean string to this representation.
-/

set_option maxRecDepth 20000

/-- One scanning pass of Python `str.replace`, fuelled so that the
definition is structurally recursive (each step consumes at least one
character of the input when the pattern is non-empty, so `s.length` fuel
suffices).  At each position: if the (non-empty) pattern `old` is a prefix
of the remaining input, emit `nw` and skip `old.length` characters,
otherwise copy one character. -/
def replCoreF (old nw : List Nat) : Nat → List Nat → List Nat
  | _, [] => []
  | 0, c :: rest => c :: rest
  | fuel + 1, c :: rest =>
    if old.isPrefixOf (c :: rest) && !old.isEmpty then
      nw ++ replCoreF old nw fuel ((c :: rest).drop old.length)
    else
      c :: replCoreF old nw fuel rest

/-- The scan at its canonical fuel. -/
def replCore (old nw s : List Nat) : List Nat :=
  replCoreF old nw s.length s

/-- The same scan fuelled by a list instead of a natural number (one fuel
entry per character copied or pattern matched).  Evaluating `s.length` as
fuel would recurse as deeply as the document is long; this version keeps
kernel evaluation of the scan on long documents shallow. -/
def replCoreL (old nw : List Nat) : List Nat → List Nat → List Nat
  | _, [] => []
  | [], c :: rest => c :: rest
  | _ :: fuel, c :: rest =>
    if old.isPrefixOf (c :: rest) && !old.isEmpty then
      nw ++ replCoreL old nw fuel ((c :: rest).drop old.length)
    else
      c :: replCoreL old nw fuel rest

/-- Python `s.replace(old, nw)`: replace every leftmost non-overlapping
occurrence of `old` in `s` by `nw`.  With an empty pattern Python inserts
`nw` before every character and at the end, which the first branch mirrors. -/
def pyReplace (old nw s : List Nat) : List Nat :=
  if old.isEmpty then nw ++ s.foldr (fun c acc => c :: (nw ++ acc)) []
  else replCoreL old nw s s

/-- `occursAtB a s i` decides whether the string `a` occurs in `s` starting
at position `i`. -/
def occursAtB (a s : List Nat) (i : Nat) : Bool :=
  a.isPrefixOf (s.drop i)

/-- The abstract patch rule of the specification: replace the anchor `a`
by the anchor followed by the insertion block `ins` (this is how every
substitution in the two scripts is built). -/
def applyRule (a ins d : List Nat) : List Nat :=
  pyReplace a (a ++ ins) d

/-! ### Generic lemmas about `pyReplace` -/

theorem replCoreF_nil (old nw : List Nat) (fuel : Nat) :
    replCoreF old nw fuel [] = [] := by
  cases fuel <;> rfl

theorem replCoreF_zero (old nw s : List Nat) : replCoreF old nw 0 s = s := by
  cases s <;> rfl

theorem replCoreF_cons (old nw : List Nat) (fuel : Nat) (c : Nat) (rest : List Nat) :
    replCoreF old nw (fuel + 1) (c :: rest) =
      if old.isPrefixOf (c :: rest) && !old.isEmpty then
        nw ++ replCoreF old nw fuel ((c :: rest).drop old.length)
      else
        c :: replCoreF old nw fuel rest := rfl

theorem cond_true_elim {old : List Nat} {c : Nat} {rest : List Nat}
    (h : (old.isPrefixOf (c :: rest) && !old.isEmpty) = true) :
    old <+: (c :: rest) ∧ old ≠ [] := by
  simp only [Bool.and_eq_true, Bool.not_eq_true', List.isEmpty_eq_false] at h
  exact ⟨ List.isPrefixOf_iff_prefix.mp h.1, h.2⟩

theorem cond_intro {old : List Nat} {c : Nat} {rest : List Nat}
    (h1 : old <+: (c :: rest)) (h2 : old ≠ []) :
    (old.isPrefixOf (c :: rest) && !old.isEmpty) = true := by
  simp only [Bool.and_eq_true, Bool.not_eq_true', List.isEmpty_eq_false]
  exact ⟨ List.isPrefixOf_iff_prefix.mpr h1, h2⟩

/-- The result of the scan does not depend on the fuel, as long as there is
enough of it. -/
theorem replCoreF_fuel (old nw : List Nat) :
    ∀ fuel fuel' s, s.length ≤ fuel → s.length ≤ fuel' →
      replCoreF old nw fuel s = replCoreF old nw fuel' s := by
  intro fuel
  induction fuel with
  | zero =>
    intro fuel' s h _
    have hs : s = [] := List.length_eq_zero.mp (Nat.le_zero.mp h)
    subst hs
    simp [replCoreF_nil]
  | succ f ih =>
    intro fuel' s h h'
    cases s with
    | nil => simp [replCoreF_nil]
    | cons c rest =>
      cases fuel' with
      | zero => exact absurd h' (by simp)
      | succ f' =>
        rw [replCoreF_cons, replCoreF_cons]
        by_cases hc : (old.isPrefixOf (c :: rest) && !old.isEmpty) = true
        · rw [if_pos hc, if_pos hc]
          obtain ⟨hp, hne⟩ := cond_true_elim hc
          have hlo : 1 ≤ old.length := by
            cases old with
            | nil => exact absurd rfl hne
            | cons _ _ => simp
          have hlp : old.length ≤ rest.length + 1 := by
            simpa using hp.length_le
          have hh : rest.length + 1 ≤ f + 1 := by simpa using h
          have hh' : rest.length + 1 ≤ f' + 1 := by simpa using h'
          have hd : ((c :: rest).drop old.length).length ≤ f := by
            simp only [List.length_drop, List.length_cons]
            omega
          have hd' : ((c :: rest).drop old.length).length ≤ f' := by
            simp only [List.length_drop, List.length_cons]
            omega
          rw [ih f' _ hd hd']
        · rw [if_neg hc, if_neg hc]
          have hr : rest.length ≤ f := by simpa using h
          have hr' : rest.length ≤ f' := by simpa using h'
          rw [ih f' rest hr hr']

/-- The list-fuelled scan agrees with the `Nat`-fuelled one. -/
theorem replCoreL_eq (old nw : List Nat) :
    ∀ fuel s : List Nat, replCoreL old nw fuel s = replCoreF old nw fuel.length s := by
  intro fuel
  induction fuel with
  | nil =>
    intro s
    cases s with
    | nil => rfl
    | cons c rest =>
      show c :: rest = replCoreF old nw 0 (c :: rest)
      rw [replCoreF_zero]
  | cons x f ih =>
    intro s
    cases s with
    | nil => rw [replCoreF_nil]; rfl
    | cons c rest =>
      show (if old.isPrefixOf (c :: rest) && !old.isEmpty then
          nw ++ replCoreL old nw f ((c :: rest).drop old.length)
        else c :: replCoreL old nw f rest) = _
      rw [List.length_cons, replCoreF_cons, ih, ih]

/-- Scanning a document with itself as fuel is the canonical scan. -/
theorem replCoreL_self (old nw s : List Nat) :
    replCoreL old nw s s = replCore old nw s := by
  rw [replCoreL_eq]
  rfl

theorem replCore_cons_eq (old nw : List Nat) (c : Nat) (rest : List Nat) :
    replCore old nw (c :: rest) =
      if old.isPrefixOf (c :: rest) && !old.isEmpty then
        nw ++ replCore old nw ((c :: rest).drop old.length)
      else
        c :: replCore old nw rest := by
  show replCoreF old nw (rest.length + 1) (c :: rest) = _
  rw [replCoreF_cons]
  by_cases hc : (old.isPrefixOf (c :: rest) && !old.isEmpty) = true
  · rw [if_pos hc, if_pos hc]
    obtain ⟨hp, hne⟩ := cond_true_elim hc
    have hlo : 1 ≤ old.length := by
      cases old with
      | nil => exact absurd rfl hne
      | cons _ _ => simp
    have hd : ((c :: rest).drop old.length).length ≤ rest.length := by
      simp only [List.length_drop, List.length_cons]
      omega
    rw [replCoreF_fuel old nw rest.length _ _ hd (Nat.le_refl _)]
    rfl
  · rw [if_neg hc, if_neg hc]
    rfl

/-- If the pattern occurs nowhere in the input, the scan copies the input
unchanged. -/
theorem replCore_of_no_occ (old nw : List Nat) :
    ∀ s, ¬ old <:+: s → replCore old nw s = s := by
  intro s
  induction s with
  | nil => intro _; rfl
  | cons c rest ih =>
    intro h
    rw [replCore_cons_eq]
    have hc : ¬ (old.isPrefixOf (c :: rest) && !old.isEmpty) = true := by
      intro hc
      exact h (cond_true_elim hc).1.isInfix
    rw [if_neg hc, ih (fun hi => h (List.infix_cons hi))]

/-- `pyReplace` is the identity on documents that do not contain the
pattern (for any pattern: an empty pattern is an infix of everything). -/
theorem pyReplace_of_no_occ (old nw s : List Nat) (h : ¬ old <:+: s) :
    pyReplace old nw s = s := by
  unfold pyReplace
  by_cases he : old.isEmpty
  · exact absurd ⟨[], s, by simpa using (List.isEmpty_iff.mp he).symm ▸ rfl⟩ h
  · rw [if_neg he, replCoreL_self]
    exact replCore_of_no_occ old nw s h

/-- A match at the head of the input is replaced and the scan continues
after it. -/
theorem replCore_head (old nw : List Nat) (h : old ≠ []) (t : List Nat) :
    replCore old nw (old ++ t) = nw ++ replCore old nw t := by
  obtain ⟨a, old', rfl⟩ : ∃ a old', old = a :: old' := by
    cases old with
    | nil => exact absurd rfl h
    | cons a old' => exact ⟨a, old', rfl⟩
  rw [List.cons_append, replCore_cons_eq]
  have hc : ((a :: old').isPrefixOf (a :: (old' ++ t)) && !(a :: old').isEmpty) = true := by
    refine cond_intro ?_ h
    rw [← List.cons_append]
    exact List.prefix_append _ _
  rw [if_pos hc, ← List.cons_append, List.drop_left]

/-- If the pattern matches at no position inside `pre`, the scan copies
`pre` verbatim and continues on the rest. -/
theorem replCore_skip (old nw : List Nat) :
    ∀ pre u, (∀ i < pre.length, ¬ old <+: (pre ++ u).drop i) →
      replCore old nw (pre ++ u) = pre ++ replCore old nw u := by
  intro pre
  induction pre with
  | nil => intro u _; rfl
  | cons c pre' ih =>
    intro u h
    rw [List.cons_append, replCore_cons_eq]
    have hc : ¬ (old.isPrefixOf (c :: (pre' ++ u)) && !old.isEmpty) = true := by
      intro hc
      exact h 0 (by simp) (by simpa using (cond_true_elim hc).1)
    rw [if_neg hc, ih u (fun i hi hp => h (i + 1) (by simpa using Nat.succ_lt_succ hi)
      (by simpa using hp)), List.cons_append]

/-- `occursAtB` restated as a prefix of a tail. -/
theorem occursAtB_iff (a s : List Nat) (i : Nat) :
    occursAtB a s i = true ↔ a <+: s.drop i := by
  unfold occursAtB
  exact List.isPrefixOf_iff_prefix

theorem drop_append_len {α : Type} (xs ys : List α) (j : Nat) :
    (xs ++ ys).drop (xs.length + j) = ys.drop j := by
  rw [← List.drop_drop, List.drop_left]

theorem infix_of_cons_of_no_match {old : List Nat} {c : Nat} {rest : List Nat}
    (h : old <:+: c :: rest) (hp : ¬ old <+: c :: rest) : old <:+: rest := by
  rcases List.infix_cons_iff.mp h with h' | h'
  · exact absurd h' hp
  · exact h'

/-- When the replacement is at least as long as the pattern, a scanning
pass never shrinks the input. -/
theorem replCoreF_length_ge (old nw : List Nat) (hlen : old.length ≤ nw.length) :
    ∀ fuel s, s.length ≤ (replCoreF old nw fuel s).length := by
  intro fuel
  induction fuel with
  | zero => intro s; cases s <;> simp [replCoreF_zero]
  | succ f ih =>
    intro s
    cases s with
    | nil => simp [replCoreF_nil]
    | cons c rest =>
      rw [replCoreF_cons]
      by_cases hc : (old.isPrefixOf (c :: rest) && !old.isEmpty) = true
      · rw [if_pos hc]
        obtain ⟨hp, hne⟩ := cond_true_elim hc
        have hlp : old.length ≤ rest.length + 1 := by simpa using hp.length_le
        have hrec := ih ((c :: rest).drop old.length)
        simp only [List.length_append, List.length_cons, List.length_drop] at hrec ⊢
        omega
      · rw [if_neg hc]
        have hrec := ih rest
        simp only [List.length_cons]
        omega

/-- When the replacement is strictly longer than the pattern and the
pattern occurs in the input, a scanning pass strictly grows the input. -/
theorem replCore_length_gt (old nw : List Nat) (h0 : old ≠ [])
    (hlt : old.length < nw.length) :
    ∀ s, old <:+: s → s.length < (replCore old nw s).length := by
  intro s
  induction s with
  | nil =>
    intro hinf
    exact absurd (List.infix_nil.mp hinf) h0
  | cons c rest ih =>
    intro hinf
    rw [replCore_cons_eq]
    by_cases hc : (old.isPrefixOf (c :: rest) && !old.isEmpty) = true
    · rw [if_pos hc]
      obtain ⟨hp, hne⟩ := cond_true_elim hc
      have hlp : old.length ≤ rest.length + 1 := by simpa using hp.length_le
      have hlo : 1 ≤ old.length := by
        cases old with
        | nil => exact absurd rfl hne
        | cons _ _ => simp
      have hrec : ((c :: rest).drop old.length).length ≤
          (replCore old nw ((c :: rest).drop old.length)).length :=
        replCoreF_length_ge old nw (Nat.le_of_lt hlt) _ _
      simp only [List.length_append, List.length_cons, List.length_drop] at hrec ⊢
      omega
    · rw [if_neg hc]
      have hp : ¬ old <+: c :: rest := by
        intro hp
        exact hc (cond_intro hp h0)
      have hrec := ih (infix_of_cons_of_no_match hinf hp)
      simp only [List.length_cons]
      omega

/-- A scanning pass keeps the input as a subsequence of the output, as
long as the pattern is a subsequence of the replacement. -/
theorem replCoreF_sublist (old nw : List Nat) (h : List.Sublist old nw) :
    ∀ fuel s, List.Sublist s (replCoreF old nw fuel s) := by
  intro fuel
  induction fuel with
  | zero =>
    intro s
    rw [replCoreF_zero]
  | succ f ih =>
    intro s
    cases s with
    | nil => simp [replCoreF_nil]
    | cons c rest =>
      rw [replCoreF_cons]
      by_cases hc : (old.isPrefixOf (c :: rest) && !old.isEmpty) = true
      · rw [if_pos hc]
        obtain ⟨hp, hne⟩ := cond_true_elim hc
        obtain ⟨t, ht⟩ := hp
        rw [← ht, List.drop_left]
        exact List.Sublist.append h (ih t)
      · rw [if_neg hc]
        exact List.Sublist.cons₂ c (ih rest)

/-- `pyReplace` only ever inserts: the input is a subsequence of the
output whenever the pattern is a subsequence of the replacement. -/
theorem pyReplace_sublist (old nw : List Nat) (h : List.Sublist old nw) (s : List Nat) :
    List.Sublist s (pyReplace old nw s) := by
  unfold pyReplace
  by_cases he : old.isEmpty
  · rw [if_pos he]
    have hf : ∀ u : List Nat, List.Sublist u (u.foldr (fun c acc => c :: (nw ++ acc)) []) := by
      intro u
      induction u with
      | nil => simp
      | cons c rest ihr =>
        exact List.Sublist.cons₂ c (ihr.trans (List.sublist_append_right nw _))
    exact (hf s).trans (List.sublist_append_right nw _)
  · rw [if_neg he, replCoreL_self]
    exact replCoreF_sublist old nw h s.length s

/-- Every document containing the pattern has a first occurrence of it. -/
theorem exists_first_occ (old : List Nat) (h0 : old ≠ []) :
    ∀ s, old <:+: s →
      ∃ pre post, s = pre ++ old ++ post ∧ ∀ i < pre.length, ¬ old <+: s.drop i := by
  intro s
  induction s with
  | nil =>
    intro hinf
    exact absurd (List.infix_nil.mp hinf) h0
  | cons c rest ih =>
    intro hinf
    by_cases hp : old <+: c :: rest
    · obtain ⟨t, ht⟩ := hp
      exact ⟨[], t, by simp [ht.symm], by simp⟩
    · obtain ⟨pre, post, heq, hcond⟩ := ih (infix_of_cons_of_no_match hinf hp)
      refine ⟨c :: pre, post, by simp [heq], ?_⟩
      intro i hi
      cases i with
      | zero => simpa using hp
      | succ j =>
        have := hcond j (by simpa using hi)
        simpa [heq] using this

theorem prefix_of_append_left {α : Type} {l a b : List α}
    (h : l <+: a ++ b) (hl : l.length ≤ a.length) : l <+: a := by
  obtain ⟨t, ht⟩ := h
  rcases List.append_eq_append_iff.mp ht with ⟨w, hw, _⟩ | ⟨w, hw, _⟩
  · exact ⟨w, hw.symm⟩
  · have : w = [] := by
      have := congrArg List.length hw
      simp only [List.length_append] at this
      have : w.length = 0 := by omega
      exact List.length_eq_zero.mp this
    subst this
    rw [hw, List.append_nil]

/-- Key structural lemma behind idempotence.  Suppose the pattern `old` is
non-empty, no longer than the replacement `nw`, does not occur inside `nw`,
no proper non-empty tail of `old` is a prefix of `nw`, and no proper
non-empty head of `old` is a suffix of `nw`.  Then (1) the pattern does not
occur in the output of a scanning pass at all, and (2) any proper tail of
the pattern that starts the output also starts the input. -/
theorem replCoreF_no_new_occ (old nw : List Nat) (h0 : old ≠ [])
    (hlen : old.length ≤ nw.length)
    (hi : ¬ old <:+: nw)
    (hii : ∀ k < old.length, 0 < k → ¬ old.drop k <+: nw)
    (hiii : ∀ k < old.length, 0 < k → ¬ old.take k <:+ nw) :
    ∀ fuel s, s.length ≤ fuel →
      (¬ old <:+: replCoreF old nw fuel s) ∧
      (∀ k < old.length, 0 < k →
        old.drop k <+: replCoreF old nw fuel s → old.drop k <+: s) := by
  intro fuel
  induction fuel with
  | zero =>
    intro s hs
    have : s = [] := List.length_eq_zero.mp (Nat.le_zero.mp hs)
    subst this
    rw [replCoreF_nil]
    constructor
    · intro hinf
      exact h0 (List.infix_nil.mp hinf)
    · intro k hk _ hp
      have : old.drop k = [] := List.prefix_nil.mp hp
      have := List.drop_eq_nil_iff.mp this
      omega
  | succ f ih =>
    intro s hs
    cases s with
    | nil =>
      rw [replCoreF_nil]
      constructor
      · intro hinf
        exact h0 (List.infix_nil.mp hinf)
      · intro k hk _ hp
        have : old.drop k = [] := List.prefix_nil.mp hp
        have := List.drop_eq_nil_iff.mp this
        omega
    | cons c rest =>
      have hrest : rest.length ≤ f := by simpa using hs
      rw [replCoreF_cons]
      by_cases hc : (old.isPrefixOf (c :: rest) && !old.isEmpty) = true
      · rw [if_pos hc]
        obtain ⟨hp, hne⟩ := cond_true_elim hc
        have hlo : 1 ≤ old.length := by
          cases old with
          | nil => exact absurd rfl hne
          | cons _ _ => simp
        have hdlen : ((c :: rest).drop old.length).length ≤ f := by
          simp only [List.length_drop, List.length_cons]
          omega
        have ihd := ih ((c :: rest).drop old.length) hdlen
        constructor
        · intro hinf
          obtain ⟨u, v, huv⟩ := hinf
          have huv' : u ++ (old ++ v) = nw ++ replCoreF old nw f ((c :: rest).drop old.length) := by
            rw [← List.append_assoc]
            exact huv
          rcases List.append_eq_append_iff.mp huv' with ⟨w, hnw, hov⟩ | ⟨w, hu, hR⟩
          · rcases List.append_eq_append_iff.mp hov with ⟨z, hw, hv⟩ | ⟨z, hoz, hRz⟩
            · exact hi ⟨u, z, by rw [List.append_assoc, ← hw, ← hnw]⟩
            · cases w with
              | nil =>
                have hoz' : old = z := by simpa using hoz
                refine ihd.1 ⟨[], v, ?_⟩
                rw [List.nil_append, hRz, hoz']
              | cons w0 w' =>
                cases z with
                | nil =>
                  have hoz' : old = w0 :: w' := by simpa using hoz
                  exact hi ⟨u, [], by simp [hnw, hoz']⟩
                | cons z0 z' =>
                  have hwlt : (w0 :: w').length < old.length := by
                    have := congrArg List.length hoz
                    simp only [List.length_append, List.length_cons] at this ⊢
                    omega
                  have htake : old.take (w0 :: w').length = w0 :: w' := by
                    rw [hoz]
                    exact List.take_left _ _
                  refine hiii (w0 :: w').length hwlt (by simp) ?_
                  rw [htake]
                  exact ⟨u, hnw.symm⟩
          · refine ihd.1 ⟨w, v, ?_⟩
            rw [List.append_assoc]
            exact hR.symm
        · intro k hk hk0 hpre
          have hdk : (old.drop k).length ≤ nw.length := by
            simp only [List.length_drop]
            omega
          exact absurd (prefix_of_append_left hpre hdk) (hii k hk hk0)
      · rw [if_neg hc]
        have ihr := ih rest hrest
        constructor
        · intro hinf
          by_cases hp2 : old <+: c :: replCoreF old nw f rest
          · obtain ⟨o0, old', rfl⟩ : ∃ o0 old', old = o0 :: old' := by
              cases old with
              | nil => exact absurd rfl h0
              | cons o0 old' => exact ⟨o0, old', rfl⟩
            obtain ⟨hco, hpo⟩ := List.cons_prefix_cons.mp hp2
            cases old' with
            | nil =>
              refine hc (cond_intro ?_ h0)
              exact List.cons_prefix_cons.mpr ⟨hco, ⟨rest, rfl⟩⟩
            | cons x xs =>
              have h1 := ihr.2 1 (by simp) (by simp) (by simpa using hpo)
              refine hc (cond_intro ?_ h0)
              exact List.cons_prefix_cons.mpr ⟨hco, by simpa using h1⟩
          · exact ihr.1 (infix_of_cons_of_no_match hinf hp2)
        · intro k hk hk0 hpre
          have hdk : old.drop k = old[k] :: old.drop (k + 1) :=
            List.drop_eq_getElem_cons hk
          rw [hdk] at hpre
          obtain ⟨hck, hpk⟩ := List.cons_prefix_cons.mp hpre
          by_cases hk1 : k + 1 < old.length
          · have := ihr.2 (k + 1) hk1 (by omega) hpk
            rw [hdk]
            exact List.cons_prefix_cons.mpr ⟨hck, this⟩
          · have hnil : old.drop (k + 1) = [] := List.drop_eq_nil_of_le (by omega)
            rw [hdk, hnil]
            exact List.cons_prefix_cons.mpr ⟨hck, ⟨rest, rfl⟩⟩

/-- Under the non-interference conditions of `replCoreF_no_new_occ`, the
pattern never occurs in the output of `pyReplace`. -/
theorem pyReplace_no_occ_of_conds (old nw : List Nat) (h0 : old ≠ [])
    (hlen : old.length ≤ nw.length) (hi : ¬ old <:+: nw)
    (hii : ∀ k < old.length, 0 < k → ¬ old.drop k <+: nw)
    (hiii : ∀ k < old.length, 0 < k → ¬ old.take k <:+ nw) (s : List Nat) :
    ¬ old <:+: pyReplace old nw s := by
  unfold pyReplace
  rw [if_neg (by simp [h0]), replCoreL_self]
  exact (replCoreF_no_new_occ old nw h0 hlen hi hii hiii s.length s (Nat.le_refl _)).1

/-- Under the same conditions, one application of the rule is a fixed
point of the rule: a second application changes nothing. -/
theorem pyReplace_idem_of_conds (old nw : List Nat) (h0 : old ≠ [])
    (hlen : old.length ≤ nw.length) (hi : ¬ old <:+: nw)
    (hii : ∀ k < old.length, 0 < k → ¬ old.drop k <+: nw)
    (hiii : ∀ k < old.length, 0 < k → ¬ old.take k <:+ nw) (s : List Nat) :
    pyReplace old nw (pyReplace old nw s) = pyReplace old nw s :=
  pyReplace_of_no_occ _ _ _ (pyReplace_no_occ_of_conds old nw h0 hlen hi hii hiii s)

/-- An anchor that is contained in its own replacement survives the pass:
it still occurs in the output whenever it occurred in the input. -/
theorem pyReplace_occ_survives (old nw : List Nat) (h0 : old ≠ [])
    (hsurv : old <:+: nw) (s : List Nat) (h : old <:+: s) :
    old <:+: pyReplace old nw s := by
  unfold pyReplace
  rw [if_neg (by simp [h0]), replCoreL_self]
  obtain ⟨pre, post, heq, hcond⟩ := exists_first_occ old h0 s h
  have hskip : replCore old nw s = pre ++ replCore old nw (old ++ post) := by
    rw [heq, List.append_assoc]
    refine replCore_skip old nw pre (old ++ post) ?_
    intro i hi hp
    exact hcond i hi (by rw [heq, List.append_assoc]; exact hp)
  rw [hskip, replCore_head old nw h0 post]
  obtain ⟨u, v, huv⟩ := hsurv
  exact ⟨pre ++ u, v ++ replCore old nw post, by rw [← huv]; simp [List.append_assoc]⟩

/-- An anchor that is contained in its own strictly longer replacement
makes the pass strictly non-idempotent on any document containing it. -/
theorem pyReplace_eq_replCore (old nw s : List Nat) (h0 : old ≠ []) :
    pyReplace old nw s = replCore old nw s := by
  unfold pyReplace
  rw [if_neg (by simp [h0]), replCoreL_self]

theorem pyReplace_not_idem (old nw : List Nat) (h0 : old ≠ [])
    (hsurv : old <:+: nw) (hlt : old.length < nw.length) (s : List Nat)
    (h : old <:+: s) :
    pyReplace old nw (pyReplace old nw s) ≠ pyReplace old nw s := by
  intro heq
  have h1 : old <:+: pyReplace old nw s := pyReplace_occ_survives old nw h0 hsurv s h
  have h2 : (pyReplace old nw s).length < (pyReplace old nw (pyReplace old nw s)).length := by
    rw [pyReplace_eq_replCore old nw (pyReplace old nw s) h0]
    exact replCore_length_gt old nw h0 hlt _ h1
  rw [heq] at h2
  exact Nat.lt_irrefl _ h2

def containsB (a : List Nat) : List Nat → Bool
  | [] => a.isEmpty
  | c :: rest => a.isPrefixOf (c :: rest) || containsB a rest

theorem containsB_iff (a s : List Nat) : containsB a s = true ↔ a <:+: s := by
  induction s with
  | nil =>
    show a.isEmpty = true ↔ _
    rw [List.infix_nil]
    simp
  | cons c rest ih =>
    show (a.isPrefixOf (c :: rest) || containsB a rest) = true ↔ _
    rw [Bool.or_eq_true, ih, List.infix_cons_iff]
    constructor
    · rintro (h | h)
      · exact Or.inl ( List.isPrefixOf_iff_prefix.mp h)
      · exact Or.inr h
    · rintro (h | h)
      · exact Or.inl ( List.isPrefixOf_iff_prefix.mpr h)
      · exact Or.inr h

theorem not_infix_of_containsB (a s : List Nat) (h : containsB a s = false) :
    ¬ a <:+: s := by
  intro hinf
  rw [← containsB_iff] at hinf
  rw [h] at hinf
  exact Bool.false_ne_true hinf

theorem infix_of_containsB (a s : List Nat) (h : containsB a s = true) :
    a <:+: s :=
  (containsB_iff a s).mp h

theorem eq_of_beq_list {a b : List Nat} (h : (a == b) = true) : a = b :=
  eq_of_beq h

theorem take_append_len {α : Type} (xs ys : List α) (j : Nat) :
    (xs ++ ys).take (xs.length + j) = xs ++ ys.take j := by
  induction xs with
  | nil => simp
  | cons x xs ih =>
    have h : xs.length + 1 + j = (xs.length + j) + 1 := by omega
    simp only [List.cons_append, List.length_cons, h, List.take_succ_cons, ih]

theorem take_append_le {α : Type} {n : Nat} (xs ys : List α) (h : n ≤ xs.length) :
    (xs ++ ys).take n = xs.take n := by
  induction xs generalizing n with
  | nil =>
    have : n = 0 := by simpa using h
    simp [this]
  | cons x xs ih =>
    cases n with
    | zero => simp
    | succ m =>
      simp only [List.cons_append, List.take_succ_cons]
      rw [ih (by simpa using h)]

/-- If a pattern occurs exactly once in a document presented as
`P ++ old ++ Q` (no match starts inside `P`, certified by scanning
`P` extended by the longest proper head of `old`, and none occurs in
`Q`), then the scan replaces precisely that occurrence. -/
theorem pyReplace_single_occ (old nw P Q : List Nat) (h0 : old ≠ [])
    (hpre : containsB old (P ++ old.take (old.length - 1)) = false)
    (hpost : containsB old Q = false) :
    pyReplace old nw (P ++ old ++ Q) = P ++ nw ++ Q := by
  rw [pyReplace_eq_replCore _ _ _ h0, List.append_assoc]
  have hcond : ∀ i < P.length, ¬ old <+: (P ++ (old ++ Q)).drop i := by
    intro i hi hp
    obtain ⟨t, ht⟩ := hp
    have hlo : 1 ≤ old.length := by
      cases old with
      | nil => exact absurd rfl h0
      | cons _ _ => simp
    set W : List Nat := P ++ old.take (old.length - 1) with hW
    have hWtake : W = (P ++ (old ++ Q)).take (P.length + (old.length - 1)) := by
      rw [take_append_len, take_append_le old Q (by omega)]
    have hWdrop : old <+: W.drop i := by
      rw [hWtake]
      have h1 : ((P ++ (old ++ Q)).take (P.length + (old.length - 1))).drop i =
          ((P ++ (old ++ Q)).drop i).take (P.length + (old.length - 1) - i) := by
        rw [List.take_drop]
        have : i + (P.length + (old.length - 1) - i) = P.length + (old.length - 1) := by
          omega
        rw [this]
      rw [h1, ← ht]
      have h2 : (old ++ t).take (P.length + (old.length - 1) - i) =
          old ++ t.take (P.length + (old.length - 1) - i - old.length) := by
        have : P.length + (old.length - 1) - i =
            old.length + (P.length + (old.length - 1) - i - old.length) := by
          omega
        rw [this, take_append_len]
        congr 2
        omega
      rw [h2]
      exact ⟨_, rfl⟩
    obtain ⟨t', ht'⟩ := hWdrop
    have : old <:+: W :=
      ⟨W.take i, t', by rw [List.append_assoc, ht', List.take_append_drop]⟩
    exact absurd this (not_infix_of_containsB _ _ hpre)
  rw [replCore_skip old nw P (old ++ Q) hcond, replCore_head old nw h0 Q,
    replCore_of_no_occ old nw Q (not_infix_of_containsB _ _ hpost), List.append_assoc]


/-! ### The repository's strings

The following definitions transcribe, verbatim, the string constants of
`scripts/update-handoff-standards.py` and `update-spec-guide.py`: the
three inserted sections of each script, the anchor (`old`) argument of
each `content.replace(old, new)` call, and the literal text matched by
each `re.sub` pattern of the spec-guide script (each pattern is a fully
escaped literal split into two capture groups `A` and `B` around a
newline; the replacement template re-inserts both groups verbatim, so the
substitution is `pyReplace` of the literal `A ++ "\n" ++ B` by
`A ++ inserted-text ++ B`-shaped text).  Long strings are broken at the
source's line boundaries; `apos` is the apostrophe character. -/

def apos : String := (Char.ofNat 39).toString

def context_budget_section : String :=
  "\n" ++
  "## Context Budget Protocol\n" ++
  "\n" ++
  "### Budget Tracking\n" ++
  "\n" ++
  "Orchestrators MUST track context consumption using these heuristics:\n" ++
  "\n" ++
  "| Metric | Green Zone | Yellow Zone | Red Zone (STOP!) |\n" ++
  "|--------|------------|-------------|------------------|\n" ++
  "| Direct tool calls | 0-10 | 11-15 | 16+ |\n" ++
  "| Large file reads (>200 lines) | 0-2 | 3-4 | 5+ |\n" ++
  "| Sub-agent delegations | 0-5 | 6-8 | 9+ |\n" ++
  "\n" ++
  "### Zone Response Protocol\n" ++
  "\n" ++
  "**Green Zone**: Continue normally, monitor metrics.\n" ++
  "\n" ++
  "**Yellow Zone**:\n" ++
  "- Assess remaining work (< 30% vs > 30%)\n" ++
  "- If < 30% remaining, continue cautiously\n" ++
  "- If > 30% remaining, create checkpoint\n" ++
  "\n" ++
  "**Red Zone**:\n" ++
  "1. STOP immediately\n" ++
  "2. Create `HANDOFF_P[N]_CHECKPOINT.md`\n" ++
  "3. Either continue in new session or hand off\n" ++
  "\n" ++
  "### Checkpoint Trigger Events\n" ++
  "\n" ++
  "Create a checkpoint when ANY of these occur:\n" ++
  "- Direct tool calls reach 15\n" ++
  "- Large file reads reach 4\n" ++
  "- 3 major sub-tasks completed\n" ++
  "- Subjective \"context pressure\" feeling\n" ++
  "- Before starting large/risky work item\n" ++
  "\n" ++
  "---\n" ++
  "\n"

def intra_phase_checkpoints_section : String :=
  "\n" ++
  "## Intra-Phase Checkpoints\n" ++
  "\n" ++
  "For phases that risk exceeding context limits, use intra-phase checkpoints.\n" ++
  "\n" ++
  "### When to Use\n" ++
  "\n" ++
  "- Phase has 6-7 work items\n" ++
  "- Phase involves multiple large sub-agent delegations\n" ++
  "- Entering Yellow Zone mid-phase\n" ++
  "\n" ++
  "### Checkpoint File Format\n" ++
  "\n" ++
  "```markdown\n" ++
  "# Phase [N] Checkpoint: [Brief Description]\n" ++
  "\n" ++
  "**Timestamp**: YYYY-MM-DD HH:MM\n" ++
  "**Checkpoint Reason**: [Yellow Zone / Red Zone / Proactive / Manual]\n" ++
  "\n" ++
  "## Context Budget Status\n" ++
  "- Direct tool calls: X/20\n" ++
  "- Large file reads: X/5\n" ++
  "- Sub-agent delegations: X/10\n" ++
  "\n" ++
  "## Completed Work\n" ++
  "- [x] Work item 1\n" ++
  "- [x] Work item 2\n" ++
  "\n" ++
  "## In Progress\n" ++
  "- [ ] Work item 3 (status: [description])\n" ++
  "\n" ++
  "## Remaining Work\n" ++
  "- [ ] Work item 4\n" ++
  "- [ ] Work item 5\n" ++
  "\n" ++
  "## Sub-Agent Outputs Captured\n" ++
  "[Reference any sub-agent outputs that should be preserved]\n" ++
  "\n" ++
  "## Resume Instructions\n" ++
  "1. Start from [specific point]\n" ++
  "2. Use [specific sub-agent output] for context\n" ++
  "3. Continue with [next work item]\n" ++
  "```\n" ++
  "\n" ++
  "### Recovery Protocol\n" ++
  "\n" ++
  "When resuming from a checkpoint:\n" ++
  "1. Read the checkpoint file first\n" ++
  "2. Review \"In Progress\" and \"Remaining Work\" sections\n" ++
  "3. Check \"Resume Instructions\" for specific guidance\n" ++
  "4. DO NOT re-do completed work\n" ++
  "5. Continue delegating per the delegation matrix\n" ++
  "\n" ++
  "---\n" ++
  "\n"

def context_budget_checklist : String :=
  "\n" ++
  "### Context Budget Checklist\n" ++
  "\n" ++
  "- [ ] Context budget was tracked during phase execution\n" ++
  "- [ ] No Red Zone violations occurred (or were properly checkpointed)\n" ++
  "- [ ] Sub-agent delegations were used appropriately\n" ++
  "- [ ] Checkpoint files exist for any mid-phase pauses\n" ++
  "\n"

def handoffOld1S : String :=
  "**Rule**: Any spec spanning multiple Claude sessions MUST use handoffs to preserve context.\n" ++
  "\n" ++
  "---\n" ++
  "\n" ++
  "## Mandatory Requirements"

def handoffNew1S : String :=
  ("**Rule**: Any spec spanning multiple Claude sessions MUST use handoffs to preserve context.\n" ++
    "\n" ++
    "---\n" ++
    "\n") ++
  context_budget_section ++
  ("## Mandatory Requirements")

def handoffOld2S : String :=
  "**A phase is NOT complete until BOTH files exist and pass their respective checklists.**\n" ++
  "\n" ++
  "---\n" ++
  "\n" ++
  "## Anti-Patterns"

def handoffNew2S : String :=
  ("**A phase is NOT complete until BOTH files exist and pass their respective checklists.**\n" ++
    "\n" ++
    "---\n" ++
    "\n") ++
  intra_phase_checkpoints_section ++
  ("## Anti-Patterns")

def handoffOld3S : String :=
  "### Critical Rule\n" ++
  "\n" ++
  "**A phase is NOT complete until BOTH files exist and pass their respective checklists.**"

def handoffNew3S : String :=
  context_budget_checklist ++
  ("### Critical Rule\n" ++
    "\n" ++
    "**A phase is NOT complete until BOTH files exist and pass their respective checklists.**")

def delegation_rules : String :=
  "---\n" ++
  "\n" ++
  "## Orchestrator Delegation Rules\n" ++
  "\n" ++
  "> **CRITICAL**: Orchestrators coordinate, they do NOT execute. All substantive work MUST be delegated to specialized sub-agents.\n" ++
  "\n" ++
  "### Mandatory Delegation Matrix\n" ++
  "\n" ++
  "| Task Type | Delegate To | Never Do Directly |\n" ++
  "|-----------|-------------|-------------------|\n" ++
  "| Code exploration (>3 files) | `codebase-researcher` | Sequential Glob/Read |\n" ++
  "| Effect documentation lookup | `mcp-researcher` | Manual doc searching |\n" ++
  "| Source code implementation | `effect-code-writer` | Writing .ts files |\n" ++
  "| Test implementation | `test-writer` | Writing .test.ts files |\n" ++
  "| Architecture validation | `architecture-pattern-enforcer` | Layer checks |\n" ++
  "| Documentation writing | `doc-writer` | README/AGENTS.md files |\n" ++
  "| Error fixing | `package-error-fixer` | Manual error resolution |\n" ++
  "\n" ++
  "### Delegation Trigger Rules\n" ++
  "\n" ++
  "An orchestrator MUST delegate when ANY of these conditions are met:\n" ++
  "- Task requires reading more than 3 files\n" ++
  "- Task requires more than 5 sequential tool calls\n" ++
  "- Task involves generating source code\n" ++
  "- Task involves generating test code\n" ++
  "- Task requires broad codebase search\n" ++
  "\n" ++
  "### Orchestrator Allowed Actions\n" ++
  "\n" ++
  "Orchestrators MAY directly:\n" ++
  "- Read 1-3 small files for quick context\n" ++
  "- Make 1-5 tool calls for coordination\n" ++
  "- Synthesize sub-agent outputs\n" ++
  "- Create handoff documents\n" ++
  "- Update REFLECTION_LOG.md\n" ++
  "\n" ++
  "---"

def phase_sizing : String :=
  "---\n" ++
  "\n" ++
  "## Phase Sizing Constraints\n" ++
  "\n" ++
  "### Hard Limits\n" ++
  "\n" ++
  "| Metric | Maximum | Recommended |\n" ++
  "|--------|---------|-------------|\n" ++
  "| Work items per phase | 7 | 5-6 |\n" ++
  "| Sub-agent delegations per phase | 10 | 6-8 |\n" ++
  "| Direct orchestrator tool calls | 20 | 10-15 |\n" ++
  "| Sessions per phase | 2 | 1 |\n" ++
  "\n" ++
  "### Phase Split Triggers\n" ++
  "\n" ++
  "A phase MUST be split into sub-phases (P[N]a, P[N]b) when:\n" ++
  "- Phase has 8+ work items\n" ++
  "- Phase has 3+ \"Large\" work items (6+ tool calls each)\n" ++
  "- Estimated duration exceeds 2 sessions\n" ++
  "\n" ++
  "---"

def new_antipatterns : String :=
  "\n" ++
  "### 11. Orchestrator Doing Research Directly\n" ++
  "\n" ++
  "**Wrong**: Orchestrator performs sequential Glob/Read/Grep operations\n" ++
  "```\n" ++
  "[Orchestrator]\n" ++
  "Let me find the service patterns...\n" ++
  "[Glob: packages/iam/**/*.ts]\n" ++
  "[Read: file1.ts]\n" ++
  "[Read: file2.ts]\n" ++
  "[Grep: \"Effect.Service\"]\n" ++
  "[Read: file3.ts]\n" ++
  "... (10+ tool calls, context consumed)\n" ++
  "```\n" ++
  "\n" ++
  "**Right**: Orchestrator delegates research to codebase-researcher\n" ++
  "```\n" ++
  "[Orchestrator]\n" ++
  "I need to understand service patterns.\n" ++
  "[Task: codebase-researcher]\n" ++
  "\"Find all Effect.Service definitions in packages/iam/ and summarize patterns\"\n" ++
  "(Agent returns summary, orchestrator continues with synthesized knowledge)\n" ++
  "```\n" ++
  "\n" ++
  "### 12. Unbounded Phase Sizes\n" ++
  "\n" ++
  "**Wrong**: Phase defined by feature scope without size limits\n" ++
  "```\n" ++
  "Phase 2: Full Implementation\n" ++
  "- Implement entity service\n" ++
  "- Implement relation service\n" ++
  "- Implement extraction pipeline\n" ++
  "- Implement grounder\n" ++
  "- Write all tests\n" ++
  "- Add observability\n" ++
  "- Create documentation\n" ++
  "(7+ items = context exhaustion risk)\n" ++
  "```\n" ++
  "\n" ++
  "**Right**: Phase sized to context budget\n" ++
  "```\n" ++
  "Phase 2a: Core Services (5 items max)\n" ++
  "- Entity service (delegate: effect-code-writer)\n" ++
  "- Relation service (delegate: effect-code-writer)\n" ++
  "- Core tests (delegate: test-writer)\n" ++
  "- Verify builds\n" ++
  "- Checkpoint handoff\n" ++
  "\n" ++
  "Phase 2b: Pipeline & Extensions\n" ++
  "- Extraction pipeline\n" ++
  "- Grounder service\n" ++
  "- Integration tests\n" ++
  "- Observability\n" ++
  "- Checkpoint handoff\n" ++
  "```\n" ++
  "\n" ++
  "### 13. Late Context Checkpoints\n" ++
  "\n" ++
  "**Wrong**: Creating handoff after context stress\n" ++
  "```\n" ++
  "[... 50+ tool calls ...]\n" ++
  "\"Context is getting long, let me quickly create a handoff...\"\n" ++
  "(Rushed, incomplete handoff)\n" ++
  "```\n" ++
  "\n" ++
  "**Right**: Proactive checkpointing\n" ++
  "```\n" ++
  "[After 15-20 tool calls or completing 3 sub-tasks]\n" ++
  "\"Checkpoint: Creating interim handoff before continuing.\"\n" ++
  "(Deliberate, comprehensive handoff)\n" ++
  "```\n"

def guideGroupA1S : String :=
  "- External: `web-researcher`\n" ++
  "\n" ++
  "---\n"

def guideGroupB1S : String :=
  "## Phase 0: Scaffolding"

def guideGroupA2S : String :=
  "- P[N]_ORCHESTRATOR_PROMPT.md - Concise, copy-paste ready prompt\n" ++
  "```\n" ++
  "\n" ++
  "---\n"

def guideGroupB2S : String :=
  "## Creating a New Spec"

def guideGroupA3S : String :=
  "**Lesson**: A phase is NOT complete until BOTH files exist. The orchestrator prompt is not optional - it" ++ apos ++ "s the primary mechanism for starting the next phase. See [HANDOFF_STANDARDS.md](HANDOFF_STANDARDS.md) for templates." ++ "\n" ++
  "\n" ++
  "---\n"

def guideGroupB3S : String :=
  "## Related Documentation"

/-! ### Code-point constants

A Python string is a sequence of Unicode code points.  `strCps` gives
that sequence for a transcribed Lean string; the repository's long
constants are additionally stored packed into a single natural number
(little-endian base 2048, one digit per code point), which keeps kernel
evaluation on native `Nat` arithmetic.  Every packed constant that
embeds source text is certified against its transcription by a `_src`
theorem. -/

/-- The code points of a string, one `Nat` per code point. -/
def strCps (s : String) : List Nat :=
  s.data.map (fun c => c.toNat)

/-- `unpackCps n v` decodes `n` code points packed into `v` in
little-endian base 2048. -/
def unpackCps : Nat → Nat → List Nat
  | 0, _ => []
  | fuel + 1, v => (v % 2048) :: unpackCps fuel (v / 2048)
/-- Code points of the anchor of the first replace call of the handoff script, packed; certified below. -/
def hOld1 : List Nat :=
  unpackCps 123 11045006343299913301011602555773408734545122790953266620413701197789999842809677998170197110347116806488884957201448280063154033825363535436865634454767561755513782241528871411115373087669863291918172380586616867736613319265417919780170123687574915657822349017107756298802734902199538168767489450625018192722050453360685660028267554365803945155579295663063408032325127828355241364392177047810612760441606186

/-- Code points of its replacement, packed; certified below. -/
def hNew1 : List Nat :=
  unpackCps 1085 3488028990461769371655622889560336155823213510020237904091915549006579247639122390793502494631251899702963333183054184366317899898072843036328503413555309614611837398353263569933738613905732964060629182650613481715235520880192198947728665360797805945133134853121058993231637360395474302268672593045801080567841980534985588271021368773841645610369785971824928206859337661462641851363728574995795073239682874633275169699246214752874768268701292367985815198926671591522191238152993377713529596488885122180146748036362673432573028401899787062337284067056829848571308621888409166014842294357010763907483683116625804095371777508581067956666060008865990569408481865432591398440339823062021152761245333451209092589349444368045623443902583654032850180248855793518646389930004808797926407527520867000628735510352613024213785937222846275852706365233066592987384074715651977022121359220076240654184428549059612912516137898690440536419324851123576461102311513205408306608379880765918001321630352750338176895957830884525894695118289397461951328244213302240151462062141844537598389769022174466901522934367840887114433614991194650126874057184279171226648913673859493215505452883647063604548769540336938595044885094459560638826676727019575880940424635308248351022749457580032571309989282240698119765256390214050813417558293804091931802489691633302233491407723618375082689565274944730387144118250694058003567113764840658485885767591043439110854551789232009631848659740343816622198330368577101694514064014807898422476373014308133175122442616861629733492869894240630976670848070151520910874280438511638943294010302772494342049088547836759141906694128107705124039359115532329612337798884951681395049501007096723800923965555135086506999288430959332814688139242767218833584792861958818343954861908627870284027571846208447433139912292671385478905160166007287691662262693668578454187241278826886272633829727019388251267377167079933285028705480950781418515698193168235530007591494296852587055921891824217071900499923305846748339068448940478081027749805474111252365018239155516035254782953010593390549571001371833836866040036415545057936867780499379116957849422282313301507889496121740108664873802774316743103884115715773718199423498189389062279212323436856821545466326339180714883704422463146062263951181203417979692190276992871853582932290927266937383238399118358799941757735857082132233858857798217035877666941835729228990011090705926244295449805340694377376505277719877844921673455443210117097230730171747992762180731883852282223232836305563121248348201741538318618476035399483050524935637632870825164683752918789982794370835009822974180370937987529163980634660624842905988358513988088266050839801565963947977615382898405778816275288653828420295824320901336298452003512286436895597629118160356099005387501010059593102810116906130749995436066508686230519079254970799229708745586008756862699903999952851724647805241681609484575035438714016423629657659506976374828090450524081209520416044742493609229874500070728025577716273785573012640338751204846317478459621117532467517362404203049235352063874990781779461326703942031045286250404738371094210163900518619020031237243753657032492111496152207947196640632325468332129845814267876284796147148025141055715581971840401046913197346940352627651991132347807579403348089108987924488863988965729874965999597765401949284284982185126442314016186181038040872412435910619569987674763274690259334765577071436436955806344430833565465465094984823335362733685920666331107105248832835305358090341675074016534344087905762122365247880434792082052701258270182612915306423651118578866933802

/-- Code points of the anchor of the second replace call, packed; certified below. -/
def hOld2 : List Nat :=
  unpackCps 111 2028595636586774707187108968237380719282201697722561670378890554074922082510217346091055543486275768749976406613708321939112019615381712415253451424211093446739318686043573390216957245101328215052687746356019513184080440343792924493315793413061328569434406212146897433400035388677356215486255268995453322787777347056261356889153660339820122418835738913699213229510698

/-- Code points of its replacement, packed; certified below. -/
def hNew2 : List Nat :=
  unpackCps 1323 435609837712033308856713654891300398446256774372774628907551914711019672541644765098977278766393403543457884456344980713999178963636479678767808917238023791773424539056313503172466667356697742584901489820407027083708718010932339667328304696797358635479828954652383019995387765733279713556730606678772849636330196766160570100502170821839343504957063777433534267398236291195634889879355694679369081019925322285223631295393383822564923572086658391281210571244995443888448113027289784128871148861542996762846792147532424507397905439313278090368847110293902595185420417707388765736432806460872693568704385881490889452303017532398441747790296031136297266894394111235549404777916173131091502077394464269903109070534709351483648039278511752164178081340027932608479277586891985357817471158938454504933234560098136666647852231942199128909915026021623238169967612756990944666931950715645461619642296005706593122888895638397320392901805901436025917268154360979780955585971797904303803839992380384996296463183239352550902702691306591923012651620016209483481897256977474485618077968656441913777918076012112465713740104370492859977637012866682680797023689575555999305192381757068932212106008779837818799077304636124210801106699258244905454440183015531670569817257703731155264541864697719637544225194996859121622256856341756439787123673256594778827600311994404373615214838958059121370919008226589448236358834791901685918351224378273969830249576454874239461616847549322695112354273721305559277289759223444243227258635839888327912455856532599518453848041575719117573970465318946371454998923767321247758405786502333717470659413052317919104580144210901724022949256884147117931750759186232651179963633686716914258696410842344783033137365965493413076232591884450575892430549293721733470452460182588333562337380355936001197225469056378032178226623177620528409919794776681965253474005661411439901361353468467156918158348462079709178261202807290936638500064107145823119557869645820553645289623630138842175228062025171393189287994127047968137737889793319675198613764844853294979032310456052132191758078813237099469552444371407270228704347103949738082726601396292625127542609866702351424206027501234861228293678185151377302922564865398456157634792508749417800827683050032804624425275582775300469910622884332670471305643630419704135879494771482672097485318365642587313712792084003523863956426566245555487630785632952646360904239464931210605068702984855263458317786756659923571821856578217974183883369275260035171749229334891847093619620780407564872175947865877982212225153830975486099150968650308455375413515593932512367753249347663897627790604459434395657632936972286407613520253268236249904683146686852555234060952673488346244945660467820006464736615012830694503360698821463361255786886231301356528890023423764717792380089276251255782659559005206788444128728738459838024283511373676873848257166754918486243022149356650849026711359255433267530271914447108072500110101916016706005701210146715344311487631786979705854722048463188358776871912575027375631064936174585115025551434905299729935387563018444255832796596553019776228298139159870134056585369840299131768110170148794427691976830394284037636623634347751262256455833505412597638115703771161701406900172165021974625510617234575800216616035675018998514630531165806916073460846217416155908550424321625673928234495127228092083781521764056669878573950473343330170112442950780216335875355198894002167739317890645207625511093233506120403314957735406047109129813999998691147520098643794634553666116326325537018148346787611516023813960164228537906514899860625801469522075347853762433348550054953515197268847295223810954418902599410407945169049417710291552917938632520487739010340194539640827974477651582311375011693070404168798137304094756934297700851020595655925024238974870693748621698070039086521187284407071997864243221387074576202125539815642671074853131449403598473131520586197010941180672553942672704782912320766971293841597979596838055772321840319461196557779739684408686412467527157569468932863061574117807601732376767121480893074972317587458346350707376379021242704039936949584177214668929653540205970246580558540548981297724139730358455033112474609264252562066978566218230284438870700037159887208473502607219415655585183039646413778445515684428816912994134421885434356727877844097476814187765646305566602589681104298754223137220014339018436159836606506

/-- Code points of the anchor of the third replace call, packed; certified below. -/
def hOld3 : List Nat :=
  unpackCps 107 42114956280362522913194532923474451142155160014200274153448940974956459434675800837286381078767966834570725131039812878081056052652798054638798415620631467497408511083066059080674810225477194017578636800357653061002013631830114271213734645864653387160766877541215879638935840405719182771491337839880690037771275430893345900464398672599049386571245623331

/-- Code points of its replacement, packed; certified below. -/
def hNew3 : List Nat :=
  unpackCps 371 653948822897333426154470438311525465836440239989157205787999162617400961144637741388951197593383759819548486170998634425527274939314384272528102824747481963560322797262492040471248015658885043968186113772890736892142039888633776038853638504975312501193046514934046482495285607305354572193794332303653707381378558346886340111047484004291652979788962213412358921702014717595126712126105808652077967576976619067442881424644841855270126046824968304723814067112877805242532122929840854330041012763835214139128401387920807884496606280901928617693717251073759478007317894890691442279259177977747491876872030865717783940503945915015523106536696400240987934981183633090188268795349295757943275019108025757354146931256979764929242877118227780548621666187036560034406949366480110749374236722246367731332670740544089100514045546628230373295259060317528660189393565188190240469358648498074482281897898471584726538781234597659852103364111307763736031640398554065774464639298798260050886614890410749212061542460771236391987729969776495117676076674370713362134715455701427608782991549087760404744055060790520530834865808705177239524077790804996725325488869360634030005576162692379551985190675247364513878347126728659511116801068509052620838922

/-- Code points of the literal text matched by the first re.sub pattern, packed; certified below. -/
def gOld1 : List Nat :=
  unpackCps 58 57394598492065731510985943812465556077335540782889470015747689699985979756340486840343734289872604105093457804865868044210772868414286204316659050038503078818267921360365910109480875966136365

/-- Code points of the text it is replaced with, packed; certified below. -/
def gNew1 : List Nat :=
  unpackCps 1396 20813600029839709143115199921154893840722812067940031578810469280016258065188456659784143039291544008524625818245690637107019164557562781775980700643595913771731657542150215619825686712133505720597662006378119908569374294039117368867362556270525717528903666636760239524755123647765731172950737404618307264493736914853613284928046172803744468331182245062167018710582406602121733580743776479081717755836257095350062763884114903694506789977884963132132445375322362497017876381119353446805155587059193401177834274579887583594191704635612064285201777349952278014126608481909547206685453118732972815941315120419185626385921055877362049733931372677082496694212418293908558327546433227592834998300076020414642508610448608262153576451275621393046962179838973935948071810402945350816608395125986161594122046512647029989205136505559052044201946458838301495512439865848390340109548536940993696429638145375701685567933556735151343235424032948421572198398642103147576442672546467692084300198398726108080882223592635264637298302089172578404460315282478275252307339849981430846484877290162602481049905251846264558415657073287858106906752051773867772481668199069049608069664616012402030876555430908811128442004770063214079429388107502314453895774143408730271626523562599099509360456499777096961548943748822043911961071738971526190229635697600651808527281980093323118731882393246727420795006586172989595847582720677548136545974822619114938835407327216289989652414858995148745091956902557516706276463050086751648887674922591739621514044525094119366527300625951054402986343354776008854861772449158029434967973279084002558330914339380918184538053699163895578866965241056046174769189449147715845873965938257643254042220965790576586094383162118185150907731810616430806465074683066224649461131093702572985111086865047713855978468672618386735221320450270198737998140150820874146862542908428603130626893687614204221618718883154725710061344797836628259141955594118569777569302181765261894149172518624491679652102768364996160248909240269356659678679988463307544512348529313410251043133291067055669164800016534083381027979804149144678332006703731358673923795557430906373323269028088431783840389008083693735925569043115504247134595189592985649751501429387932214441894510255625429570579954252642346530587237555349245454992857031173986263062679486016731310761631150509105978030957451354942392319490981456303682122841744326572038349358243023655675365891898297634762148943207225912937415251778226243366014968283191301385727330887615411563352541651218097738962679852949299577012581403341282874693051905855338607774762148935158150905780505868909606119886820360122591991383891501739271476298408688190901062907570612625132675282775619117042951671405152470027912491980795371059532285665943199449332146052979440402055638788820289524006694131106617554114729669279104593350183943194951818500406321744792683682933132289378659985545254336923195987155442673285681975010111795934951913437776880835029612824891048832444921785946379842543216065902729818334657120332230061781906058837230863096393235849166045883025756978972321958768340327127964010698480416988586657362517696177049056237778159007532073539396634061267896778809834004831784728856840897145671569272478811568791117476275346323536586963943922048891878194076518266503107487194817092439997658140721652822483719722379111257253550608860763044501803357785930987892509131564996983083053214337209936984824631544110726969456354067495755512121727989634845739049764628344291428845859999849607790708296712166093018016676579022762683230236779371829476049829969228531982282649967001356947773228045117744844131448934059242452739237461769765212662419952623145414857279370452556893639569278990836737125641556892873216237980087710959170249351159379941785589454147969649879734456580819863460984181017367171262704023536613843081001422481300658149186890290931908660156859568709842780481783332990507545388495940240901064628798497525190940411984692711731078433307925343792970087267491762458455111771314391266649779075420353815519139766274056864757325006810010745584305059772272530463792740021614496973565489013938305671813315890355732757243587505304174917871635778140733463347306258590270688025221318822347211714623802714226669659257919112808793418114197823926606056603978640641260108372149460410734823335239065952422469135230968517752737701731680691965047212951896591612144258103035129086056608330583268901745411093139395683026931133225663670995285589085391988582569261374585800699086367829133525540586697972075035269467657226609678422494933438878842497509301271086111874623656318158121218965185504199023687599298210695907052159021

/-- Code points of the literal text matched by the second re.sub pattern, packed; certified below. -/
def gOld2 : List Nat :=
  unpackCps 97 76476326888477709087002365677416829588710889984112969965303363687701696640847403743225571206701138868727215136959385971672563687796383586828706591069207492001909210633256890862037824294113663646473475443375008625203080931576546817275234167072951707236369117593144132944555851261763360194288412188814322292223733856796717

/-- Code points of the text it is replaced with, packed; certified below. -/
def gNew2 : List Nat :=
  unpackCps 591 479207337174049308615158658810200646701197341262084573604640059391337731218384008398312524155877352821630631711696638303345998036970163980381666780870392893607001032265374859569129111479541224657046023175924821759393733243754112568817335462899195861067655979156083862316665934255940641234580466824408244103609182804862495808478555264304788692977270641989989501947094669439949263904003051953028020286150675454117287713634342782887524842062837801755874172569937107559204060851252743949802398779501944106457329222680278577324992154080985518403724940402251351517444649210873740711247915827750254057625129886645198841486670416152015865585271255226759727718255168597190637909943687237254445681353657590163829194165044113272477047989238939460057333906346992569931956780314811585608238636477829024082662009041525236555043937812423487700758194282625082839132620036846450798576702739527052303251506481568911688381956599224454337642014493674774095229955156961234748747367290422840302125704541214350208893016937201094308513140302831483419347565582559596449740897537226820821994535268885180719802625185259626893073715023814550407555480453963193313146295437867064169973965841896578014238312393489364311057321677906115443564875083776115323648662664153312317873638914729561522147295052519042375168967713843699695389008300203955734416766042513439944189968519384978651084268100415521670973637984596569464186371570776077070232808854096207484488296733748412390894098512280085898197296946601052594686617331781641567251368385836775518766206835188476988096350405212540766426506163438203225668282717276427668352192374524159839198182590738625345843319055445907217451828785435200515023018449120117324126600560263784546182311087170934192222144641895994120785648299157541409512808766499406573443535731104620521645136836903889264380914774587400416760400164577813582180273653869574117189199829279571542580208844623700972751651282196798603189265618836812277453881667146608595872516210733

/-- Code points of the literal text matched by the third re.sub pattern, packed; certified below. -/
def gOld3 : List Nat :=
  unpackCps 252 153258561603862480840796627696938005783419210958796403418754585007004778723057327693970284438174554974064408863299290213011002851324834639338172682834346151808872862328820136527364685885764372734803161537939724989018600954255858018868566961327368997690239930971974385401268895419386866238385616801878285727362104028269081621038480468630866527672025720053574909065879448486101725672858105449970015125253866253346325512003546496336466093687743783571910862926206585273237376387876237146762307370774578956662237431824691159010143436452649950865858840528234106512416321345349229789476690471730404679828499096884878107343261391950063832254715104016117045539810622904229864263498495595600121127416800858792946775346959079958591693791292361874391325096667601340775481188735260210500442328365435744029947330774153715962645818038290235047104554

/-- Code points of the text it is replaced with, packed; certified below. -/
def gNew3 : List Nat :=
  unpackCps 2014 56079057305494934678566630761009798358286140641526524378439420593924484240819870532275940754298744143362870867038647066303597026036039291253617840729763975550514321365764696621045688385904019185043495858632131512980556826393478066196628590836465052958803819889509434020082370619912268312719195007515236817402999974556419948938558877009529968822955191958459802253714582280174623707613507034441036671449806753763535934975092167421420023554077527139688743803764493459568043260506681941621085837033387414816140017606047376547661251712614828498547687476369173003989688152326405321624578810511912099714825475316833450305757254964816028385475239196174293990718385836639977683472968394887447105497559062653701224481670609175963801150269707185269585941053008702158484010979386767442264166177472223171389114964289332795225430484697331085902156157756986085317042387204496042295300981643129746398820069555077353206849789573890848214206685583911009357628962342140069233567859745834229760152555366524768933969611557820371203130227645993083592674373869162900694031210267314330888661685796134672805803882978780564696839544203790365265536442721481634529502067902265420913628203942472848685669682592158442480796819530061706173884973486110455426948426519168062731418687243863061969895484058794223317737664690271083314897117528741791319978421270937229905706446298362649650004702745677758796292579937003361447793561443948069866506600039679942090990822696654773221143855126709190945860864017619935092301903393022233091761558398107313244631244993329249441933443874294379418678826127265875378750393308235339836476557502191470168946840636646805695942666571927706439990572477895609822816114306142682169766676249051150987965637385155231057641053826708973783742570731687011875195309715254664560135931897373264858292327488961766658209015014510381321039420700824168778613671035626230671781029498613452418450256108191972785679773402060556239211399857585100086806098041041746929012184585991294929189634351024235735410242196112460761681199598255312507429124231447497585996526252536601238098945581408358376695911163232614112888091369847915313869250144850074755203064438949788590645225903088688033967965192976656120891045463749381040567726571508446524410877715263678091147440364333423728848328225211092435569327506470637371508532730577927820557628989549825295933095341943720701444213206657753662104089160001783666990788889010004980079593837766529810721491463724511319821014902841332497135197237098616993934038725518333765235285283095311306880484128442436684463588363307974867697371185127334546775139521201534871142340650099200157417749855386641100547801015251023546352427611134019681609766608919916923251120111329704715191818247091308854059479603620438674474868484326666557452247484394088473015335063238833649796728374957914325206872761934277192452143757547113026075408988685749103676024129592032766326559090859258180778660591155254218809621235986741508875319234661037534858260475180326811401786356740057335707851681682350062892039944378399603289117782391329373346671761011842947197862911618031788874819273118349425311227021119520141964066609999282737844388901231476970072572110024814334687933619982909749670478239400720229092676242370199608834821491174504666261187116335164197328841104694201972907837181353555157275490157054106905775476009683440324174023002839514810287571910704543035254745691123329577425403097950092509378197441890356322098019719819683542010469368636099572532084752854800639556398651671830836383860914266439623634082374837743319527577276470096231827500325965802565152199580024250179025809286207783963445223917778400421044285911321585508002744899538150505581224040604115819183105710015334317809860513191992036755136208289081805812474569312662817795619401163898680395634788026483603168400430380585346181180559898857667751429248757503935204918343036940148904812448993085371055424704083864359299597976771298350622967421773459681414788124291632592370518746354792383701761947055184963103878893489380717629092903254380443971152708303595718288035925928088818373765561524839933393797983229065765752327332427990776517793606860128088032525995563232940666034863244938078778729818981500441262194439469527364520326777823968643933332613622289363328893424246055494194498679667344996633829550764722248523018371471288402360370081194056600299493176425818322148749368733337843065705809477912502614640479193997159496682041227156544610652323934715322396031103888949593315498498970308893400361591482116307985341680996905263887576280423714182879112098462676185128474170535958852605327356235304555988887543083307703058700246542275276062314466591454068470423994733858722890900903463152935417404475297685136784609189771710142862909146741057764016332404693500778436566297048310351361844857809369329664121808144038808002854331337777679630101990175718445288442954937463664641214972191281954233114951930437198125883106395249949259209057950986530099045636892406374838306945795786441814305998717652109957081452709675572988846292956111510480907849818869993954541628318659075887725842125511958586362886908190665843760225627694694197079255953439555021105716456018521551678417862800258585928341957639116689742183141372667082678068499602726171942104636992455527484652454890083776753884543201187588065538910246683046393612277615790102903048389160580240666045099190454793542097275079753317164884793950254115717530224382539290552874547856602869331818001290232942688317743817724392726268187239614772625285254175321717989107449873294656963981270779677493310596183679673568031461682866861751037943515452532894469625349609341820438465059370613782042435172084901031539151997475618531549554785212945176542156693598354870734570060038523495675414053686748784366277370510708582667504850773819501114933628394122501647357270558049974150919595238352276067567713977939207017840861946118215738524112152379985722997989425184417856295069593612666363746903621440719508176041260623812151563641102934707617590969681176652932209110777760216441563504945208117765564536743356488527226691460673976242354250538857139006722068972153716651337781473955302568061714208884543181388482354438400911115770272363320660579959449256782020500672226696688786809536743070337552346675000837952179387466658298859876288595782659448007304943925254040168413249128810158941600645693166673431032274104975587010166624853437913094678275020533051340453876747692148298559912757283699201554657794954777126453309425732240729875959726334067613207947298323811499484739689199461963048228858093883041553009593506200268952280155635844623223758557420004780555917909227911404736125909296552275288105156383285270562325838044536149721998049714692479432024061799617816647377380454780970

theorem hOld1_src : hOld1 = strCps handoffOld1S := by decide!

theorem hNew1_src : hNew1 = strCps handoffNew1S := by decide!

theorem hOld2_src : hOld2 = strCps handoffOld2S := by decide!

theorem hNew2_src : hNew2 = strCps handoffNew2S := by decide!

theorem hOld3_src : hOld3 = strCps handoffOld3S := by decide!

theorem hNew3_src : hNew3 = strCps handoffNew3S := by decide!

theorem gOld1_src : gOld1 = strCps (guideGroupA1S ++ "\n" ++ guideGroupB1S) := by decide!

theorem gNew1_src : gNew1 = strCps (guideGroupA1S ++ delegation_rules ++ "\n\n" ++ guideGroupB1S) := by decide!

theorem gOld2_src : gOld2 = strCps (guideGroupA2S ++ "\n" ++ guideGroupB2S) := by decide!

theorem gNew2_src : gNew2 = strCps (guideGroupA2S ++ phase_sizing ++ "\n\n" ++ guideGroupB2S) := by decide!

theorem gOld3_src : gOld3 = strCps (guideGroupA3S ++ "\n" ++ guideGroupB3S) := by decide!

theorem gNew3_src : gNew3 = strCps (guideGroupA3S ++ new_antipatterns ++ "\n\n---\n\n" ++ guideGroupB3S) := by decide!

/-- The confirmation lines printed by the handoff script on its success
path. -/
def handoffMessages : List String :=
  ["✓ Successfully updated HANDOFF_STANDARDS.md with context budget protocol sections",
   "  - Added Context Budget Protocol section before Mandatory Requirements",
   "  - Added Intra-Phase Checkpoints section after Verification Checklist",
   "  - Added Context Budget Checklist at end of Verification Checklist section"]

/-- The confirmation lines printed by the spec-guide script on its
success path. -/
def specGuideMessages : List String :=
  ["Successfully updated SPEC_CREATION_GUIDE.md with:",
   "1. Orchestrator Delegation Rules section",
   "2. Phase Sizing Constraints section",
   "3. Three new anti-patterns (11, 12, 13)"]

/-- The in-memory transformation of `main` in the handoff script: the
three `content.replace` calls in source order. -/
def handoffTransform (content : List Nat) : List Nat :=
  pyReplace hOld3 hNew3 (pyReplace hOld2 hNew2 (pyReplace hOld1 hNew1 content))

/-- The in-memory transformation of the spec-guide script: the three
`re.sub` calls in source order. -/
def specGuideTransform (content : List Nat) : List Nat :=
  pyReplace gOld3 gNew3 (pyReplace gOld2 gNew2 (pyReplace gOld1 gNew1 content))

/-- The handoff script's `main` as a pure function of the file content:
the content written back, paired with the lines printed.  Both scripts
are straight-line code: they always write and always print these lines. -/
def handoffMain (content : List Nat) : List Nat × List String :=
  (handoffTransform content, handoffMessages)

/-- The spec-guide script's module body as a pure function of the file
content. -/
def specGuideMain (content : List Nat) : List Nat × List String :=
  (specGuideTransform content, specGuideMessages)

/-- Modelled from the spec: the target file `HANDOFF_STANDARDS.md` is not
part of the repository snapshot (only the script that patches it is).
Per the spec, the target document contains each anchor; the anchors of
rules 2 and 3 themselves dictate the layout around the Critical Rule
section (rule 3's anchor is `### Critical Rule` followed by the bold
sentence; rule 2's anchor is that same bold sentence followed by
`---` and `## Anti-Patterns`).  This is a minimal document with that
layout and one occurrence of each anchor. -/
def hDocH : List Nat :=
  strCps "# Handoff Standards\n\nIntro text.\n\n" ++ hOld1 ++
  strCps "\n\nBody text.\n\n" ++ hOld3 ++
  strCps "\n\n---\n\n## Anti-Patterns" ++ strCps "\n\nEnd of document.\n"

/-- Modelled from the spec: a minimal model of the target file
`SPEC_CREATION_GUIDE.md` (not in the repository snapshot), containing one
occurrence of each of the three spec-guide anchors. -/
def gDocG : List Nat :=
  strCps "# Spec Creation Guide\n\nIntro.\n\n" ++ gOld1 ++
  strCps "\n\nSome text.\n\n" ++ gOld2 ++
  strCps "\n\nMore text.\n\n" ++ gOld3 ++ strCps "\n\nEnd.\n"

/-- The state of the single target file of a driver run. -/
structure TargetFile where
  content : Option (List Nat)
  writable : Bool

/-- What a driver run produces: either the success path (with its printed
lines) or a propagated I/O error. -/
inductive DriverOutcome where
  | ok (printed : List String)
  | ioError (kind : String)
deriving DecidableEq

/-- Modelled from the spec: the file-system behaviour of a driver run.
The scripts themselves are straight-line: read the whole file, transform
in memory, open the same path for writing, write, print.  The spec fixes
the runtime semantics of the two `open` calls: reading a missing path and
opening a read-only path for writing both raise, the error is propagated
unhandled (`fatal and unrecoveried`), and a failed open changes nothing
on disk (`no partial write occurs; write is all-or-nothing at the
file-handle level`). -/
def runDriver (transform : List Nat → List Nat) (msgs : List String)
    (f : TargetFile) : DriverOutcome × TargetFile :=
  match f.content with
  | none => (DriverOutcome.ioError "FileNotFoundError", f)
  | some c =>
    if f.writable then
      (DriverOutcome.ok msgs, ⟨some (transform c), true⟩)
    else
      (DriverOutcome.ioError "PermissionError", f)

/-! ### The patch pipeline on the modelled targets, one rule at a time

Each `Step` theorem below certifies one application of one rule to one
intermediate document of the pipeline, presenting the document as
`P ++ anchor ++ Q` with `P`, `Q` packed segments and discharging the
single-occurrence side conditions of `pyReplace_single_occ` by
evaluation.  Together the twelve steps per script pin down the value of
every application order on the modelled target. -/
def hVal1 : List Nat :=
  unpackCps 1282 6525960974993487020145408379829896022042647282269223281533230851234117581567105313176693767687634837949719699682548564622500075766293886970887381267802339374044280439132705209583580928185841323141034290475854289471977843501004832377028598600970854680431547725833316498481402017361441529487584016628595200982065468371810158241716392340445708131979766468572788275287987469311558425850613209365401232751656840509892841509442652579655910425031799005916463004709140622154494480358493308852277016525892656889139373418552354025099044571443513531406838738777669530509359033991251473034172319482991849232893401440832097931251872907510637834891058300232438876427899602791376661610152203880802096031911568194088463771147417473518731816823467073575483016506983211121666702161005271530689975826660979571096211764050408538329152347577460510419580634751863791521380248636292597632225548527626478729781807175003333576803397796680898654066985517926690161975545636735824711152934850147511353625686622438490137272043723831903208360747846666620586482202551591443186135455414849552275774084007587924517356880392511046459279336676361941210593937653894570585105471369427221571955293890226026890464874504533228920422881762919833570036687443659685881914121772776084804612908382724949458553963302448402135145072777611896723821048401064822070185300520851474829055880851384908177903955067064700158766680326162344584960943546346012279483646424040093845498628256897402997334056294807748324478152773461193156331596176005783172710889956040356110850193065413795615713185714619449481100063252202169209318549159614269632032060349135060916977565259887919693334151908385976594497968136065661103241048291908248475555292769162667255365221037696149807371754464685665314511462115369780602332550020391894460173371092651423074420546024173582693979827107867613628821429561637439734552081409079072200883842737302873662096874612524067184200063109977718376837963426488291862704762845895954613221361707635601076520347871599051885602257065585784630199004537255985015796100499512648728933207032308158749778936475372052815272552925455104186920339272310850237140534179407075486046014613354273687725869415808149443553198745770142193829414744261249974218352109443231937846751778601386044789758725922875990925389669293806091455320650991651124960164647677759130224246092136694588236456637812158032222924641981363739100982163477539808172368867443951827463107297216756601657336520734508872397512670157972470387695837641414645176371150196464662230683483271802434042694486097179030230776824964971169250653255621636064176477799852073642790368465226146546831036258784134833973808449410295284615958611306897029613890665992628904570512237453213789116812466997911462456758670213077123534697006721819048536940352691911089020939291825375169832282514056336552907948028558262528279407823718478651775648125057460297639815774434230920855243426519765181820153114578405100830055120023409318019337857017115810711009221983664703301508157602455115455200375818924890364623001308732081342025859439362350849907219071903250129411825355020346401960270212666631192485004436994327670510183883034296255095875037432594470614430519390304824912917554853651415905691832914122673945689648769164662273868914096302557751733208585288749803134565773767056319264302385800492102520524299805324520623085292207721500879858631938933538067199058901657527732486447153936908715157545942839287773375777068348491591989670633442186559649171548166012424209469628412891108433717734965002538064992685519788049741906601850615154472594102223194566817779159891391954484378855490577328335232554543313798052017154125000320151240565178663367871016831421733915658870122979414021193607668531489537957019530435097827323919331875219090491115657071780523920600431538473061013047583423976419858061664758745223302454972422450490819777261722922159494585791527859969237888808741505845075607872602143351455205512239019967749011352621061184230739718543332173129568285060206616785946450491218068996697521296145169444919046967306393241594929233038752016466254815236436502072645783398484483471417841180283965570089265938283425901096730944745212619512516666462143222584783106070766328335766003042008727710262197831297603485531917670117263710253434392673714185760883671075

def hVal2 : List Nat :=
  unpackCps 1532 4437440556553589306379104916383675744442111470362089078154990090358119407469694194680922273422883815585702121816927340011367158149229756858813152611682208900083309017567402583105502193144998588004936514580727870442354184697111960592977413968166598884775447633455706569331946728158975788486021407120756033146329083019595382839965007816972276679461487428550310350289382813480489225071452385177299428395255909214201993139455725796893068980552816409074560625055946431070921265884981955194238976231883634749661969709333170726501962194803187858477564609033978682235883292499525010840631291427570157048878308613142127684860161546008149753003144773960001044153739803385429104744911492253967327430819400895871921265446377272263585645432550642703681491062941455001049513548932434258465416746159087896506975497909019624618693158820653734985620216174079254375739196855880740713637837837962539793227818949790450989197519562256569783198521431372610673254095272555448034668786340966684019850204656011508438442554653921149201878414091267898932383091750064583704657079278760451076975530433349147380303136696792827745925941196398472285582464412650567596902862444248922854444817309263813935837140433636086302631297731181192801961960700829775524281316777598493236570544778009378180289098593270777165673400346118863233160323591032511730403824314505245019415452643890242403705224387673484148363743612868613590423441028195562940954632776182580839648557743236184916793287520670678135278108599115213643616659656076323853840605203514455635085633254094416712962668494076214010357673558014384219274433022787378544116690638264639667326867043606261061074788700786669644650563862058335746495381285314043136178945154329183585676371220597808401638354238181909142527016403455373120750041787065802359229238325963158825456320679285954634677718269125200894532354927461175992648903123455205351640670364665598634560293075360694751944245730490462129240657638477777307064744200951613300525436904951847019246013181566188683005761335565075408131646479655693944459503442834572302081538581128405026728989850313101854748717086049449573511817378248946055251348776927208229406516523564458433757070394802272611760280953113304840218685505072660120240671390869667537125227769700978689117845195131575226842589795984414739096931750739843504643099841271915805272731683184741483168267175794199383905966212376804682749103880254211049518158537841391242394021327018913878614775910958048078363095095787854304058177265491078596027869869571586687956863874444219588476170871940830919374680048532809091732897191718113204431292470650316578257512272817630963662612514405650422321545181273310676786226483794725085906183831640370323093217854290851928060460487795472806012735232260891395977468675816085199417449795320445799138114781821648927993752342571913268726103448503945444232012834460737638147782452359948421050828787476068615734627179150749428984742048727972700097342092662432694861358369442190623340599898667690231169188646825974520889715281794775557196680547972467391626299620398630928749123844028069710540592159126455064375993968427646934175313070264844885320217853998879232176502896652006295750320775951680957812058006939346365424335416277022563484694186941625595942471072616762188432062141812496311268045367719739180459702968175039315039838886296942882260245465292186832892367877773011627343297756380544136613919221390532428246395874815217205913749088643460598095066307533639856553927422077294801894224408427402065774323379375570271132378741497519754482591413182455286223784377710585509286237200742138815371502979721930550322879285833793138999642098669370016053858873262358045132427019666194214576129961353018793498998220929495934471119763608173307546372036954840750337642875189284605107556847055085341228039838458680088690006472103311937040030524108074884537238505991800069602339410570912249944742982906311871995754595037433622283653987931605342366184283609283034719624314107779560673257077462345762054519661112127994056654513536680763542390627499267353745346570281485584635646089730827048507386557609763712025734885814923115025356025419708403069695926898207933672287700103106304417674274418268665451674015763915733847352916617258341884983909901617700548208716278059200730190071094066482455079275132780914178956011316485962403570018982640072624160403303393362902950768150192503828529077608944681270142506876531100366549728418195127858704891039470075442223619371432071725333771506742633790358233941037902951827462401841154000043342479625038406965703283998103654539655468505581029668804559250565105086014764159230247437498802101762293291968229522552377404234395525136240300036070644390852532466846676019420673980496861481324045748472091434578568261988800488630045021220370243784278758515482191530889896852352588146564884945947311177545760810975851879612528081248639358700742445657762578802286048368033672037226444462401359038685693005091820870185696829764548233872655450079039828021721092851585957113306276961340503816456094796751448630405577276540221441201198394912842796217350858482729541901379046435764976139585189179067269155

def hVal3 : List Nat :=
  unpackCps 584 320876390996807382617335312647362280217062495197044531597515001296296278330582637205320846795550673736331962750722617309455656856154742952214812812010778252173964621266384425657347000405606363982118575915257887821761580552966496753503058580050389683169209861395106038325963010521007266685107431952083829479074231543188789973770701475825894868646904888188521957900061500841343051804356332476330143738302539247744311204627627404459985810259932727465446667112849757999062408423503530983050631565342060177399881646965129328888327618112085234919702707493900246495813618024832266319956646344040501506049325955272731973051855911211212534402316775960269931585461697083504457929797400956862057035635351442156689201637668602085852097970544898419163196424857988798472252657639689866585854362180480906516747311746922622710646235706416336851682713769771063839361565733200458822439216122126303283838449749146682369703815127556547517470589790061562176034796898268307888028459150727409706120604168023327147793414248618427044954590144502675232667725911245218681940412858122096601651135392867228109149138618302836386877892699826472574736179488228389273861476341253200476869381975271362306835972899983955930040101733645221012206982673054854613354750427025110181294765953686415436946339090099683388614602901403169980886040615512317241208400219826339362600241083481983447288965612279426490273308746220753243909909493875429151526835531353948757043460197379327439761440473738432439616104678225418792006702847634780074340111145219466650974914180524629273418665587264361072023002586884865229598505395682584240257610933248569731032633594693151360913719604968215466564270287522670503916804315742103705202685471017353025503899762559385067509761123154489003766531239895372387910316623888856461133150975317166913519196023803928491297524168867248155332514509155418783308650104444064469524259002882961425108275382787560193962348008801775102945814370753148830679075

def hVal12 : List Nat :=
  unpackCps 2494 1401350150794516802856067657217957055458135378237099307286882581659081926873424744861451989448603157274424215217060229061177887222724136853054720789171798298392758067134281216261890701503499279264449911191179148859082720043587011944160395714476411516021112924821356235345282780359736720927504588816544960405946230774600773767933343631130871820513980084817221792592011309105436576955540310531161325034899425163842381108875098189255846764656924837868795787925101075930338708135678848463878382925476428546896293037370413412218615692555941930470835542240004790139630109195427901582737218837497578768537600444437021713690952691138898422310654089717281145211992482870742579737638635971316829643608123167443858374671039949720911563250445698127763052077182942817704826332142679125758166857619770916304968411209460393888803996491927610883619329839190782600856611071860537151931846063950620698412076906801545047664927338878800974739960424870086657989836704764698087358506813384514164224456134388829515076007823565767632261074356495932865213300757766257826209593054069508323610478741125791525021122585979458463720201586794048685624852158250159635551457675728270127612690925207181553109258317987238718712063673524054700382519005618980894039162310347541287582730297518306901028509683967686533079395014337707788196977132488208184092015192731406104728992283915552365064956808641817364781009498820249582399862275058854263383275636023975761486896904740810502606288119330645024855163293033158218596324387835772929877811870070720568607850620794133879657229007934291521363104233005612654644139937177432948755387639135921194863617965479764601568891059779176704992840741130986309216275498391905369914952309072444711891497195265130628447004141361182618216996561992845317697390614167173117642710487271797037339144968143456888159392472526399023730448343356555568245504267278973870953751375381550793035901940635652819903741554534959549066963474408090203227454643144041463631592224760191554493408306186364233041108536796693739451224040208883304968468598445621369207363410974385452203630791758346016829280881841546582306263724717169163671967610275531734559675817711256529584932051700523239604735622047384780886005818181527227272576452024061904949648100757704856007773009584299700469758651977459650321314017943881770683153144074670915232012646977591054622711963773072977922985275138120716195449801920456012785241699700674246945613418562270374661251752685944250223005348915105821172209055205972450563455631730066178456832497856639349172364392912321325726305809129342071664208391375263820548716812687454977712740112423535273858806932409013012244858570421834094668593056025754429529181730586608397521452245752754918710304196926154456945721507534968228809140921813799628432272953445871639212788055059586068832416173271767945129194584013575895275064686765637019288408891390608431628652132793349036683718396180733680116103802246751513286922074588682998423493070208629551165645074903778947430061283723689209378820448456251422375843726021688402145160044825652871012038196522257480286569751448029910483266894875834724311199852963318286842713009610236507644628565741290583533501917478193633864048159153223684859380383134514884670760602524883684853532309738919947750265063687903399205907713359774418995220453028390098438208266389598114538492277186175549475097691261331495540208936240151478433532194567235008022305681445022021632936243413659055141986147744128222662729897629991179719822327820910732709826828497150727601466749123270018058548032469427851559992348378989337964468527262603732836872533716113473845859591797601920240733988421303829427574657517452569693798432323398599534695269511709639964586701676814050237608409057352658860294002761395174283621220232068932649624684432646922012020283231569653594089268252719363137002937882152395196864906803215108917524438758635686464864910062546118457812936037471390445378523415101769520466018567311808306305778275456837035977075489503441650664172906074870889990935944045591087195450072083214072796042798631729811221600697206167193716757017309957594414072236087313528086702908300445825075728181481043179953571213334272212169453792886674144880706956402195484904203516377588139517324088131929458681896044810910659792149439007892780401252856373519730535314423165046835994780472291619641079537161987222269121777587692927429936619751911993137425481529636648659379574398138133241618336543513290907378097070512239615887841691461866915477359276506259711476504447511615662711196006458566428455628278824779036770300366448918039371414596845586308030629115068903066980388132239592425096326723505666502213991381156491693881922051001336102380870591707745436212110778721155449822849182266990478978206066896307564308049703086826201872432836132311026968387165896504438165508926540073885460813741144664164126436551190410539513904717609254459399185721994022871115442757003062076746662129867777653138861880857730320480104425952294773979909825937219282374409837567479117261263630445337200496872608224675235350528065344729793773752621116452447388564614116737272232530968508851034691295258994682189759048664275461381392023184825816388834067999988530284614966390237960197247595281075271278658356637042419925475921297589489086070585946676512491449563502353188159389625762163214310971512560931926415621128175148115235325554470175302659279810135697015190870692324309086621791859670408697032589497251315200197445010876301417565739699607646277566526646419531075120922973633935441541538940222379847401271669499302108542557447214514454779784102321430715538676047285278659024842064911560603846213299536607616633883733400359077197333154292896210121138377928915339853349305070033865468189675207687194906012170580686928576311229072865919485109813227851589642870653763731029352726889786030512228545855899948413913838941166086152771764962071975980303865761389057180861089407630351523499035148819219780319043607139146085530564561653531121878121587251609144694996505612543709706821459501894104950050949826437814980553024958039941178359942714437956957959418674178174226436705292625396908811708746905757909777369599877979394420646634429089147781744932338294538801423693434922768711826202916614637147182342677808306283537090577312312339406764017848653363900232528389287227567158496216018906369001009112987165995761855929621380464617888670022158633959961412217946613135563206939185826379461962113933941543060737380017040600071480039864795252242221835520204294689983760079728391067134308606100194796927890350884553058763692442906664439066961881161373597420690412458432415514703972384069764305990059542149407725954586496462045082054000959295528671361150301424584700413377965570239587865927368574840503461783274963343142508857404680485710702824646198667063096869675489179105964181975349277705789038388635592392403715043924726170147607321617606943042549496960839745540257225801392638931850429395962588827812507559307708347030694842958496798625607615181793554528565513631828384438322221176856391485881611338063678242098908388407202270400457289934664355887664454638769074535046425958551462987372725906914559000913831785606929570292372507965905071530509338144034749260196075143620935193568010048385242858751034158122235812392883443423951567555857478021067979782050960153102288974389232961378030999379164421605029009304114532655190678014908430601109533372498573143833614989932094449671315855841095024721587759873357285983997710222196056441185384713783819004314147171683612862385464120971353591413689627509224461483790834511013439473928231000751089484133913899709411473780503569422642974294501498473575646215711311803948141470228549354046293227615305274476439045128050147394136359660637739830713103377444086867562477334479475825141037441935826441789431463295744133335506853634528575277497832844638402989716862965248102582260023303260456635586596605321418170205165872633472532248056745923194166520855451344616718182223468200097804877040979401137042351121989661099381055980692907650085046072792186080128831215811118208218869851004481368360786902994901207147541805196202307069542226968284239832201524972490862682093461581151631210072869335310009593465681467795892108211793159873272365666474755138641188238067421379469078106884500386358600813620144736620879517329053289304266551093941287553458101813365506083

def hVal13 : List Nat :=
  unpackCps 1546 101333228733775373109651913128031245467149613164074124747112488264701205499119652501269102634158165260291559445199580911555977811944350559057111189018473722060011763760756092426008867976317907223646782449646405126273960437479657478357487813998866555458391083220818506953403958029050063320133996751969189883506480998800541712515742641807490316607232242444847052240655842127053537848636950122000783089640094639410473055461207788741904117369216878468785102793541879767924901890438809786455846835450879073270816202927655054883100050741203091356887804834672782173044478393889875696808710003706427912498987055192675509848340131112840597653633968468665395127507739726813459343627193717483933950889160177556847919699140292430370638388211075378750323663989882009471718130384223866294868715663634576574487500117711075212849952467959742458388718136286287996550355080027409800435145517600349734590347961806064670654474353012867818157007089032483212526914661804756723208797549438242451320966901866529785036168210173885919625532134199488722470113703735717379524778341908982051399141260571070056609783667032557332756485461162746793505408824312396732265105224292342191713568892311323357251422620515661284313735246930127945555502156016966310363666700945008235229408200952764201583544294172441878248165399972549095397890111337971667984897466871288513326421163382935861455352921827653647953445693800241783978002234936224657940864078444941850320747139099779808146852693957821472532715258332152811477048153765280069582699454034366696316216279034578523602173857873585734024348258155348100794743032766532234187926451709421929791264546715769279133247016494623393321658522875776839197746215053057707929318251214856621021008011530894296313910947387943947111562173829534547860493860187447960300679287115946441898702213448899120560399255168424562860638944887945063874549765951688393659241561063542814767483992175452818755072947838224007389228625523356558905290589909064831647772809442403957383865402935665444484211440520137982839119763164413207648687767561296022273148408767231124410018107429262525240622196518757259541025527063330143045342308338117346183126715328013762634913313425710574627990634552927479583563042136344316683822471190039760024532158976703344783979009141854705688427207087105485204132164213447235082860100127826412869536521107141938851286154565429354562355685018418726663002888585458412298815304618666087114947241733956566069950773395069605553567381813775509006145284995646392125346174262886973149181280581968152080661755511326570222419402006332504263533768742949102822812605101801974017978296450889509979926617588076719752821781466128110192233775945310343228639684917943371937968825655221096242096899408862744927729299177532586748091812258056825357956895943646444442704793545046751784819763534330440893465472967031820322829918734126716859295193427338445145582479223735006006070793404184215451024604772979437982692010565236624096047845923546881999011790583914827174174295009621064316605953063729393116720212303049370803977487943092829014668758265550534758797922567522412842535282795660936507264243598248278181691112824068888094784065008163929255840439889737745952667375896465008984937129430184005412095086589806373192265026774604918138344235710871102258846925469910910775172730980888509749981159923608571988594761989059604631446838480419021627045875152766945409303660744950205651974435801631637188350492273023796719572940610398160771440596281967046123240710007619956806362818392597208719694733346798692282629877812427430827099320187561992991638002449104062120463762356654543294284098370395173952649195667113020086854307468866119656253505348534520584905725598689487463251871577216882071625735640375826490267621105542519931899143568051487723433025896349840536184354894541671654709460408428732528585332063042645057346546586303550029138146425721218724270676453758200317712108969479232019582763547356219760914576307975305944827972763452897152238815220204298669773134554449877044943834884731538558250176195426318638102174523349784444651151255788337749941835259332545070337177419689648505266506234790410782320667607662355546678351554836359286571572967158601417215940534304383010482805776246666869910043567131272779847816719654236386752815879048050306804540982328582104831287596133125342823570955267266588107059248513682757850567893522347941171577243955443868912545807320030363661279158645135738790170592401313197525132563344713029091948112927845488013072949449531532189864184852078708868048823966949392240476842750053254738049872272890429408591583678091772410165963626337654340793817583032683902515584910600684150500847193879958917626883543366847415599849052240104740233440217862882328100447712395271793675627733803438244876847192217294930894697387959199075061842810518907112609296316153278135368056888196674250189579776701212260505690073074677828835679182769006263093233175604413992731460726221987351234556469027619638478739320920929650865961176195474817606887632540984442220869914894371342427601267444647423155194771224055000744625934994750572871576425096999387897942650680775228193012829431502665823375571165250675667194617834569763

def hVal23 : List Nat :=
  unpackCps 1796 68903289589503732080729866368192771439422379732439651029658139496444917854021998753870870973175597091512772907159400346284337405823328257247552486095707081937458369148193429078193883483375948874050879695472200982165834857895832304066976541444460801480282204365498076124772668141224914855410476428344877232992081312730633916426672814586737443365067453527562178611560940321834299709018638955440499821281142764392175500592769934389416857708958510042113032218796229133507647590312489222004654856196418391437103644966564990625192571403984388453177754171931181489129077048687254303918917366986604489821673853257890079347519367587013359396312265690763193380782465859357033595778961134014982756131352053868583443152651556698597687333114751819385436669424782270103184907124465580738870523168860707293854483452100620028440117343091743684003193486811965552439738488117399014209544557283072610463452618756113820578633663667415170245099661071876072616816548432940993760096792456048130858743381454535170806114374933193973490267194990248023844305002997611599239971544119905851802847290599587314183583884206276569095618821749931795396611774061910527328067504503653736298754141725754929415829297330211121767760563827580915465988385512486521325735113947749019083185369047465704741318852664494445894257410671515618169744773811774809310957813220473588845657509209972061793977432720473293267646970861696715961281230527873836308158498988048832737113010377144159978016987193003357446202252043160616938129121620165925395038760140330380272453605090388656911176077699802019063078986496664711015792051612540555512748411022417701934400311017236166042525551474333388046010702920642508292559715103675479049662605712758067949849739114573441183247999341047924926629410748175111968835863013727915246098608688370820669636134467903626276118951635769822354252505781589229240347032346303499766460237714888848648648132266361733409686560622790942764805298123005317297965782118253690013758488179866617418357986099101907168808537723816576031764364637486518191985755116824367956485496403359447474194549072057284426152045806552500177856132670955572518376082705282260471202525051939787209855422430405850017852815348670302318413684590978954393517681175099895610634302050007100796176990315992142847089518724265511277445230568463525764596659407355114728119498095616206603572743230503100198489833396181721663124702695891096998565975524675022517456809900757399931721418915602835797815229168112674358906418656228695505791413380953704157085529115211188061084184684883795995402263663295131432799900585411201038698057673403963903740416957017074223057911915432678982471016997397224338123551196994654491458434979928598797512184089885015080626788882122109112517732363370647557288396334406960514978788012526581365854550592743090347338585057415886017274174760909846789859368378348621693354940743198702118253932198008932940179633151824566423186385627530083461286822384568022063921330931024683173474411809770449112880195295041233333643138661672728114436150507922140874048056131902263004325385766356918856163187424043546994108260843810059007669514764683740298822035137956804868146384013747448191367212197973755722582629266435881054581758842569259961680666209987292609757034133391493801615787979308869768507758583068763075925127984985041968636380756675336323334061703434592478752466717724363782486976700088577862182440324180673922837372543060070081199375786642186903473285675495135382836492695558689484810883479696071866607207921648996406255110716610808771134927512203976877948129928182542738860090555174614499781299643662306906812975777540359370381979150161648260009072072865800188115859622296682703295717772234107590017222610618836397969374832228107278036384472992184194764725169748774695152913298996694005936881515965191891263991342986083328344506166771255976092848567814340431564174950900856903652418137348606120370539397042541876281181111666981025180369102590604643095474923602314157183744041101092025560317359401629090810093822036823450688994375909026052585269530728721522806410728248949307492759430249766546147431543231222454330270870634424880202608341014203653309155692762898164637325834470359960076944465540841902566827872558115434678689053904326630078269339394465490979024869187086868601740503767522164540324138644123679890256313657820968914881395099325477078239810957916717479544183344527694852176023304195907959189258026192333009178861550313637953082590394982846534950435943108449301877653665291717161897806123746985565077033781280809931074876768312886472529415417850541863885837536279960655046797711737369148213934760929020451058818129642685075718264532979222473757814841927027710117724543868999421741007662234118291896451830108318513116303833102459260134438294343174061823324650979596587672509386503006787383976064809702814079763635739185763155031061192479404668133252909300577904368935892111238543750348386211116976651835417001749996113168484709193899848480452758289493989889599367276135123731125120027299923627683061242443624075279481800977886404620019452447996135702303386387683051277342061330639957116095895931893743272472361820856370123026546995041716836563084934242211137253982168033697764135808456193520219670099726586333978226238821928040830761221794028275625297243104023393703233204815249534440368225817927838376951364412335406605620126746356292955286417959853546736705970466875192786037615641499984239645738735933005491716293155957274994665946474781486218129608305360873168625827545594030868309338061271024228718426834438920877324639065810725350493387948943920679828438585529926795547742109609721390097372686917149960722226544959638402813535320423649860979646981636273087852638556671932657311379814333247694636866133510048462638869908591647774449650027879844800306238702283819949197119380276524361324709089465254426309401361642719608370850930230721716028293393921284825936086716929839805531477070308338542873735349307993387786813925886314738550457568804159557409153865257333802729507

def hVal123 : List Nat :=
  unpackCps 2758 21759758587387676335205011918751382903369024116347833254965047486431383622357301978147522419712345410194893719442835801340270518819355017330099528095744675629223448410455778785528713785669659250328312456418208308306316034425710511934528486901003756401978287906800580358577524848536989279622236740504746754147873693234248810400937454278033551909043085511047069570210958075971845485933634414305127766737674810805846611967740655884942329972179928500357892971921420507432153475385545427898372381839726429974354414765921771622977829473001380951094123222075416852750745396825538760066473545793850932569678259900690103203614627987515019481122671275183701498418268550730826978733975946563962676576788671661815340257577149367125754729598309790623368328759540774355009862010073565042218830937998211415986599731328262897922426921123471350656243287685910425494167825321996690797184612439786414828423572834754778842917723939610792649066020966310234624331263440290183888620149930757550439683645696171584320103753937001069148420916312280135179596462263199232606587493136422846346662189647786547096922645415607187133358723535842952274769042876928100074798712179615556046791754226848856467256828669484358582537415781491175347900764334980716320899386056784572522147703396614401999271413443485821946082073816522792302342838136083109645773630969314025367378381468869230708978310722750862926687114100331606442960206196281203189549097908941196049149896985255669643189274476109633257153634831721222241050696698470713159420110401352897314669687082399148325835302700875129756938759612000991161036847527913240737339872049017327971221936095190964307455658792218823527646674071940890551672107943303432526520729020580304860291606848339761789705347693721629666643760254220074356098786310206081982646266964059068746695291251152544135098162099405520917907292304065955946641860638629338961322227936030342468097939497650959356359279602046373286067859875508984565156281551244078463047880285909329423755520718498495288670540149205033599346314970852654022002173093500896301659539275281107667043123047866240295754675830066524928317516861727035988763365781922034101205691516407082984214381793184492239226154231985224158893374634477413261310171694885320913372746121183299361558916417529264463261839187161568021396204555070817655793763607352173082949157730982339052981244025888689768889185557152493457198893762531347160059144478920541305342550023881937754807906883819285649308113549033157999258692492285305098346484738893086242293761606146766247310932773922402171330556396518444620619934850602432445092063270216162906150933927089434839338061386003070958886450772309602377704477357910553633732026013196781096127167186592689434658755966916715068123675581067315265405715410965201020804475800168075840541963993337130389236724500156949062591088818416931538405514534277671933275901642518768021191464436084777762003447148291932009986437004538930324555340470532335602911389914033467502567688713388938976848692158885644837940012256032264911839530558949691785170049726894172827026417118249195015469221968657264789805146255077798668267745825921617226679321166884240539345354722747328383678129963553939599577393802487813201960507811069702336181059805352267914451231496129875498576935366487149096960905965889891518907873891074407545179674973124980100724249957912506640537392056366362094126095567661262931719042480182232831834170186066928702171004582978532298281866769162653395462912752952612024332476623912166705510072248156547081871842610969779693465149137563304122785116291475014468489861065672254996056129037217002744216320976094729429681862942069485771874551152440842981875157040657274339538757411065094736631025086426581617957151621141283837673205865517206405342454628752789480971606394114190266505586992077416301769210484565429913368741181630545652948124109552947221529875567871218534543515846767834225436429697530929434936855823624977465042010596687610625289525961495346425986633291573091301879310580880673813599552957405707509533021938685536650522021886526710677977992940911320144681448461610254011897951884733880710504030797126826680005236926715303264040228348084215052476063262393865579318507057909893453647596953218118852559002620591684460475109657089499637216781217862506124055693876681640686801091696174304901835015253457207916342693195410177823072270354450570714891114030642146374288243654616641537464554109982377400547133086237832484271777019496264493321124378118061699198820462223652115904921202080714384273481416227350301388442637812040754710403066197386789248233744056311995946079627146314360804606889364113692341513889075365274629165380847719718203506809069650885286374016184754521861142119749656277801074677674504060406109699187073535087419632416297449155612684391746997857827915430874260648392056508912425923457056447134886377437744143420641953702138820121194057205180772057660015104872879703918392435089528309263995280368516601677248980456905754280340673107581241439167537077279824365042382829040504370604501043253108070286001277648806485031714350613720361095196389243900594489438973470275714647204878738167999918290150357488522968977027710599306804679336763189660610563846189416450496502636159344856419610198127925768275611574116246722134384444867332728917007997481129108344171598716308169090691555012127571274793178249020778705598339552263112432850334060755860481572376399967888606842675062120625026242864738945978056170656679635528861078384588685544554641583133788086678166053954331259832841682540192663557259219434208636767644944300083384823747257170213268469130756325152245878513817684803197415361570912301018200710683876470972892367309532238025049860504365752499877474907863616274141667551145996719859811960019880732677984674771801135644606154876090497681231572927060604687455711918946441949910710659584245275071519033507762515423060947071961931523882784943843300966205717943540269605056044220114093648155146762500803546086635963193385766493633195371072546320444721811416194340982554340806719865238558809270155244904859506385601602811533094089348967693038677414291361001252875453924479359388569243074344800491045280028037587737657384058969322280276741912119872085189270770803935823692458732959011656084323413342439027846277441060560417250002242268591343204814740120702027019110979072702368176241751338419304207352747695100299472508251666296162933827692181715162821020501035536489735326211393591663934027585891214090724304316852845928826715222487618179541958703824037402553549611687898509280734079669910500114342649121790295827999348380377090223504211801862176289244970437633118285549957834989851366571973359155819199320924255157431921480610243497223459309598783664241540880944176610727881591304994186234666156427395373528373864870982961294194547031212139850326143885853132087938594601035356602070972591039298633023697375554370084699964173769514998399445075051345806853018243193422885595426821167701696380466087141314972259584664434843703626717236848668687531008577549809033931416451633144595150355843843687950888155101074488382230098833514570959646057335340007012260324356212303321202145980226047133522311686109305324025788042391819156047343018317655102090569341980187131924940632384937232990647087930655607500431466038581561880179967575469704110744926341846362242518214504060086702315349574349878719311143098230861729860774169344366529359955096829027351227174949326479431689655099669369899195103207678629010389063316253982871212215188319076347922095261192876522204082505739600382782672430290268718635195872110789502045246821172801155056374115566927926738039959979629609534256851833357503293454997527377838346853658571970869878448712660642038164086314107633570569969305279095904738710525294183222472975987345352034506241928907675109891655776473365788975103813304605572997717986027445747445025121249795667455376022148792347703512763782849707284748343565704647880703790051808209705351545920911946680575863172657296225174377277245765542515483319447592665631358376868619302535840606747414765424623704329654156643298085561744945949994013425013319945586099701743630597892025826743864533758749303492916309667413193708632516676130608757103097622097321745471773248349594599361373252925905465440960221251642464172649784396768192884808415317385147802431000893266722423713025680621163197831068327963824329855059426330386005198072284103212755756762788186214892198430616093407861189491833737094392561325936053926300160776740373043802711270720872150999710776473274782659258218385776064723979726410185002738714068524683465000016502662469811287371309011817957710078212433219094544994164280531562737726039399155616747918197412315953444699459557413164179846064337846478499937279092785881440069373419482579630544918750363071436567921854750678748997016231793985616555950787538874727766935856464996061488345403990119120958673221806607817182961618938456765091489556739854762364774073440807128576916707339399844000143860461627550702083218789411374390904394526033380983184748071697290409545508447242070511916350719466565660813258902085227299523703633000175307943859084022757621349984258157838882047085048811825497641393109359434821458429580002806059213928812645209680023149420281891

def hP_d_1 : List Nat :=
  unpackCps 34 187975352876911837445738100785030066716793861050610768939122406505739140977266430784844260183086995002865287203

def hQ_d_1 : List Nat :=
  unpackCps 163 2731667555197572152443403426355805567812997673151046487295028450778057891762668706005005344336442108333642521735648248819148524956678296251052439883232778390750879990712325731160355129678822649182561664929841552502020959958936051472401796378692455866892362888017023561357939775139322183294140217398282819279631691257120821578953157226857582492763796068030288336724122921640682532136873491516969464254342881431132102809309245111312741658114406425422752966122966769766223549880221158930516499693525153526402142265461715917449948436577144842

def hP_d_2 : List Nat :=
  unpackCps 190 694342961324192251459718470789434214507588418303461535339104955530113617452715008298430206805306509230906418036187617858544933591975446182147627997530028114805081132331337047302679454920161833787069658478648366159899036552938398295984648521215375492575207289905797349529414425700890624996883053275948183896084911074002561232347956774918739855114884783774777826364022017372307375020240120148431450563826991166624510624209093093409300284558751677432144757472931926157622610363867186259545294185345205355845408272349931461384307427766523113176689762170788595721419787889780251194092742687955145564890038564540462946601019881095203

def hQ_d_2 : List Nat :=
  unpackCps 19 4026379560131558731851218621497228871746288701817444615868426

def hP_d_3 : List Nat :=
  unpackCps 171 843926014367652826293255435944483261891640254734694360000615588582257499796923422326707669818740599262422006939404836956922753434101645330405787428804912940033357530286457969817583053628422544158854933815136229046459105801167898606186670455219132817401832368024855398588435896284139288380387057679849041078952030708080144865759810945618007433282384766158325115585614223234674795473212249614664787906442667574213199126411619043168360002813524458378655290388015549752713728798172121683065917749563466010408494620393396666888526643531605500404755786977026153155461155

def hQ_d_3 : List Nat :=
  unpackCps 42 58277862666257422366112026918074103046720958273037587557615865690295216121622471423479003276055113310766655762984573716851194809710301194

def hP_1_2 : List Nat :=
  unpackCps 1152 219274512222531761347371104281140132223944528550539243270958192464671604557945131777745585610282730196661898946876747814877366425002426273914731110856673707554713455494611310904050014856199421805376203125907576844934324433118607490100481496688828916451013627775485461413382698244762886244275025192792427481065526304860895162667125859975429535093512326402412026805965529972781000355678511565852627952852333697806799068394906769049243106252434041715366016218486919094269785122049004605652850982522622194908115927639440099847172757857233098597243316718689794870447015810585168739056701191144755090151456694099085835945612027053332800778099454529510649641929660941186929137637966082699439655888952914222794938717947446248817407191455463901010217042013625720356269651794732786204080952888195875828015104368064653816393739205037678657135460380560695137064960719563362165325984208752660007975666021590898439464613588970687307420335526320601362404249302467540049686307461131658869893747754416742227539542556931264702369867623649124435805358099436528772856639553072575752255584498156071680810127566822704032003469198979335065334461469744013000023965766129713530557820501336977774904160507027117499558500569626588866137505976349776069082280094428274323680177570230971517338809343182608806917853926130310160141287229960921994373488387224706626100169335779424081564126676618166642171804943201178712250421913961326751794725445750665450374326943460402019284057205777465584556016609506847415669346416438759773119780537046365977962458302531752241410542656989916897967395936843613985732744573883422411090287040938915746475583009288486953425761323518270041213371193740926204861359639657018893710210990036380062083697581708538857996947043006729407007679946330855330223425405863229626442263418911592488611110423064996892705948896260178095215299016106889631837445458647271020171775592882650815912784448573795674357259349448319159015762828343422988943805846505533294706796043711338640352633669324211123521100286019796457486491608384572345319801538615052812411040345509944843597501891170350677670678837402970527499172853534088016629131849349767880723498053787632351517712711161186054803884935883469396762797841997070855677514524607880531134014726314444089124956653490448105420756645432986491460706569621607208259328553174325288142966538684203675113444154372505373445094299071489971507074120841828982380890567101839165600669439877030874959492942232145375740573644427107294086666553497936631258473295062371168223158870033598115630341121576912083145507755511584185697623297546799653630376639496196503789001249326712039773609480574345805187486911332397504239626184520311094601401288861744570110417398830852880735881149850673251739387394811132787714506215273916175219360935807634507911924359837057506421516786116519590781965339015219145292994512642689996552626308448397694518558449566863063415680442649840503189714719539037985010541767005173631294086864992848994858840995638531645691758204911096200434873475195402111746520982724660091871072384260595181811111323420137274886148143051808621179132965016864946385649606690094518282525189885123809008225768223081655121258156178748490852496067465560971225117129078513081032160509743442492674360926246537373637461252671493381003150705477391048736224756639152951143045851945625602090542767481231799615227159461674307093730098842072565698278714137897632064638527449288965346294670507825466937136190371057324688999020697693510443506041606923893180489044840231543804716108803727196072547911683821882869308324621722941574673659756086119400915449012141268455073018906788703061847975084262234057347115054796834611121159453994826652494040542917524143184326496545134525607194042838798897901617792100672729909168753419367669964629418412029413319950447039832393862493977363752116379160916679848323641249955875

def hQ_1_2 : List Nat :=
  unpackCps 19 4026379560131558731851218621497228871746288701817444615868426

def hP_1_3 : List Nat :=
  unpackCps 1133 266513056889721874113567895636282436813423148179657988211051015337094266678090204732887928725735093133577019514508142847604131054644588669899254090436533959490565260641511165878378129266076086723739547835140645205315917961899774444245573609922303309090979502650928011573297135058128464802916975869016811847004843447990764093442276293668558782225187219154810130425196966249312939069317929555515271133721779432878961668183354922673643746558538089537698605614671064928440320907574113023803708806047944432047770743798511283621848075445152610105334850192216243456637597449345125755030206709549486914533821043466910672401728725904576053183134330341893738434348879976465051107266224687766404807606918006770622046277707545463260300854051759637768811924239747820410533525546847701795867574302573237374235738675810216393611994716573923958102521440638674631892024955831464469747134388184594847237072412430033592537134914805188925958791506527421930363675104697643588198360295529623793222512538306112167377961185441903263458406342924533412618142966657067501331259501015626676284744146826522508608368240533073091578815925553199186413508310467805125310438076902584933330457672669234384149496280137376599312461501964665117366554679147535524328987135095410613393950218484027117549197795868422996539942304242270717921989691389803322203043538395046121091880671780835223511115350342238859833689490091965132356167024363390038101926870659056016325813149364236248566034019218413617584932423150372274929518100193900675222651440192536818374123692674125209253342819793206769806414709956144580576313956290750585434068268041153745774699398633736421708378846236746185648063319537266510714657676679490975044394385983719317433403600075617604320144953604142384148563323582109670727216356271279407741611446758442248726360499484295390671423962398223298078611599890203237710305008214571639629007744273920110414378209660967840005784937351025590698834683131702201748690377971767590486040555608307169780552108586067518097728484578497661129140490409816524262948850893783630842625229321369564211299425902564621143400695219788406956527825365574296498759286794535512606444117642279766606855347622048962475746018894564443153188504839407487276066843314902435387452709676853868431930821713606496899134437503734267033586691980151245529240658895265200252105896850428914576815364835091187004050852435364347017726110008329083236546980412113210490781956750607093317286116924370873408331935315608820621726203515605959234386296564079622863871841523385527085643811617564089645743044043980053561086191339670775214454419901530221095096052168456317043470126511953409770684440220294996760668584806446145876683029478278216889867436258024556681205906330647503688426770445903603410834287567030377501048384266617000585692027357099313177364645108546744823420441193602474081612859318029682366545713649587877690568308601840767951915134654536631863775396613319187868953733624211749546630211315456118859175276175000828883648699551536943975133413248148639708917788517970710675640013146304152261681160093284616270520144972483371986087494460705492053962817195335257774103309044511682791700151818524643270882389834162125460419325158750075264486983398443725272015204187961215335132899275483226955833250416212785131529952493580520221881819159663595353753040995508383405970415186907848135384155572232229632886199548479390839429048165141717680406423374985690917366825120102428555550740973571143144200841412346416477566630304557784162576680303409914734956022342389286739457959648162899597965626844660684404375033576740046197770071736377414535923968099916019592770007464088524055051188913585613326114830197975855477315659997891378977897011745749306508144919962674205192525571090023230731076712748822326513635502416271100674083

def hQ_1_3 : List Nat :=
  unpackCps 42 58277862666257422366112026918074103046720958273037587557615865690295216121622471423479003276055113310766655762984573716851194809710301194

def hP_2_1 : List Nat :=
  unpackCps 34 187975352876911837445738100785030066716793861050610768939122406505739140977266430784844260183086995002865287203

def hQ_2_1 : List Nat :=
  unpackCps 1375 586583762156258863639552530943251909279181363769651778462960262624612222962091623689649578630461252962646482195301866296356303719292313619245500289702809504119653636138807447647536603315957352769333732283110308272362067826813914681738358523258932335484610403032126564999350695721914838325117144920974658474988672503101506565321358053194638049165995249205615822699374970863328027285709439174222800460695195760829021611875059034864596296286254450291889601459067477699379833169033424088946960193694727407576674161307874454270493212845693980970524798626261422088349682363970949309695247588582721172302775854138299069885411902243747496270134914811760854420705853631973625047627336484059047086579593625361288969284557034110035947140636699635321807086709412872947187155074572712227484001952674120305898544489609136552692450295723584477331774528552327144274582232919510000340240251044783189862988828656360813781888920116471624998264932792863689179404652797548071038802338119504327607232644533946033970499099923300473057867063496074203305413707045130626928214717935426270662458549635578886276100371593141177539429998577980804303244140454807572322975828554884632109810408510409053145043428433482569046610754908324123466195718814876793872739873299922810925344274586963831334300393684709329925978691078549515708080133146745030627316378153540192465827308531568519708216886771318668224129770157481815298028489918474726831370272424438197045877469074593330550936434300550708462526416938582672603979883282130439902545618915327682288066191934596962525886352525394065601142386949068563891500514172583689546442030316314402344419210526182893822697051125886710289116055530597039478121342724192704115199795168172018189310438307739376150740262142134993917815914801181809530097222190160440722270752787426569023736397529822613940585882377306720341022897079515318657934785309322749584685952264023540804174654995544958411237943350273441633473873139563144123341129227665417812406667822033282992028880355768690736480973364398299313489592067310093720376562162561039227013189363666658844243415449597281941564029114510969867262572581589650650324907569919257541665657901079705504560757061086895786008369591493656258782473244287691427476615294074282707449932650424685966135810130299924362971846667558550804273473834195437316209741908193205098511532264047471151649551437633199806586634782945581893865554162491146377408982348227061135675425789059910366318908922364798152628932291676661726732296994607092644752156814925141025964658666245254979107076024891261684195910573027191477568713641669091190668786421420685070963441249515892669348300928277429691058923847478823392247016246440478419619049039755420994885991096329167448844727192943694517043765657858674164572404468256789218252403018159796817693498040999222574039149448465575164960110961799534601344358850561567778125909460316516543729330719056448737120895483632075716008312079966720974630016010587411231780160760466670170163655533908834676293755087750520315008908583506556920324130307013105148545484556078671595738450364397662517857590067020888081043808400055115234397815357063619475477618506593804255821718136953042451853858600660177619311838701471392278667522996384839868981317345462064725881602212463001238693114731069659833498932653613796471617824623108000105316825159635938910537559199414248734350808134718529951502127327479584123514198141731749513023774308637653190301072370882234554576638051239973662983600715259406687022586133736777562313472724808156082526520408474674015308858968859423949123774602736638275789367717488374738376114412323677575170021140632667142538865181293236424013871912539560561959679137341772946482760334052036767469263340404324279314812070475814295514838086238152025898681002235861992388535477048550494795570179534513669972817681546571183617941493735587038742652669149547090282790099131549877169585957350282210664828666114566809468943049382969775768565650459269524265701084310838093431483981533315723017304906819223071592169118635483862477525917996446163426470668825073651991439515023821821546991666829815562205223083415058533403890055196083917747505804087142922336568629420303936775504125119996015200914922316000960092150196788712957537082128704424439856079323789901407798848818328252477970682977499191723752308331112667127641129017852603532557409258176126586022232722281758824331822779138739457930423622471799397906866924161809467677780397567765242822233829073734363882906814190208105539984731765282905534767525633216824527079269983340932360029106396080754288320654585759168724111055517294396786329276426

def hP_2_3 : List Nat :=
  unpackCps 171 843926014367652826293255435944483261891640254734694360000615588582257499796923422326707669818740599262422006939404836956922753434101645330405787428804912940033357530286457969817583053628422544158854933815136229046459105801167898606186670455219132817401832368024855398588435896284139288380387057679849041078952030708080144865759810945618007433282384766158325115585614223234674795473212249614664787906442667574213199126411619043168360002813524458378655290388015549752713728798172121683065917749563466010408494620393396666888526643531605500404755786977026153155461155

def hQ_2_3 : List Nat :=
  unpackCps 1254 12514278272315823208937688185889289888663654004584206133232082606408124793325401868814656250791448124837303947982001557277246211406248789522194182117070776041145574097667216523658184759075734286222446472556731656767821076631121509433008264957991591358000208708985109515092915265568639545438978565475624492356739150816072699171434946054528919736377712579631885792050803094464852336488024420160974983970322894455374091050774516536592904447971379931689164253274883362232180606671894540267380381701379568510533585721213351231517524099179608332149914739802857203505784644495237590716172980875522752324485789520458311183067890438570031183822653865120914572102206126585685753557195440891009981284627161778858415991827040194952701411540643656246830522539525983089031877696532091764018637807212625590941832416539525774569631300249613222052170550205481357009847312854559786503557893425329767356435292130923845816454693765374021049308136092337955185751162888070363652411959535010162145071363204507146352151063206756272186582556659247920354319322588899671846742203394576946726184969573505347275665811777671219469783571961865943947284420997204761065418165835083984888624463783773532917532954392356587332079389890072271020230702846287434615152345950972565321326417123005702308080169083643260749258517292688746367741442389960770168906470680938380273874022745933000200793787554860712927990668958981561647361369766476749918736912582451099319926429897383232348016355320007189195151219512876815958261810354644619961380965263011320433464788900109607579245820013691663073782898512665905919311081586591619287200749685648761875692802624468866289478611252139444938081996528982712832841079414566358514178670012270214158189880088701779732718811704860787712147711975414126657972191269831631031916536468325422851311125409197516438066291833170001094309056594172229981442001055360797151581614086564291629011761841619992473733260649138915323723869191979858908571395575315172675403946338616889548714335174817442527520935294339052836002276321628138658100323840268122545103220879820543656153491751293020150202833963685819150744406206353748015431114420517167418144187303943867040332006531821664109394867458331354660648827292711242080937455546265941780152881238753448251401459644274435196914916553031997469740985931272677434670944594585000944284635762168283293881222255344452259646285672235955609383532394181214540882321267123057046448411291625458771292290083987119838615543324695878398990348974736333404674183441055710435808315575778005658661521414613689521614150687706795172931796168574919865212774454493899186346610072748892102938294363406042343585375618589813578812573020090510042193710616472122986121521216108801688416276556528432556191039020172455018314394694329459280587564343837688936066993713273494382633778728796545834055065146357732588326213779216327313255113542927582675323519847323630727832567735459645403029782534188612369120355093479614808945108759958892963401581078244070378195084950353792366629334647109743874896234763364029580239924693922177941376472919941073479744499309413275011283329598501684261220296788699874020289589675332183464939723313448294484079155600280710455244426500339495700785085241603397008049923919388410796988636739135451255548677114545974319281431215872058998572436428886351691927919140509153195393118444758987795574046707399409239279316784964073148872991216846457090865093737271349144955831310424038078444144469271122284080450166662602345692168004874228108731975095582485048941663585487888020537634785118140501965639530429488226689119632359823447186742735528107084078474204400643435275859471192075476763484986582084967384923045616292481694131974804526042027317522610857206717016091905094485521671641614988870549361969700809803252085152757646081270284461560208969023566567509455026606705150287812101215557631119136741436141300845298736130097403832606483298400638777627968511092000464998765042710083801100348139765616047134247724211705330228256694076715030443391299430957221392886470953580552901959823126732855441039955703392007954650930715161404383463142253176481178334571890352697671617122651231243705555703090941321117332534073034289147357547221002

def hP_3_1 : List Nat :=
  unpackCps 34 187975352876911837445738100785030066716793861050610768939122406505739140977266430784844260183086995002865287203

def hQ_3_1 : List Nat :=
  unpackCps 427 42416541296547486874236662457638166109291396348758570722357946044902910115509320901061793961232243268777073303767405782310984883937791841192134667478436738526967007498017724615633952539077348697145731567792645167038971357431515833894791888718815696260138429604177490499299373443469417056347249097958392211493988303009294348825946020858300468940083116429651785754376821849366858536105937934199990724777506279205205898528280999902070964701055613953879301326091000264344986457155230870986186782517980977152504054504284048304560638949136214321128064957972102069651787435668010934184224472811104862443030564087078088821066404292191663183837550460506590155028064516807255900180112355894982967843225512466626872054968279988592091138457598350901198906268693329612314184279804967997142171088739997068600301046440203269816937720050541544132122848690374806093331606038716966860586756229726998549585984849221318719099633665149042969877128031576521042527410917223493737050168968348427171114250638163458668100236156910650701299492313428548603266502414440486111050452358262964049785119631821906630303336443148437216999382517743877165161956876119032513106284141556672629130430118190074096409240883513366470985536130497143757610355459798170000789897969744534961450660068289216010825497341001753547393631388900102954614402501139680470074070858123887928349556351775206000120472814359255208913535524836145700326928656361167651885066

def hP_3_2 : List Nat :=
  unpackCps 454 10781556063415095874391577185759020627750831336390602141607180378452375650830825826292189932945408487507896641816386567642619348420077429817947566431637902249428713248714421123179392235970898337236102883482829681844450171603223809602612174252381208049331652846929304066012367746989968457470535614752964314498695103543892708862841598399894587398071690750293193786697553618244243302755484779112944853718640421464227064305032486192073528191452374992028677349220894542189773943148406554731340486572957793941685383129305946354902995847860131151352737094412836411861654010402787500747563007595160200765011898531148623988830986505471943260693304186692557291122905190873006297873670666946731497282211805639218038128495249606863491934610351096861724624756171876130147486109768647471498186178406792765800896055506915076090294601405176847901395440361256315348428683882636429280062715466460655087355448114543389761652751711312580348376581469626842451319429769095981923519898452308965333169260937252616469169471455714974770306060309281113745367193126617969254000087644423062583051125016609960461560133038296979300094624563026525334585935592544051049111865631258642133185005488184775616961529437847279293929104665295269902842573642121127822798437452298514132000093524435534308883675724379167928091768875605875583849802367040161975761918391085438288996753443518528739179244573252818536923881542236705282086482868265854574759044788050183766518292818633069677350241598807168027313180247126985305553096828897413986058275

def hQ_3_2 : List Nat :=
  unpackCps 19 4026379560131558731851218621497228871746288701817444615868426

def hP_12_3 : List Nat :=
  unpackCps 1133 266513056889721874113567895636282436813423148179657988211051015337094266678090204732887928725735093133577019514508142847604131054644588669899254090436533959490565260641511165878378129266076086723739547835140645205315917961899774444245573609922303309090979502650928011573297135058128464802916975869016811847004843447990764093442276293668558782225187219154810130425196966249312939069317929555515271133721779432878961668183354922673643746558538089537698605614671064928440320907574113023803708806047944432047770743798511283621848075445152610105334850192216243456637597449345125755030206709549486914533821043466910672401728725904576053183134330341893738434348879976465051107266224687766404807606918006770622046277707545463260300854051759637768811924239747820410533525546847701795867574302573237374235738675810216393611994716573923958102521440638674631892024955831464469747134388184594847237072412430033592537134914805188925958791506527421930363675104697643588198360295529623793222512538306112167377961185441903263458406342924533412618142966657067501331259501015626676284744146826522508608368240533073091578815925553199186413508310467805125310438076902584933330457672669234384149496280137376599312461501964665117366554679147535524328987135095410613393950218484027117549197795868422996539942304242270717921989691389803322203043538395046121091880671780835223511115350342238859833689490091965132356167024363390038101926870659056016325813149364236248566034019218413617584932423150372274929518100193900675222651440192536818374123692674125209253342819793206769806414709956144580576313956290750585434068268041153745774699398633736421708378846236746185648063319537266510714657676679490975044394385983719317433403600075617604320144953604142384148563323582109670727216356271279407741611446758442248726360499484295390671423962398223298078611599890203237710305008214571639629007744273920110414378209660967840005784937351025590698834683131702201748690377971767590486040555608307169780552108586067518097728484578497661129140490409816524262948850893783630842625229321369564211299425902564621143400695219788406956527825365574296498759286794535512606444117642279766606855347622048962475746018894564443153188504839407487276066843314902435387452709676853868431930821713606496899134437503734267033586691980151245529240658895265200252105896850428914576815364835091187004050852435364347017726110008329083236546980412113210490781956750607093317286116924370873408331935315608820621726203515605959234386296564079622863871841523385527085643811617564089645743044043980053561086191339670775214454419901530221095096052168456317043470126511953409770684440220294996760668584806446145876683029478278216889867436258024556681205906330647503688426770445903603410834287567030377501048384266617000585692027357099313177364645108546744823420441193602474081612859318029682366545713649587877690568308601840767951915134654536631863775396613319187868953733624211749546630211315456118859175276175000828883648699551536943975133413248148639708917788517970710675640013146304152261681160093284616270520144972483371986087494460705492053962817195335257774103309044511682791700151818524643270882389834162125460419325158750075264486983398443725272015204187961215335132899275483226955833250416212785131529952493580520221881819159663595353753040995508383405970415186907848135384155572232229632886199548479390839429048165141717680406423374985690917366825120102428555550740973571143144200841412346416477566630304557784162576680303409914734956022342389286739457959648162899597965626844660684404375033576740046197770071736377414535923968099916019592770007464088524055051188913585613326114830197975855477315659997891378977897011745749306508144919962674205192525571090023230731076712748822326513635502416271100674083

def hQ_12_3 : List Nat :=
  unpackCps 1254 12514278272315823208937688185889289888663654004584206133232082606408124793325401868814656250791448124837303947982001557277246211406248789522194182117070776041145574097667216523658184759075734286222446472556731656767821076631121509433008264957991591358000208708985109515092915265568639545438978565475624492356739150816072699171434946054528919736377712579631885792050803094464852336488024420160974983970322894455374091050774516536592904447971379931689164253274883362232180606671894540267380381701379568510533585721213351231517524099179608332149914739802857203505784644495237590716172980875522752324485789520458311183067890438570031183822653865120914572102206126585685753557195440891009981284627161778858415991827040194952701411540643656246830522539525983089031877696532091764018637807212625590941832416539525774569631300249613222052170550205481357009847312854559786503557893425329767356435292130923845816454693765374021049308136092337955185751162888070363652411959535010162145071363204507146352151063206756272186582556659247920354319322588899671846742203394576946726184969573505347275665811777671219469783571961865943947284420997204761065418165835083984888624463783773532917532954392356587332079389890072271020230702846287434615152345950972565321326417123005702308080169083643260749258517292688746367741442389960770168906470680938380273874022745933000200793787554860712927990668958981561647361369766476749918736912582451099319926429897383232348016355320007189195151219512876815958261810354644619961380965263011320433464788900109607579245820013691663073782898512665905919311081586591619287200749685648761875692802624468866289478611252139444938081996528982712832841079414566358514178670012270214158189880088701779732718811704860787712147711975414126657972191269831631031916536468325422851311125409197516438066291833170001094309056594172229981442001055360797151581614086564291629011761841619992473733260649138915323723869191979858908571395575315172675403946338616889548714335174817442527520935294339052836002276321628138658100323840268122545103220879820543656153491751293020150202833963685819150744406206353748015431114420517167418144187303943867040332006531821664109394867458331354660648827292711242080937455546265941780152881238753448251401459644274435196914916553031997469740985931272677434670944594585000944284635762168283293881222255344452259646285672235955609383532394181214540882321267123057046448411291625458771292290083987119838615543324695878398990348974736333404674183441055710435808315575778005658661521414613689521614150687706795172931796168574919865212774454493899186346610072748892102938294363406042343585375618589813578812573020090510042193710616472122986121521216108801688416276556528432556191039020172455018314394694329459280587564343837688936066993713273494382633778728796545834055065146357732588326213779216327313255113542927582675323519847323630727832567735459645403029782534188612369120355093479614808945108759958892963401581078244070378195084950353792366629334647109743874896234763364029580239924693922177941376472919941073479744499309413275011283329598501684261220296788699874020289589675332183464939723313448294484079155600280710455244426500339495700785085241603397008049923919388410796988636739135451255548677114545974319281431215872058998572436428886351691927919140509153195393118444758987795574046707399409239279316784964073148872991216846457090865093737271349144955831310424038078444144469271122284080450166662602345692168004874228108731975095582485048941663585487888020537634785118140501965639530429488226689119632359823447186742735528107084078474204400643435275859471192075476763484986582084967384923045616292481694131974804526042027317522610857206717016091905094485521671641614988870549361969700809803252085152757646081270284461560208969023566567509455026606705150287812101215557631119136741436141300845298736130097403832606483298400638777627968511092000464998765042710083801100348139765616047134247724211705330228256694076715030443391299430957221392886470953580552901959823126732855441039955703392007954650930715161404383463142253176481178334571890352697671617122651231243705555703090941321117332534073034289147357547221002

def hP_13_2 : List Nat :=
  unpackCps 1416 3404831010739381616538267711595980328237062266542212228585197278877104903790013718702758535746553798850854954789403807770878594986690972046171358903831608085393564424373600234928331449905353778880475464940450819054590883154554454129017538780609050872439982547396441482546448115177377581446790084225460021095447850927055204066440666375005378923027890104307209462545228658265886575453760759466740539290761082364387756518481917487255771298587144608638453195661399102193658460833850950194787631872376789136872432808329323385995292697867049795657354218988743855716913810397292148294271971292260200207583319743961122371730898558967801837057723984875260697011623000890933048432940236312850539008137850447538432086120079876889439432511431724270621851391038334210452810802846944776215860053504998748382263997369455682928139115960420931246610336420019287371119125316675674335798668825749543892442684177207287575394232519862606956353453382434907027222748117489732511467719109200280273728258489617765638270365561657503357812497381244787920196826540353090489700198038103237975167292237044819736589519762739457209452243217177573423135728787215819509718923085906343799255385298191988791402056594162713804038346227406580078045385703726549592172906372084532844723777490318206966399127917597565256984833845712595405354715358699784969540921521848816455581191552509757907257566726142460559225046514606499804975148390599761292315036539270148748392268877809574756330124023013004813738336734232828322652346765297851453347463516192713053713516002203686927267481432864943443250039515647891918998666390306905956813195741336629143627380657353726093207365295732348505797288852092783724589530598903148703316072635618981383571016853563912351403457028904934604609605876628014937375733591282698546963507679046361833867147479502366384854509212413590539751393765971857831695476631153938640799157864858518572679547884074709297807206599766983646142165629252582562361478293870020161924059077732315664031645730087027935951251665997738360717551140299274207038566116975548489867070098099810401627706613875429581440199972040995194999101665048738120354974205126990236049546209878069376431352385969379201686159234578638747766532532413123870401983905808274555172013642673860908290839553952650107962902701374765725376279921654372544423759060218595354262832744751068270689220790542984168376313013323394182671101419231842369756369429227310090085975444217046019283412288923850577627497358276460700656386625610641686875993504369214774680626681882308500711870518607898213728101806471030890519876807598531271432618854447011997916451989316843083051956566190511723856724552327235466868283881084153178985651109996365555673212030927925356208006162897187067132414890488673491282529708669066239800708167200761087865049234269869266853537033079417806494149226817156678952540110782171228370724583240662568493286329838600990260594746428918975232948811451974223564240554992065894518307056635505793170858569082877382763525163965183668344408375259999849816420170600130558111401038356387664946741731029750480037869019550592992594574353494921132333301969629904638789260159511947855307574759627665704623663288296059987031410996228865127220914556417849914804289301058534253857534450938230020438490042314366615802663583715290959512098692134996652812881713794812859570994729182328528772113070269170436924066535024667864700927238745376769897034252413234064066981873571402275188307990422077240318285770355355273953669705891843076068178778312651353971284238684310240770502475130181806764433945531234045699723830099981290312609996321928437554456581899966769968882361118842877589584001350625810099070133103451755551837800302301184109148946401127622570927428354755593922450889842521916694303425775196026441187696188395204743546198850605434147256483783420303393920589299416808321467272410051449761425027359051864550844278491965829125511659575575997334534954977816943828983891103829929187402286562839650640933660742295363471393767456311674987007749724934780666006513525225584244975092205490755849163217805387913914064001077428109642547002704889489651845538235236335606811774333909386792069505479982049850388549533285061990645974403648734044602391738253645977829229526771358176291097518671798031123405150468062152908907722853445385894773608518684579836397684382565788997773903685828487953278161590786860382362760532096269451442585004232118875564390341491657674641551666531249800229145921161886021107634132323803783732643952441206442361130734430485244349079487465822522964995974039547572684727030516637140590399450107719932752382208315966628214705535185678421030558393878736008117195310327680309465019109871009440509469566738302607098551475143564055824501261826326563

def hQ_13_2 : List Nat :=
  unpackCps 19 4026379560131558731851218621497228871746288701817444615868426

def hP_23_1 : List Nat :=
  unpackCps 34 187975352876911837445738100785030066716793861050610768939122406505739140977266430784844260183086995002865287203

def hQ_23_1 : List Nat :=
  unpackCps 1639 9108302481407037862810814773624653227420958822102293413135577864589582084377553895857326520068099561933467378754275345037252839435799735590258938057056564419650816974066848973691710808678885165023870509802923087996886995417446979480942883615305730114067705069304966571003980181869453087835261172910660527284466327364522610573521933396733849678292179322560012567483673275016746622115303206805257998252652546877558527574653069621339514040446881982682257562924993420438353222424414425519207733358008659250837112815432207600042604787312513838726626277990533627860181159099709821363817734639602023776265411076821926590686574538756624641017633871154479995544536662630612526644672183751090701170622027244826883402509299713405170382194659658166462817094937715751102309589796692702803235350027374105014145982465316916137037371145812093361821211610786638844789582454142672316499998152514647202370082542196379923443529522677535307683662982437894884574695921049723029060807902538052163050652365291346827125003932968392636984296402055037131064131603715135479462360252376860832739333468546580968111983522481585678112961394000150629642799936669553214024807310187799918786362275997868054412588433974751360803597623999814966927959077025175614172771385088769106839705512074660338362459337385157333364248259887012683437848529721837702302957725980098175750378497967411543004365643679383902685676275798861009903092932269923260714284450256823859513838972141162985152133466355008672295370013528872716925323436923660026744349993034469581756725337395889119758410452733141454335150147220115535842930046028727015622490916639294913298130192918300763874704336449537255629671189300856023752658599718292724921739457532016112763614161082526012336237316121039981670157825485966901848943342626577559745908116525444760224760324129655338194849522201541981432824566576968354656571849907626486466027125604198968872488633712602167569713419053157233734343893295641625364257927752654389614449031549337288670104884361283285559220312423589043032430237482180241855944744047528542013495372486379773265935482635056487225436578123990307955464870406842877541900444316184551390622835547335381181034048250971799525651170675804812174479736808952474139906597527082649240903340798140674886351746959195222297577542836936321028774780076499615543409804652790046693901970561550624778505277978157591280526182198735041827423624819532997477443957834385126818197488856355499492994061164218752805291767068121896684792412679284219385201336489127616610639791757415402994649362285201905205273169456503162725518781747956462848932926194721791032753813354392054444094645501738141110107419980047174311546183446716374470353255258043847677745994373568585628036450378281205646497953670187505704927335416355134030480541787341566557245053167916934472389292863328700903723648453363797031068799399527218648949233185517790769181443768126475759362612978593358755355399909852816194006403605967504586407260590525655699657486948578318324709415257205817981587209196541756130134206792033260748545702445575827499013897012234175901084044704823006783184458407666125571781397026088759928070620119009155294523898959272656499878665496002165790832771527118235638435222458838215496684906579816879434025558871299191094740280847829812691786403405619565757526855976285888510135443369304556535382205862522915273516611195617038600175147168528498118322761202627463726306958078700738572646902541929777883502866990864509153391326637606710625300155023966011913915644169916561620850659259950821010924685927584033985065097854094860916036761948408713023940402199558354221824675062844483877816592529945173220447772312764015188900962429431982890280008266960258251845160198555019451564864522708516990703365477064602513898310159166464322332946867456054660232171809944272147692069589519240345490222560088067427479732841351618963992225803202691070553032529883797965641061698595533642121578957563813588049659024575385417620202470566911133301612672884437105862918024000857984755472223272913104141500634689487746676355234479860976359078805540031292435507167063924713165128522080311676003984243562885639051876019445414599239729652753798148670891052752885112207076401472311432133417882652127732550479434884875284758211993498942111667555024965805262871026964247855165221521576282302012103980298303701043473113016759608976174520373374989693452870783833308501056602554659422737518732153062579636607758967389005643593704136890418938301278574975527704929703998764688046918127923064359475043270074858896091123637067546456548157414496199839811767972514671806675834990266793982833635642708200913201441457356529573061077595657133546528064110658126263550990716664994786889095658647599892837915393349506434841788117383124351087692162785107384560711288405238613514664806547167608081135691101562119047735057786699857283341211589197835922807537283509511921975702366936768145146921039895063614181709590946573147606113864589512973479573755948389998671233196262684758436512180878855439659463913818135029029443256405339095323935337675614930933611440413044860001552404208610073597170393339238870192373606205393484068784373536445797543692860980648143892209815740526346458642109685831416594510693198673473466537742812209749151730121863123589444483504087198705139685530414384657754594886049197826263441702055980819888567563448103123560016565305813706070558487634169394224147566105316338192598081821826884776726553699026894146655688396960482672857226702403686410

def gVal1 : List Nat :=
  unpackCps 1811 3222471431163359651349999547850436264032530255823079983062106633699067739694100775646788207874421461168830333576007068957230194544469843411642709284410424807641394646621376908551283259200001782908344980730612238634151299353647076417146774931680949310065715574775285648095057081812100693929728138918951682914419414249801947834108337198306049104738915022647827090840876622841253242003345058808823358377687801464453248544825579214864680533550090493623121181278538080156340273101471005410501911348764877807940488161428591959514392552021438789399835420440748904059453361356521333918635917559174788355302774426040334965971336761867262388044642078015747016138635071744528413800045847642794427044999000419244003710188243944424750294501817456671493033005030138072664645119209825561246478186291387518306715305001114381949003866665652070475902836520550052332888387097953047620013891999668320921736913544735736421085845500950338342618356703059453743427335335895561662848220325751558209985278900359929242752781411130180989354592276064845317511247991618678700410827805833540701372135486468252935217557837774572053456709773820584026430716428386374387560765824777059980208173022329813970260412413562487096005689783759363222617346618668751129564362485537306680483980704525911125833509694716359551346773326423579316020909890049389255063842979882685998514322343210336984800502612133312214862379526939641601765681005019589471398838529078330955254940686592141225067573715093815885004768684904560264059948231639503247898722175595132938062203752692023800321536036701563935620683911712119506991756199638999542933859828442142710037511732221058464381867953379304034534028419234278187736046776666919341334541804609309472092208677042494733330139152484914610352417778442329074672771600093405462634861997874036502580276843900228072936667811564715317134645442623002795185834270686896459551057352911035457521623605230963899951914805255733272169343132034935867482741591916766515441630945468499723701614359969156185826967003152678777647278270612756829820718517609302420826172121630189796177837519627023627573890608126345214288306938813895759210878615493458931978053554712465981785038628037028931071795562613461084230075563756774763188392044588045531602878326888684629891923613301371607351845916855680994850693890402832362175163852008899306900000529313139180371708711805675067593266581880413738679507471843812554595179626868441811885222782251703950845466947803178135618067684856874360137050927001505592712655450771606600998451858720118336823423381958652758651879753474290292787043168231390805386962476106528077835038165167085438450316006221472222925655316885004609634966508901492442365219762357596880024900246872885730712445912062824686043387541345547660602643918976112943339304201609392839772796371303595822248116850034965953500798354865840739092490945891652172536302134474966810685372727109348666480751367547122861912115591473171942530680360609882465430087556441344363704689659793978141588539067525793339316906649969833646450863592255130737986986425148326871810351363224325890843107635208873384814079225620619967489834378606764707695723825445617088161354818019918750042135773068757325426615396962544146617347264025432348549763259239247753335710839848899192736373685650250888039526765918136970135545928839737061488439936610487869519508930310872651326622183226768615400501899908368698646946547553383130627828626394627581998696609427273700264857641227135337036665924627933204070572486410300063527929276261956328217386121161455746691449251134155793434210269871275189344053708130840411999082766358366325653837619558374973144009541856645008515766068191885400601543404304391349134349270684445980020780830897098397607881864073392912311908058482313208026050812341946550266944361712610027684578347544349204025667495310335522383758125212710462312098326685603702197247871317460255843074127171511062058229152621371274005654972037761844195233147390183247321450847758576818059904459392383867835823934814117232526692919856989052538377710141523741161463374860951909690518941137018477553271757521575060982361788552443805411640271735285163388372852363105174974994566484230012593269667113409253342801986472673874441160635861579269655935878818232882590311758120879910092337687998096882466860420170517659361130300931835270997412840103050809424899285740263469869940864672894104748676217256101016947647513802127413863727978293307938161174632596636354043404593387897460688008984661849174675171073163271857393001884715934782529449946573862154685167888744833122239365003778501796953601544581719913552823695975650421343775885207819575720613104093915317077519670702162777929973625580294767038137947820030908089022631917715392122608337362484752620531343789549323471800236878682070768383499175893965530963185138641773598646064061112093601335491517097644403795237902049709422478593470409309578295239783165235954957769445302779086134851277874651081074799424210205023451193623896213307091994098492533967149012594087864921370188244383541456593683045995489691792775306482918781084987629381295013360404640354486412415684104278754569139264863222653360002420121947117482291190308224618827226094399579840842931850145759777587371531491556744392899417274145156623002127135440386931865268965255791726840634853735707824375465851854678218488336568205678305163050047716860625941043568097615851291114778973427620569572890845118217778313304320519992329030707170358278871335320918040042246846644211778400348260564614446299791063255839256642450001370792088402924237696876260016890844455480397410939565392757375815533753241456421746662732936363816746261841401458273255878820147548627206796510851855302970273031411032732239525013696959517481841941589279415322454429997619944627986810082953051990970724591832314500684527952966843391665244759928196413231587202368238688309052356295826405175302085275321252359847712933575620377052249299594851823723079313265821955492918794990162982264354401378956020115288623602343484661242200523978467648409889666651290231635112490639531084699729955

def gVal2 : List Nat :=
  unpackCps 967 55681295530473713823227448873460911645533181591811919301198908139555294080122616296666780779043711230627882297938032619979954236563913598819721669398619022294316172210122817112806242713989205320184148819115722357225556138311541000567410779733909058984905704910321101065979744157117949298239902290295254808179020366420849292506488534801429036315719471544756017976937128750442950647063631587815917689248141536602685999282905686693188510246544492793284888527213391491846211327346686597681899781552423440290505306032423306564748953924738073488946388833361713111093410514271427110534867731671405840962776875919156786828088517128823993100597442060790007119513109451332743802816467536882403266471914467775780287863417757179602171439580658945384061735127487304823744137520279313465351775380274616229956503783526189650538017991011408246014474741922124194063793442370701822545131556075023825752955227243780123325801233775358220179705499788744942650127200828559414969892159799435400176134069505004032171392926954363890597262825795558546357794605073500697432049099857456185104970344867028601933263119622688744341655365526233882753973197096880520315568902729024825424200362670160970623044421001571647892486395987724561697447314402397622961304151898070981087453451247933417003530478016044835860914538271036213705046899197055464390427979772374215925239150573955455870909521619035582814182825840185162621518780169899105767290688616668930198315079184776086064077485413835727464416309812226355010890923157669631825621867650460397819607513611589514782987326655013975776635224535377417103273535411365178293214755340414803293171097817150894253038570594230505256964011014833547906687802133872359413895517978923715645574594333941447723128517804302910412507877561130218107750784715162018404294917135579118246145609510343125650218199486521967099466623673250204256916947501562178330042526962994474553209033557589952030772449975320377084986227516900244559880140495365803103866158676477960445655737529836316930601944313651559729686504717489696882491316103385927614502959467132444434069560941751022391400689891442904363495655826002128788536725376498076051910656274814222938047304750235373861281576720081005189200220419799639216548074479330756374068021983684393573052424056591109505004124176249074334287091122407904276752107292531630577415981147036318327174531923592502519524039445951702869115236615638396714604414860909469565952968831561687726694777275995993933484689827335181817855826920474762470745551366474666042049312349594341643296242328927578700877681516961019502932672587614501729072724901379792582613866580519698413696136701304457670597186449597128318438685532500902286870477644847760067128232553155894864198418351310082452314535978981720874266167595704506532797249784329946136794460081394685565521596706653851640548052578374320065095527490586738590261959753147406620623514156989557009487419870594830204336579357797802326504690387296283044397030822830824074574604742869623695757233471202536847138661220443888241600008043628153567386690181617343593380727959742301100356544861678784845624742075584893019247241947633907582670271518400081042865736679281388972758892057735010475024515109233162141775394263867653723035302690851

def gVal3 : List Nat :=
  unpackCps 2235 3251538140264066646411274344477493462393533230154286143920084835934081996539557064753002193390877708759884146351181058909462333643002377764666604602299833597337270643201342073979539880926060341059766097196267719806170212374584290285337610437830194630624964280776503629804570856190376097174868449063170176636181860757784854373439076713512854493344169805004484208038128577135865958250673546409066258294260916776881686332351090330758773514590829615664042248880657856544202111702168991187166922135067013450800187874522078844806399163383293922363175217070704790702224475019601901484480915615173128432174784377934474121312695651789770961000720794799949127203670818623763512207472837938835328204454784114702595235410767201020105703577982729258155947186022369184229995300157402576114936052029199431973306838742987539188254530839323720408686810155234358326126521854315705825282393799480240758391993102303852030446815640802485931662943232176841987219132600221646767098611427616721847014569918929958802600413019455499409188865303392695752251715675295067475515955705493290936480374006650183282349232062626743222842026423429513178926928436248456971750296801685775856740531406978012741486916908337302690806184003058894678407418055410640963263452883137773589190493478705347151540275021327324956287036130136790847277973457549482424295431614965309036110681960750409819580296702122144157404079608960389735486136098262985366049392735464269705428571559202820701397039092367788947387612500744740032113473164545227380464554463014453779971722255137970563967784814074375905967959624449226147421249740351222211203959367809265831884674653165826461261109452672929771729063761297587467807304995626942168037855188100512436824788852552384172596288077037732851390196860170537981300671977561419699881355358298190478048376128451561812602642641610403850862156028935302088444399090520740547847217142086927225636369263881737830117826456998522561529792623305951638818979635501966509293836157735484658339358948109831785855380708985675220514308917187660144996899497874317871254398526362631330708310668045078025848868732856480437937930154096821665346557105215653035058870571712161763360516052792220645151556497289732936896367931130702069747720732751000288938401940444110488604278958325702755394349869628023265946220473642695624000809226397295530497117032494826684329198710458888749577436989479604601623519743611215868861784782439276970482238463855174611552629751191967942041623227400193602757943471293275798133694827809797758544448840868688136501653455560399899144293939208416187942770790994396418341569510105357146112333836300048950410708647110524943319881877359491524316871873582363592240661227449218924539283288554786750612041611964458274677047095100899501896068216215639498300289315046258389007597042279312563798019835289559812879369953559119576140149103983804444099865746128154673023033074959637162821509348626659483981709356411481641768230176551744548922349515890950615289049477796787799365452338831689911272205350081782341039973786240064804422523917400481481985423065932008860353366625852390797274446054539824036672772537805992202078338234075181511298489203818152896058353827470805171106965846885380826613935288963114285431468162810232668385693466020546043252612726286090651381377430429885440040655335061613143995020406262414234005618077966879651414347273622907391582290954102512935280065630181944902898727721829834128657631816265496750490670053087982108954209624490191383480233373809720442768383276900067081082543950748951340794088706545994437961985654912508119740958725674874065548291220538858159521226982660036201355980215849069257833820124217827555065166001118039371091241212883863174867225600111493446867414237167211225458538365283612038413290793164475851577026081007915920483378451884283839349486631763407895784334507330554108595900045630859085259951209000784057682952366567751752681663167456916488526867156306218199872817285433694012543118616908351604117300543370672546242233143604906557183866091114628791770760195657445488099944855206368392790436970280237900592758273785350176832627106013903575938080610889723846867020387618255362608722810429002982091487068503726084587724212355006904307278346575318727332064235092523934831253421334116381879329423267827194005397405307742608715580906079815801264558268783788155314488644728332504099210978440762272902591262894309112437900994512715968505450135289085067212643977264403477507981932463388989418123512145096049517016670106356515787536507655426674699699382765496561880052583497889489828303929145983807735528669704555574823145844955840499647447748282801384358001999617808140383843789924779977377337466442651048668473951366218542660053927265031257328416191824887330104221848420146791114600116157404522350711958766111560566536363492870452957986028921190583435566578777251004280510838106188228151181521172147312314828772080676102086550578863281338301032244610964781352624427812416782927680509285907957521802240085613037692664360502944869307135740378783535242927497383874710859518869970699320845960766085690965741272802818678164429549122388497836763848493542367442246741618710058355418662343179377481374355771496025397989577397084596105566295455778424488214247237157339804214983698833581026797315960007602993297794673332099406665588452370061503919770551937874999812023755728279733229678357906003254669601270108830335063874980267752514631143681491773670966951609849558405507265487277985918321094012706457810736671953704317196649269599694432299841028122007756732630511161802415552140258597404945518051404944586660332335283058576356330539611235767483782437562457477314430914889464270379269466050634839819089290549271097133523318932862163673956146923489971047696960959428841671286240484769287013906194235421634356832624052265644908802256669211715303652798666495265824214416620414420781994900011401083263122798552396044545442497452474465978821974672760072596751826487134004719386520579604517015553117096084360636577030712975982421722599010993717148012221905972901636455735451875898470962975014758481106817836536308231767311260811635457758539584784938984335930229649740709480124957673779793268026543560522212970824744832293382381324107520603141910885799976615796505517235757429865130158373553572822928195056385508735242457769070974795493086057401609079343048289321933635756135442407142574060304248513836448068094835272142234230881032276063372502370471811266712408267890385366247698523371768028503277096206201157869599332874137993123039827415596620552274283761721600736339362516659034627435220205647354142621974603382095416875969942868489455591312186066932879397628475545063351897900689583854234169740186340487290947329873656776413109567509868805870932491461510481756737655495959990604742926257605933972312622287260943132264392665827823490249616154057608633243744255938005221928611179355380295714696616097089016606668097314091702711161388350831127759953594769608820380001556075682955684052808176395509821821779447625156352394686049712830085411272919121379324380787275794181925732713879562876991188141077148403345637963705603242509723148529232315012075984250580061800527598502885177656494260147428200745229889588748749744184690568459564297170689194195245174570863168641445801680081031781800011186173014208808354275988884377308903190609588920049075100495207288095899493715605941963712594711712127924092701612446594134304485823762529542698881234520889723388329133810459063659010122257860564942883

def gVal12 : List Nat :=
  unpackCps 2305 20192287162263054791209483525763849197863658897769226311850045286251003847215465873243486304019820546452187833111749601367243908285046126964010152547816128180565026767894534655757100738382361269892588207108532482469395729680337917608768593519665302789236763944329261586796025598692195346153549523769087764708656023479739855448954415823591633322700765490858387110258842131991649192153359354344645564873826154564423191840788256053006837793791584577604717613574007498246280931070918026379823617541369381436329636815547430077209628558710473557070545132838774092914000478413533463026781677240292351921306528650061942867476079215137698707219582715385152350798292339494962272792856932891906576840927032456856060430401851504993856437167201718175107483197124909701142172612284887403131185602924010136767660313667172798111243118030496751353963389320732768327785363252706025046749679372053365811510321903395662788865483209038022210769939712686065505816267144835438934281702567317359635710027433687088946570741868205747361779018175678646140691176260472796891751430722317680471876757111991818025801337700245219517832323930992790343418286392260488398417912427499758282651772403270904183717393497791697655299040627354361606850307445074873998829649575610232976786909131806790394510395984031814270827320736825539391735805833537231685568536000702881650795982917072526882775170410665589344210741834248313346827604234705277542995840892313843343250772666481417048819255132336990524031696842403347133242354812412361359233107816724900836645940625391595395722585002967170692613832691888004084347434636035948330535422244702312277013494775392556966069534484755647962229654763103975866404385184922799633275557595042464803039385861949562231554587008037482830228612875497951358429675492191457642201330467626920236556027070410182211127006525291745643484534317337224899973622271840228244760502027302708082605636708752674294364709171885940276506920530866478670373453701240711391647272340148930534077035234827906568515849273582262752201523070445703754270453056463961923756268306705313336232209217007494541287165329554498132825677863156172389149888982692950725576292153619372974796612787554389165555851562542896271126559494040846762187976373421299009757598482847793514325470330034161123581418547775314500946598187047452002903911608354777966861360603908286403111507146859769358890240285361271679859385006994411047764410506135434486890665657882739860062932121224974707610954582717762767152753289925166286381496810050729069308197499587799937714385393007182073617272958422009179107335133636230446707601004241595529135322517205617946048227718719144708519098233243504249368162475798425019605241720149009800333609562780477882109997664011234040318232522989983593915357779572907163336766187873494444599499734489352094569732958189685467289371145835513585516876861265750753453698832295396168359670448900608656880890025514479180860012190043286616973258842042702525506761955829994450871958873459202720228689258645470830131043311423250548700451631392771639445769434834337842792033469098516683433438007932434602848651092977031495920712158957735862918246216129485166330673712983990199885529732058375613658772648522722099777801757002515504066719333097534348241338106463022367372951823049795452815989775723312179425644805344925802244730458212886415616929197433288422422002325935216491565796998798457396584026131267738041039553616929134266706973707152367191425998130414169408917392766654649009385932506544842065845196429808960570611011953172851604066854354818786756874686865556683435964285466680018129072346034072106584825175714238988468585279216576126251006620986022217765419358954664113845314475001563844468557010892078471251342608708396741827689439685718142788847488080552486938017326960634673150460556059677398117299905295939187957578657906342862191472445797147754471440687577431695095705470185844193008494980353149207038663432242356141575680277734732105625924121387249963297595896078356954863167205048404434244492767931553691969066056510153014507393936714021392037507343666495179687262714511661790505204923581883957637442914965567225961503347940417289219476190536348194044912341216483236637539463027971614534616891213660405373158163385559106632150788506805292313804160443486076279215277203680480505704994559677927356062514884159903943050951425425625675132806153361805384373277188148176428222727268792265649072488280700678057880483917724305752042741359016284171232065478590772912836483667567403056862936269008457422567754612059733138027559509962838541512849280923050381813232192330607340312811351112571614892594687477395165655074720574793589596008423316320954420941538165906808920203528089091628937795052687881552962123207427628613725187519841161351018104387365105800406343877836171107980986300856255841724246647218105899973896345965134647980512305451256760224278681494526386512896483843499346487658975671262665291521882220333008808138124034676001896779803302167678212047350199455651452811600838255171435020237237249330030845900855510904401726470383926979154229946566166792011120838711382356417674532378369262308739886350307451887849163710542190602841544477296103000815451794496939757220981153307784684046740914131206740692759328076061569305944525797248360915041252941615495465714839073393226382523755259060248867928138031257802285882247988963847016822723469793840544790724476768129209992635371120920783826394065282756008960414388869943485060418166235658534693589324027825580528601411389640766839615750267955703882987635549400289613990339957473142152115135894787640505899223801784554445402847963117495187194618087025890349549704255918481287638811747406504143810497384703432779853171370609657166520374266953738993073568685551350381018132235932902123347318400427793213446562774860583636428112726019194850903540649085176035639392743965620993876258167812556320339151242505453662669264356750213581104787039369912883075619166388340060590331540632916868359596007822278741949533102247620056733685566749011110539342457155010598317759076723452253543455028879220977158635422151941702946541497725860728897050559228749207860218372477917484486570834455721556674592010039139569286117555461189342676216039254070092074775008423156022484483880499569302362814399145980640890314570908838150907523375239838641501815692520851726699587163693445986645723385569652569706976902173350414460441663465366586794490700732982233268958980288121167706969456856051653562138282267642249355556222261113025369169169347749327197162356137424887540670868585111223417452912156327690630175746750437807104145269237039450571806978292585054811708809014533584678336946674552542207151441575442689855007759953329199074670655313934871864684981068927907393103650875843655228467317148734554136030365853279507082463272286221077281392328158975242765106549222637038864710708805328729806920531427654588078372011805733167421613914977644716324616061568518195251634722706997385855764019440704428200900485412537510847644451477877386325914489965918155610757905971075829609655326896039024433057610109464875684615344181184768077029772983645857868894377496965511367519561019014839657155723920592582708807416858567875711439445101560468661232156046897579402088614433488848848402025651047857796454291531234162749746593771429736171851994776694475769931845393539852559901537036404485011279219420110518400639958616590077001786276132550855424167503813073116743410155604653204252748238969569443270898666106227780891785810078307621320418156794638383075011990817963826581195686386277270413468070344244681511277467665492317539564194355226412312352608802233135942435934532097906107725223586603598971826111563470468980935332623979461843626199054128097853475

def gVal13 : List Nat :=
  unpackCps 3573 1179139084709874501673700108604562341139931497024276144989853077233401499582892828225014040633169375974992815584875001170826024595521609489370411282194148182170419977998697991905682776832005743930330202329087700015734192861534342445951868329769887917376713096417767281666038238228568692466858749796865367138114145385711318283249118744620948763918873778899255683624445524169711834405428036101337892271830542680330544155024957609619156565449948438818992726666950896645450768339507862914022921225817464375999815134379563467127604792741410075281278722649972563390990607893465637747515172033092732742045941000901271136506258846586687850835568396536394046393409374932967729107132192313267523891001769383925494520103665784454118365471066714543094024882512966947878879329781630559709293826195756502368154723173914455051437333360056907882835816213244382301721922027881034568531467170230664400758597622854113098647031456087661157201607284674867158607132597923474071477017345359920389305788671136951578704711491775477019011314176538926209769161358806670216988621670581334213912250331373512306834500678292525269518269743705768499855869859301069043800163400534689044665747936423141561397850897552552431525069216283101087299282878123558264406186589323855227389378666139485318174332433732006001711927715109242806833484527603946726528348995539543660741521640941004670057958694949842463049560009352451762825602927617091265684061854485488809239240489776655329782271369783144270396819251470600749753996665787008361704871015662835058467544348746890305713813618227553343145688110261433028874395997518312018716315462050986731013258621723865863873580434296796852360076096088182695367592237875958418897205452122948044752664242439082930504397640577400739238752461530419953390233495241374354999886182193337347685752577680942011573063240406249496814079774333967159928469284125414254243373312078618636396047900681299126131886158328885033798218935858466240964039099695613339273484160972896776822646971578820368641031936895026935592505048657609714676700043938645501899592453222034399972053479826248749472561083172298433831584201291349501861638621834733950438327037678443451710364087109861468183321988503407489381104623606455075242553844594504224165125670400169393238178527245629549733204428696932877226196518058447493402974381643899681490720444282297666658996963931881257286125823552288795984361955032849499370582658679122329584691003153291306594122701926285235452604674822872249908846922256192086181843568706551770679203635606891944926146581230855078083889123719902043605881880870812813228037601455572945835476919405694217514446736594077632760198109981460354545483027852683151222091550440884961439356421702014419608973985050268550251045263729838901744927351787404080704748613982620970267096868974166812656563796713967292572571054749571510463461788139051414961682491584171027197462801142751560023900168065031816583831226740022046340730800685557217838385786644709422607951191193469536129562416505903554296537909070491354192921229676413536600779795249179886672854153672902701171152374662853985841489637554348415126702929104633940964634261464032366983340889853383557567540058414631838667747478081877876830780631529695212093046947041340879913964197192927445790755871617623004027949039408026827768455433425363442665816556874477428879583223717650315543259659825761807900468507524397944653279698878506362586704802187912774661875619747905155069326440356102450028132327715266182322812850522490859556670672980116201798408941724914907291659904542624930083727630968589942400331370184098973710495213294725640744512494129075814615846566903456081687384927798246161726965133290317718127684608721031858900523216477745079768392585020261484856707464017102084791851104320122069466672136167908908501360438475054258785730694986289450935686236195481072685317777168201050512014853228116774246921434010529483897565608214435100575566394146367140163954118655866420307341054607029912316449878440943070104585904007466047853063878930277116905993345391890566066153986075341073113636437962892642962150658541202214316924238449091461051786839562371774522340874778505933392781203648972464372095279838566867291253431500194970597319202158347526183596050331535863854542162181807056183098714916557976929456164849090440703505364673267906982614858494215405026031004756457497134370353563918947228472471051259636446810494906529124284235627728105176529221209831733773215133977977724543994717099831011972504993169647468260522312897688882040750824312636033446944383303956166146200947412584547751190899187519610657104333176203087808807035533833650113886610724062716937269029092777839438155142781715552998867120302021465966652323413236355402753663059828064503657270132017846953966401658479448159051429520328473752915216380583980065942895290933122237405279684518415021523898637263856200688683287297276951874656068010550697481664464983133747569045620419406004815761729720700511781204686282038334364878254255779184974966922288977038990340534896415155400102842073091121254161151623243322613888207616325882276775515608770865802219502605672798278593031526312170376090786461673706809747389332323596057892309361472600148844108688878838512416659432684295518523196875470337050481746212258489645438250446650731579029318097382096161324660652282809972351333080871025978790686089334420065962606363960809858955398980277185805180227593416180475692417193070845840450643191113582044935081136565718731066598956652721393354003409606488261333821203209935420831204683441557145368027817140518241128182323461780117821704634673933118636349885268657398638564939946066572919600839123748614561566546196487718082173434003529095306607449777297245260495986516619552061792981470080007092655779362831186334463037825626447169772000792374279231128621980624584312328131332304415669660427968606686194901478951112188825642467750720185831882647603631603989896055523831189640648980350599257579881430037631450480427172799039847521772543673688428951167327232664231070781968678353899169397181832386764683832426244458119472843105707285082232923999654320201638266455820525073978225333310228228645237139833708354108025197952873795654879936849618026924793139484644387001064338992418058522691953411037883791693380144738242824225738176304355580307739679499085186681855073391805876941795940281523002515727619688903045476248476609346066031455085283788238496334307981460358734224806886575958272785807846389283959475187636281503374765283578662009510835749221110387146654494980938160138707027163979577384394956510044723349275036378151166901625928979991873049484732480845791877959390424323177467331587825642158276924185433945883280052642517889426960426672588073365012510805920290964152149230754389598759048828154098557659533535994399452874197383841025558597742731050463803970986245083348580067932194245691449256305553012635071865222027385744075040266257977182053106766560703038735747941427633503814475706819693613565048709427105216377594217135704219560344835902952698656509356869466413067340486089175252232340419194662016537105431195541872892500340929185704916528935009045988346789793175913141845789313738261784670335199586713937543210553329873925830471368688189686778825629714905746029930194483432121504552542469390976978732357384586269759561111323564570491956498109995162729671968729647110459554236945842499186329486621732076177036012648281513582225779331198578292945926941764257755214104703956318850986981853890836888832755673051323751581295194978393769577286704283334598472586676529064357236985684759730650238411067647950561722198803661870218988864310211847097768485557621186357958444957182881551555244362491098545328815971294891869651959397553467584047719750595334864974274772180360670254916503606160810975655430210860376631197646858737488759709060820434610789139622801160525457471985287352651161478305603508211365009087138350687541227268581622633019198211300925070156700220677114775604849900792837592276978708306576369309501384346159427925344530979902931286111348199125908166371960266228312797834734920908579541221746796389584251001401420758706358654274699940162495759759991639098852344187359932238241514725481079287234442981470718703226300681174203238480442298267000681759453185902045387277366897122123645007997804023781223303001541169452530843891432095188367946620025526198033528528179836332914765023951253578434752235698119947826471670729638081009591188012127399869772978580753786137473635907775923729127123497976311405290696248829142844193175890832332515987384815560499104525332269873317456670167635225569548279367522924007338147653977647242268536449372057516644771874434585567915757249085887020432120919649187449813831043418569623478118013909708456180214717504461669547631617699596470905490369828884572558944170630768842851811683074903097386809986131578894326442515183245111529709530059142082413594278465331896978122242513338946395386028305461296347007194489883089586147821787908251513597301624374433870634439560326514480170891861834023096775361496057875803563378603137962764065970564122159692311394101357443328719462020812484909528312872284548376370810975544749924884765847497886469974871918240845536734307776849867378299001482036852774937507855033944153658621376732573244553727815381045439233186518544872954295104199344757009492675833516608522489285490328395815021741121716136384362153000069666183653585804156597326860959789465464777104264240673771696631047945622695734848000090946374550351156863283849269004660832097667405378451580260438508877172431603953142378429182876714813220044565512702641345281690027420112019784129343188399850588759307055431497732561812769618318651227174356163656227748316637280421261523678815580259094247907491014070255141008854517732377967471724717277568529423448694645209157991261938985248077794267864195478320088319622363851374290138518578506956178723831242469077883739081967367689354783382481602000835885235229290704703528093465278999939486517967043708012082866201807372604659097622141069420993344814481871459399131445621500793180709600835679621656948539354907347470026311607309316853864826590110057150120063331873514319520983789991471456984753968248838234439315174385096054344402940876165627695285019741067135606007297536806741994635244396049143370868270556930478765268556842916174453845940770719802727499613828133899482415530040185693974567068276674816139837639025176581119669702046758579005263314915480124276575546999498532622629309972436537951570050843422185062853368026830517017970307691594395835038833348229506924608506492243390051131460643253828957804697332761919389441292020267247677625932478504114806328373018185401436436428876277896409548192637092525482916390133001956586581912124551427347868220845833758585101746637516727336846238651809081008868795445547925923870837238472854009241788006739529185496199550319822814928943766949198821249540801179055130622177863026739946633829501387776823945596875751342642192300615936465447214558897750685512779068112591201928105226661934071447043829796099852957608916492731305541653789170700826364397582268789539329940158227136660451798250788094216208109262288136281869226458835329979590305959455753666919088190423720930717353625774359295502933962019190631642950306935543662525668207749595261307518405737533531673736366411959533850103729386477080810568069166589182859195332100479466896678532708197074077997346759950893958708659063183826688732330449055187563311195658706203186592144739760952639535674799081125299439650757626632370137267372203847998688943507749473642235824879564130802888575746029902582750611735658970994525620332252979506731496491512457030596740097762355391805265168964823023430107120472591815436033702168383528493487984792810023250778276559275689499622816825088930796163413353800029309966646931089487349700704818460713240396316326171979368170545021488989823421443032553900689811485330827349309238104345927893140130444393011744952303431709765422111845370626083

def gVal23 : List Nat :=
  unpackCps 2729 20374421697684382821095681596006848643387126194723752088260971870967388479916139149396026397082438057758454666415055975030744891457904410123498571093456670317981465294293715946495143699353123487013999614850262934522465428797052123274680420709453424384397741942926689618862164070899996843344876672813286161953646355071792363572408333445524243296314879628192226540013122922435774501839380157082385269279574522701406381979821375984544507226468622991235721363397453536096633070848076286763224440982497148027286591894521944657104873386020175570865889041719460563263735280730020227956829104584452906064452342364845418735454793525402614765261514719553642789195160618300982100751303543260674809518815545915120948095169411761719747090041918370933530681605057765378243130600328573698850015260825221745411658116243983119410433017793436197897700117955328702994302949152309264764353848587992296228242816962498459471330482096441747553045733020287460623013384084549405922080034453379976339223934980361543140810007994519556874839565584671639708156508744245075352949791190379068454031427181583367270817317834250313570497504576953518187146366235556723181532026747856467630084406842940590036026589663319637171634865659408988769705391388758590822010636994400085513358275012254081920477392227004143275416531474712993242825062454388617475065725868335360183616976288524050091355001872944056311311520090415337628414204836298232863283839428960329396868467484739972898685359381828627125279690195307851695632596173724250978132979854095790186117581631331593391760120169598582925228013307232527819160113228009984272691530626491377026639041530197851614537023078136740481457454343859285407474282568420411717295897140125006625408455410103618264346784799468543595376805753237484623189932170227144570324837338300099293157517394775873991975016007044119669944752282459921236687643445547783075668735159305563195235506004388425664963464711205112271126394472002474271137121080266685224145207132553192456986852599294489964910172693483243553179343868184068381157522458601497293546549449938996574041797940349149305800211008625967048864676891305221713914161168875756366480135102733679163567347101582265217675368836824608088004334979680425528117101715304935816605211715368526807657008545775015135115484012726511473744016118335211255879252573461460205404399089992806901166218685788290636895920187900453812515762954764932285924577008907926079259306196085542176306773514834121797292882278170726603393029061142773233011412477858566241884500119973021769215042496660253028364214806799698403273791203532558802105690172517152585629706859604060330747127948968659931597671619008835191241597381418037601873787774384638405096553907710651325890252360842463391186529616673712533806911379467328441254005331033288461272993789355918406591057639790214178399255907702320328001244463146637392513762054646371858761923869411703038131995689254644366168281914831776183606001235112202385207520936792531371109066000092049086371790705501374961160681847564708498519661566259721681758131142742113125722193838868561996376584604883132161840141263401018989097800703315737000833147989801026088275017191200466936196882169337615455484208641783908757290303389498007883639370235558991617584317752097611702277249633275320736100937561043830955810655196446720552720575860858667127571691187609131894596405334194209554414260544981588222045058431991440812367296221898072791563411894859965072861663993214905606876829351998673759431358918963079152004728577000060227257488269999429582733426812255150432400411051746601616154184715659459557665790938296528147314706789818682653598267053956693758732851102520514159100274340524034898705390301953234985829142681149086874041305215450841828843471943920763942058374005965906520948968240296940918384744391449259179787606730231479781267171431416349204379431252462885307682328979988759714703713797984060122242161678216829803007928080138605631432559623434325389999634046572992104543744052952411755010872753522463416302931950660049062813315118298795535438157015323779069484534690675009855347949343008524627779423170014976033407975446159196818993240350589774024956634678467940332199971676768794668596466097967735805828202218220330002892453753516300400328581167635323096364106307672096224837893573795129746208230308236110479600301865488189056456839366580535822400321245338144525522214607825388687175258076874673696903120884591223298307599230407272150665863575263393769031948198470851544718132714691047504478099604758382094650168108693907198018592466640641339532029924513997988949769593236095754493810814786672098597932547981906994617572646612235221123440911313994792654364149633820319328926192219970602569920427131096709005691071434749947031800808350512761712041363118420817063938390505433726112184287978791439943321172517042909334311185900947981715069018946024261452287328788296312588736390199123751954933671724945731396096576922975697052821321212608566548472374752852240048234178128884496156840490853391477462560078655472406228919430524951908831223650789958313418699408054616860334952632722693258132977164284781732540866710717308516607522420423644532415933510706823507540713720473147971906349853085748903021260408025165880483485891140441704420796554183614946885811718095754024212401533020490142838030210321853550982580095062873898002042426591929327785150785294525500353114029413257191457472560102995399429760736892295949389754517823422313101568369146934042517545502775087978476782656622122921337496515804575097931051947171046252849159533632610488045655087209592874764410036841708089841924271481259227121554114671089045601722631200179970035218906482048700565415568428697225155165762915086794279223067586293044959748009907486520197255671040371549971140081547880173579054812341860693214699986260149553373874676599153322726815558875704901987560490804182522377502226079773883411528336706378213705375977927354711307216913980593946026051158603174770857552184772760814234106862974716003873261938642251464235300721220377030552470812426728260628226493223452597878810316653073255801435021505901667722472437597719924342908283499742418710706573388610971645266437800175580739976418876240557222089832340691672431418200522892046658990235888089787878026880356547557840745102208637318285694407738250351624326076522565889830207675123868066765375013119448501688843578050994953143069766656187778360107770082410143979144334995931179583074716695494839878617456122885939826106922053909599736659903174180405971880321373166245075429580635973425003405456255871865550506866627637768350983668812687115808271944764124792708348913587175324034364422098555489446326451717230738797915540162898501151325609668207965592520376765156442977928768179669507894193820401334119802631644547834979427975453130465142399749581914290805445144494619299121714117167890310616826057438456987442477993324383068930078384420316313710504764129344776648567718839415790714055803020151548303976707399530654130808243472421248328760991943138419236215823022427487010734433253785666546479834614917230553959401601406186876283981848542603073585523038324409509300840459628402015996237346832668590086878377795609211470822683661236651233119447575446823137320631513571962568109727352010577034632980735679418415708865461050017016427792653665701960990312950666018154794203924782897189101041931395599370627880044034365610979875399057003001004748765310000093422610260746540387166499189225412833497173664331415633765913925547884531581014932827532645192736967028459241689137089717603879097723222540954524540612905610107557199140259344257681453630923019902166080835287181251162079854056883595889317460433617597774069565808968641505582944831663815863928332722336566859540927299350585377191139973238807833024414154549680395971761629502880911585121553849475344076240605734562762354089742322438362984419674108625891411344880542730121449473413599694345493913911887377746507957518404899191430595602042259510482069031671093175012441501772535602663915511800454363771665124930177475025792017874118727209837581381648166918760412062246695885700931539658745446912361967826179843664187460520410231933605385829392733831059028935260406660751304993018894381049714116832305363907500487496906024513005919527839891390131021418188177654612585341063754028428471228106189695442470792273759397165159355384324491034729781061022731964400269212738611552752481717390849213899871351537673779940054815376048586156475132336213571733126009489829064757531137628266478334963757517153622366126086446164943922956415254129051813620155626267789253894777857955025082851409495803517876769590345870323258731495008140383780106138723634758074190122835863086037921648162700476901981412006986313160228454466455087392702972196913119391937946358388925755713046473708187622286185429667684884585006847114593545732761357216789695773153139332682121699482644353686200861129748568955509695242258411542805783173121902297893213431294415364130849486208887600415241937787549063803224802432742154189045600485329114760569712727612917022323315788216760641901717689333521010299639321087050241996001960002344694511088475111459

def gVal123 : List Nat :=
  unpackCps 4067 7388588389785730999452962469100130514520459101310809486242950969749160136539350491246750400492509852017585703054303661181799744548154301663324186940926297361989743974024836009852654944071841497404872001213787188654843005662758587381821425082602034773489992126479653431600557905047733357834318406676640951118109109644948238289046907022550630148425129061647905743307478725638353401090955379765022551089831662537420736779024349019560732846933374630435395758095729054324431283212358873242835810047412486441905439211606362767934604685269269844655949001498847470527505613412513750198256045496994997807596756960499146532149273499548452982282530072308834586308546605568285822579930242407031556531366371202956079526609277485458356582032147791719874662499043448940270396136861135326436791884916428864896293554522514800016960616096129926568876242971447380506568944505155776061699191388662863936568349179427278606380414111462212360353213657188190195672699992162110019820528250837466516293198522272424758215951522158093626935863017782791364125140462250534827671457710483058921843018973912327841697702312637191487063719245492267433030054850249258419565229202536721311618175408110522391186775050425517511368302716065431180618296949921129078376104334424924148189089479902271537363227575957442722482970555474920973097232693688235035569593041444206691906225188054701292789179251365470947444554494263130885996707566013785184442155789882253153986201166783565762781334005043841795684980099754401226221122113782477495241624966770856900115903507005962081965665818913304537857682430462553984363463250482148249664279235982149872062894933939071282461516946149860958438467420716552509867478719449784518568351295537470500443925779499773657247409271484091588254148891677256233389014455283854046020539911741620353796593355973084921091297783362144308021490588061998895099822338383391982377651285955160569369221110270758486843546086389637615001698142267515089661871796767130519068227419642647174745711584492915570460413167700467336547961528380264041268201781347617507269625473082358077238337848761629242615447025204256551316398429075764779280378500638804603856876305454430269754356014042741178923418715533858121674628304645990480891215520075791947918986592714983858812609527685101551829449747550064805077197075287558948372067051785187907870568951504423852175040781489367525877623168367370951779124191522165315664328294278731098758069006337922037498895069729272906804606605093084745958734048912512601241047277627186610282213276184619403070566452314915718800978010053925887030985098854076969490353779978138805801217459415581744728739264113101211793275469995331892919872117580783148760848886326099782671401019822268300829224295986823372968810204957507852759541704957583788759089109922849520647645756636087210681172957719545774251524731451125840636195648078671373699511097029477535118196232392789676006503665627338268192025077542631435295324361279442233022792275702560898320040592143464675519053403485905558113894742814755708420642795709882147292903761394525995311929004029581268852204606428787050733578311760817420020263609215162639178372195088825315714281030016747527430947811553253381638577262242951789123655677969349433688595978965143027324731725784709127067038170976929438636595606065320107183697383553950754111062719881858549793608230579511044105531530191069079830150668932228569225502572391900815882193984915634323608827706963225541595405596185957072902601917346633918212283038922272259248907407910981962168974982128916572750190269613053305033053779402369568196336173139384707255822590857897534012441995211348428723044725105413576475883763021440356644642144568379879149286365900839084225674001798425237133089083981993863285557789427236364836260530386810096815037704916493428704359505778368726133282107702747033632705041924920394647341002549495741532651469873306870186669545101766810041270520622800615462437880964113034030151321331096393335578453815127281716605931064914041263262062997518604390862906702457157956088807331998411656749022087422437980957649037193583042555038331408111425154253386013132519036784603995618987662209729103554483608472431322455479174517117044298409684572347394641799795852729000030334686846318527876103865963224401987941535196643144456202637975543791453817640114497600786927846613879134341072843933075272954222391023592107027529327555421266151917654612586597482842588488705915859630094262345236350256696260829801315040252112690541604025441118209993139876711935474066373027045169380000853298717053364860748654728104800065810845008946649269014185432930526169286061074334774616028841191752504843273692313494133378777906279816680857526721285144759470747608602479357824417714728163057918932085442928815135449024652169684261423550042373045284509429409401558434590949914828697118622148948621553601391553489955135482434564030602583509435289436751808257670652280032652870707674856115501580459298875089384694545948439894884854174580109709252355026465160263918049425515354640839489629161764977187076667090743026858945571870972612953032212239958866349809159493174286926275411944812555631694847041956620083900548501616988859241947848527858570197926815679181120939347393715573058234997727605797612639277814737189180341393327377430606949890746939148219600542697756527205913102633467365436603230932867249912850279742086260650327853124199427911472999540649789454102632277174873834173614478910685008110244738157601839600914907700566801816901376085921463143213415064388152243516693994736575770884580853132271867015873070484813490692377127256131801085700278687612206613898950972693400870924556353114931566533751593101687651999906597042861073239126067700820921710891934085592336776136348865834414530782679215190223538181165714445338728769166909038310109530768897619441409163987415615694612656670352708037604767095238847727810950962357114224474080045429143752131611746055539551023827130902692605664373799209238367455397966543727179871168353738053712402133558744434184953302178379346884478782048112776876508283889442102798616912882544282401261961491701053546876702343927939167714036144127180173288114952088495733718106131541996960006552703505606008253998650542076209355312967987781966512135081228468470001034962380050761839795321036534874278768287294158375217817668722643340894841448458201870452137152838945646078616741310688171096369046935556823347482325736486885940426265048473567711013452258935082423285423737454007838176598526634381146010555347974730525982411870880114568907353526188666178378454207983996999405562509401934567437154568788563870833399052710778693487033267537454652030886009618948455736701479095987947572320571731278200334060737270175960677502136793940999774818593975091801944668964288448695316644382713264479181439062334789097633651188907930626737758137173388038483193865114449659160693842375663536560705866920855704687719668108654034201690411961141803531315938838374778585817116377995035750516370161539760420687786166327418781227149123389735067095731912809910723804105330341414620018772781484765929039209990094816723442489436452154516027604518765812613824712391016351406982972638744441425875633118398972941436786260165438201576507565835353435943633826957099916138468400067792574655421441605101628418269324527488400382579198368609103253005126266509710723523747331089597238725258708447058348246039937345657867140156941534941502840491450913621448262047470732491310517515286533792537802073712112549529465357848086731879587496674552820335189838547799691410234856235367802311535643136620442226034745921448834860749744586974620412024680394119488772222055322764505298437081054351660384515734525918683602232563602435357051622634108899732985533777682451568848479851108359095321362546274064165438057993156314566951389457905969871785231617783034666356609517186223882029858325943142379163697528216961087861360601670790113980072910576197261651681036254150854851225763849832408161742707408636580318283579210691203957217128486357960893525881383816151350037848084318745976976001534538525461547896154279378517453056928596118258231968660885471013143297286749118683083314890618841779459131546385321076204055022779590353686071262598611485583213630774296737771650516593493303668819012796489868134258798210645590826307825069377228844308801420583989517599964863283330761712011546168060680442015138020193307074541301303635425243902191038509040166504588783200136722330359690880262214376694205029507445167792002739540645775293573292367627380625915368571923116610594986644757423240113504523136618499631396030401073270335662246244822974934539212384661594608700383137492786198847156910335430061099994432549877315650398835026196827280481590372896622705720131355390658388227536666397847440701579116314869919335488374492399441960980959500438884064179044005015815747282089213895188668371405397158983925769170413855159511762941566124135344785884353344469095472608678536848993658146853255208075874883289632837551829090846116330382510606681442121372248740674683897660575913291314520211469160684745899575347522141522710169519357509136358007863205072073411065677065401758496317219805121386125080558907517571505810961600031177946803096982874716911068722088149674616157422305398990148369676650648644524753861250368604383061033996509920225144491141107424359058235740000257253726802360001559479363316799142681896139285766281802377448608741996401074273069773196372861416473268283613905399920823930584018523377251231226526786143396300972757939733462098498769075313848106600452601754281867260782322617766585990167607983445048700341009246372021001526992290650553837594637378384243854001843681783129745617752325583409866564558040237517155755095637239471390983408487347272940817730764002613773775269593824230346583765112689256112318735210211062847487936427415847007445989369341030709052750853786170022495895138658241098723991992188638133097839481307612734690902557087767034914433894565308794975754769687793856874900628837482207249844948545015168717256062130329608352061492794402705098801012217505781964502552037551942868973868764111127913193091274912701248311768146825193031485612037750398701204555605958802962386538407241176337938439279069310273588748005132803292237262552311992390058143662681435677699887180031216085389704273364741940924150886150852553285843354216897215692395566466604094110341100135433418382356827698588954972101606941187422885687414136765645999830886938846098546602969398572180030615581969892311963688248767558802257470421310552294850965205139511342782775519351522814478476460106279945804104144702928701183881319455340770497321067327589590268691135349606582709327102906516308756541772198875019122477089206722659442240141076401194642035724697714835496040633494464856091350295468154335420938584746343576750077774104811706025125871831788501098618501394996026329338764101928716052538360318619104914411515619807833189006660405768786521410465103839397606295256678281567823223056483916034710749491247786217657771994165525025532123824587308222399466268558969864330607532185964063512435473509368964707494799606236033306766476402635279692117470496272196763026736952370692977303294961786139696477097144825629362942386624912563887849312270649998526267747541058211088206016446798663562083395388722193246087372924674134503236058300806221562859387127065653700110039232829570236204635522371474476732402361130456743754167282244023751556093770412207181745474888684584255617685385819495734041494060173875114436110999470253744140388741516073802574128350970313408773454587880374616992104401116543248763587992738449110747186712153224141297767324362265104503116152474752028687805819740814132028905014150468083462097593568769876742774367041812232107884313695731167495303890093723906552292105723672743341916734234807330477597328773730717346672992350953408910524759228696601238564199852158702476697854690292235036159751159936393008609907706612069270242413065758487019620721162240536121575679987520522843394229239669252721646767865610620007855237454901926687488240981225137282836856793777205081297642066548666903589499713959095038669118096828069666552543376279594291072429290337185916696683873130902113478715074551939766031241066988720965972095618199979672661545530877441861763901117049743577289271489813044567391514945706134696458118276188025376169734227061885603090004257138724990617915009131538642799665193424913299456586802539043983993967344581652966876737029099006945668045634862135479611559299353197337522665841798240989934615087459092279160107281275111281994846816451351623575640308848670780413116220084618948158947243564386331207805448127746318523564084052779426413524275061819669201767707357847005769352856567730937511291914288975152551921519484424969758719098035868580948991832261393043012296717668614368122542243558435064339494249429051873627362440493895309381917391884189554222798979742348269098913886342257524789190119036121215647167524884521695960829603631949586449265135925918016574094222048751334992915404189554057764513198674790732777071190993889047289012516446328218972856746184557592792559901319497733785333113438490153629587325574882827685053799711906831263430175920800763859808609139661808229176130830612208644091313039843477996675019530456450130143143243946380896395607148905887192834337966292128182439265538788730409942450243084082459554382363872373647814678436504845074074718299100786301163809968995941108387077105658666037955290848797947391844618790966014748996066277629259649709207322422220590349617027141799921477002429605508598338546306320506692537876553730726739922836367182203088094322468067541027

def gP_d_1 : List Nat :=
  unpackCps 31 21883211199423436038360318867913158690004745348366637049674406208273694764483464865159675911881162787

def gQ_d_1 : List Nat :=
  unpackCps 384 1739190435095917677745210714237661140015446722797916247256609692756284060705741145244772349470915888330491890122645845774026854203305219729175415973313040945512514861423241406712330013508746345331975770862436082384965210023930420324635141892339653156802409465384535126793652070285976111025604688652072352044754806288119606025717649261513628120940881193765808747071923300057905350695705301474161324474852323965203197366852978558840050103669782170894078404374277118462261667931940578581795477957532796397736433782764413633253795423716861660656403732813375663548412863911454921954354743280536325731493959377804970233928253904568031941159770579768214604338551050781407443415252119912181249322406223599660607402510929227638383594196422020065308747501662538201732985181877905970342435641809286252872970482917484229773678873577754447345128107126766960333456701091865189690370010481301167356919607549306706489340043970550864126567804646864882804217351507905944486512028966652213816099813944180558946356513535451176094003317533950263230351654320051698108314273934895583500122886196531200532477508626019829131918753622146256344241110941426746298958054834651718081671014725939057184052921473362431804710295949484408116476024644018852133873977384113900423934553175645992291420622858

def gP_d_2 : List Nat :=
  unpackCps 103 569990500484405751799494698168166374703330092057118064149239153111882991711501421031801141588359665062992768777835356007438468898946970841034385210299441233290590600505487060149434832246781318630709720662079120407744618433235980959441362895645741987249942353876628774960635644544147245169856896946801257032278876564416289489422742989111331

def gQ_d_2 : List Nat :=
  unpackCps 273 48163987229292229330320004751599911776141582363488371637250958829407619964753599917654751823057828410110688934754038509056488121808815296951214018620152621451529326603347377297023141155856357647663160679555603999883997567133972643207279963370067587566951447788103637887899813513916017563888357715830140691556185762920381959131813476471661925339209759243422242064832837165081028275635824649350014612462556205842554327198376312655767213284521535359593112405920004214003696847325100081581783224187584780504476069026615462720039037794567988578306193090686164005816059029531812452617707227436475350306768240577350736154392346055370556057129252344001226760614433576009670742659321887086180357893387079759863242393811528491733656559019542625789573600544697158394053219052365164593971185395258055624092162803431262464050200013091305803567006035352654424891228053203409009614503344153079299475664289071666057226

def gP_d_3 : List Nat :=
  unpackCps 214 20582225093173230013948316523243596940110509141573056049500613060940668739825023325651403417171573209673072732965549597863490321197130995957501634076994265268943661474304162669469038267634063361112083204398568051843575488886264342837039742413081151509125974586832739404876038263662252745925564496189740319879497969153165969216288882901955119867096569560795792117742065868229896604027808150983013368152057113068531882796065252431456348613049248735053679987530059840493628979809094449988519249204273701114788997383044489055417280456646199687506475327142873013400533745103764319215907548085782309854668875887784759458362088184930560801431151712869334874718567644390631284573608437574192082477608248216238751779

def gQ_d_3 : List Nat :=
  unpackCps 7 739528847775041081354

def gP_1_2 : List Nat :=
  unpackCps 1441 206701581848866913006458586792290964947334201216921498280841599626630462559437010831615904000387733962187616629378716188472282385532740249833267641089895479339465900677346934809203214981044669310994914341117330295298907163210351345526203285119142036190072134975348851174713185401889858652537973222956621868776967124335672092162442517657671348955877431693266965622117874103014094940592809496183954495683160352952955645878402135166955220693517940054580436132017148766101937431116717689462549141550505845361085568184907711537703028268239446769133243356090345818376505805625009117746733194741309873265128727242436974413105895160555148543820592222334083342021553196663342446334197845739927238015464743990812889972757769786719242358602465800777116907040507046988635354540329199297694999576646640540660647892419917836915315316536643051907645632016305976355085542990258433674889228781323500253908182190135559530257936369546152885592075350885174934140616050903431446839511448990119054537239646717363788206665402391745401503308861074852593779791933245054394090566952093082712768304827285481413620892139227637225954681062097418892957693994296702190091267219157247184945497435496059076006694189400620722099872951335997830083464513366604155164537346988742887698788160100505612398400906190489625950545913522637074253091618527044222306751800334970498331673984635337043210112654062516528509338337160780550654415544130732659596121332092957387471734194263257078950900849359621427595215667759999526142127522560185305843238835435477959556800333539719390909894191680667922953409031026862517346435931191048119728450511567856741165350389188730153961318054368251986472771693893580313239309245923169910498421295830279961317596067413560064612615104299059609761785399082944057460738845425554294070496440360666227286479191930093481332669374515868864703165093816901346913185525622075662321986325157185539872356855693342509882033354325971392447750921124909750912854634431921030036837587577072705757146511507448242418383383231223797564726737914187241146921552390051090404822430317860347516963785036524712486651116512140878400614791091326082064810214634422754456895739536939782484798146888694325063617995766768309810806497697126187577919960796601631312173302432511916166819366375686196688641184336190737947965180235299080364154987300701395017087128847236285171245636105154208840760271407962326505978336702994317566696591904589858109819397499211113280617409971731240189190008817179337652902873348860503520674210724849185601089734213058504664808196179526146136914926339045530408431794656154831840928709944584696787856229094104014968182540569081432370081065665175603372472119803244030339188232632581303837672836587575969466503831602813855153261026263551077152701237204970202339276623357136579757211768274357586520245578015694155493458783739129495900554834986856845033398872105951902182342591553437542073539828950592518751048742239112502864696023647224839436747339299692274637392825594511121150840388780039122392154299619251317042250759409218945801160985829246168896803881906521099734805840601597665848649316932558253189583488067959269904644873375953800734079776345759277622638964103235921067492426560112664386738796453791831895550150208337907872048398700468034124646118711208662328284544404731503491629881411430908575447057038211613925085885303019462299658486422991900302497217031953162830710981312239827555787316109551427178487761746646026088053408167924450275169626049790324705566961945532753017436634536871165051225390896397712848958844593867786648979146065057167364431333076723406884759112872583735455515668851583001996927702852486479080890101858973854902506897742502671038288204876042747435419878267578548549479200099908993054559331818179962824497940111540148836288167410909759777831935384134623034715471709120768306269187852995775910949439345765397867153010029084463255246898318212566199641951932493169867557156571460364509094041987256677598901893952230094540866878195463528442537235755826728857157238611486899361663270344193281491863954730986146370957938306045969130145739298552799175282493510516390336468187234092011645372435868906901145100058057239945249304157390129341518514357681315113459085068465320099025651663897529277258507543824391216797066051880236870902408682256537492734318780918964541711138099437358139783066447230829709852181606750874892005040329352117432189008208757212153971259917771779938548394166159427554389601526739811506312566578235727445976448368577193079687480423832909443348542992470639722933226132298785770175124528783948454412515748020515615774185459809108558454027913965094186307969104867868003098358565257033843853473259351081152601106146822327755686079235434611660701799564129892029797354620843958490769732055932635071503891953656760562608552781964942785749077169602595

def gQ_1_2 : List Nat :=
  unpackCps 273 48163987229292229330320004751599911776141582363488371637250958829407619964753599917654751823057828410110688934754038509056488121808815296951214018620152621451529326603347377297023141155856357647663160679555603999883997567133972643207279963370067587566951447788103637887899813513916017563888357715830140691556185762920381959131813476471661925339209759243422242064832837165081028275635824649350014612462556205842554327198376312655767213284521535359593112405920004214003696847325100081581783224187584780504476069026615462720039037794567988578306193090686164005816059029531812452617707227436475350306768240577350736154392346055370556057129252344001226760614433576009670742659321887086180357893387079759863242393811528491733656559019542625789573600544697158394053219052365164593971185395258055624092162803431262464050200013091305803567006035352654424891228053203409009614503344153079299475664289071666057226

def gP_1_3 : List Nat :=
  unpackCps 1552 7463946295794000622116775275052278413607927505717384011684040853416990515266452510515040898900441170530558548425871823633851360292832577659730137847430481019097796796672303738627260602463697926505451275978910307205207302042067271776368840587922968309322668818502922565757307891115138621626463657872196020381553310481769190938006174127304640142029065202052831300260775659493652036774257515215415050704421115106631684547956813070105786855506854775643089946550699091268230023726966119198552745594453019345918012509668691484468989894002418884032652669206136505371956652967390107393833975501627547091625701017612806515783452332454128770177352568968841232374293373282448586695917669920373035526444785418743182078949557277035518191902082397902030824158928372443663703705262908979953881723795751594890386530360481468775944128444079940290394299793374276230814006133412382371223500358512671287544200217280674958245469421283249784909706139467823689997983935350084655554475332968657518366943192925011300800972756121954036759262141548898516054425545151764354805486059269139666161941407207364108735895593241238133852285768114861634850770402310182640559853310226578196831341330192709878359151020350160162842475176227004652570292531290244301901944215148346819178058561096513093660298142057777010866945445906119005030974400607258610812886418091451889279236649569841120791165784959827472930933735626667609486629495535012423593397882285191943804290153241633322310444140807426944359571624547723717969299761494994379156003489375438045984967703638218726870378922137690858382750117000220303507820051470075441691217288027903987751953522667352096714077339074948645723213468805059715741001018530600648983272955573951773982289573940401859071177080660274031739315768174379925396977835934541441710517413134035223073681795611017654312403877572349653005705179403825753662767502180702844151829122448910017489003889678514117715606599768941528457926922308135186243431388737278209658672497198623332763203483329045221019190843593393632406290545496881099892040836285253990719188246528634881958750700497042332111693954043200116788128519554684486968973243076612810918630490712724543334889531023819501257790788341014132019169769462178575711358660903135313082911651975798705474505203293310458723595397830982345740761036554666434120026294138287884459549131568478271169439275056316854832658237279404725955231651967644379955496090415251616655129312249282260191565048826358132346316210097475114400583772809339397283733556778275372872649974347235244443692095439680735620187235599314055347258836624547031797241552077886736176605712389367547944546707340829475135007965259984520113910942372732534250715596618446269836110165728050607559590493413890675922980133893918692429687038822731934286722793747721482739030466001899311221254805234855206622621003132535093774993758275956794426582292086477027056317096948612196874992582250497749534743580866624814734298084495884827348988696618440305597974874530658295910432419350215171909891575015801932754225160879175626900798992562553454675059165660189907236656346801962323098512308865580532196505581551209674635009821771744454208631504492502902849257894345965358293078617557140503816238968041404832087743743709685303043891858469338162240692049221586427437850124550302919215724682627213993198715792877700002025606578415467842426463901944067583208045716238157116809944095078459471860107539485047554330051261822403330396079554451095064196678635208699447139319775190176795822712945721500330759499498190669633058631215747801593031399877569396752306386146307814739542670999323528419894776970576234409506832206000822494142974890822673490322718769936054810068419291273720437846420799715321322660615203276776935150600706792376267058536847029902126377172974402454314329132572024088066714773271365177802009957512747068645372196319682415946045388258143875060463342439878462762280320521322833636729654469044891391035519123515386487048349413394852187366810302438305541110088129826167349128340128125046392896755923937042569144372261945924960467140153539252019492049893143510127100876841739728458845013874586624828525820025077187025134134527053401175120396271792734297083576389824465908790067532115615483290332979459200000181786668804104968753493085009630646698108937836140329712050682277469053494164980495997118818961975041438991607030064595844933980679052079236986925468835985605978626039133921536740581574577528344390936225897994556721515570485981833349784812104828195308709511034036627795303151141669793251758145097859872956396838047608365678663482698718467231131821372103158109021779308678867105763640091118807464585712345824591015923422401487494776624747359765270561497107160056384358627859946635002366665941887551144046439249020374929051293088650793271084743736073471873077364792767123135894725570366965137115354703118105648596216131892107091919426520811929425435662257708514085845990976473304639255966921850988402763077178545521743277346149194325642958523660610503810923234991878204299235493366726826062200362702896326231321754605167596734547285985172106132361768494324241165848836930771819978356676425236776923394098494195693998659531624245405257916547107

def gQ_1_3 : List Nat :=
  unpackCps 7 739528847775041081354

def gP_2_1 : List Nat :=
  unpackCps 31 21883211199423436038360318867913158690004745348366637049674406208273694764483464865159675911881162787

def gQ_2_1 : List Nat :=
  unpackCps 878 10897919018211371968704854515792802616338031617643886995365086807275992209897768332807095709681766003912734857500695156170399041221716826447410485371253726986511313333697134701542731726598087288915739784074968887290756508937059686950529850015171416643726272959876273083789330935459002670292536353698479827178248830635279607891753074766424849218154292314708451515992412774787177272069285877020532411072436143786856209377775938009639126053938897220510521894001296955206194339793326286591380160151839244508822714400719108391317031675185274752680912924591654916535733502652438216731748244017554556562574696612259645308952802041520428152724363642343569172418794994805917706234986284830806566648807290919603634025979063476669486680010673830511200924793583021825951759513526983795517149718318311512642316148835168980725134313352722126916836980913550778177076132878811300485995095685616636711065921452139245237754347359154764449496605113276948416335623485525111971983893473684557099056499058028829328939582950526795654320317010303038638600597796614696822751135929710303522977351188421138943046240921411664698236823322349226528710896866421164720773349743496511495098113933143147027234674152098711600648920612044109045598472770251003470049329013104280194460880812017721210244208343903592963096472234534583097788864645835976426788434575425013312969886874150063376735591243169221124434873582842441621961905077402716062685909893061165672564150665016153429908524797413162474041861050482333943877192777706937642263053806568135982979594961190210584219867872188526990706015303751415231753557902008632036570307947973205599815148371795284292253866822246767643845183998131809207630980836772212079591522495784851618903635997933589286267281299669309110954678113016051458835219253644597797312399915555396409263833346145574542494614783869702967241444760374558300189153920496480636044680863682604275276564390768781297501227723889597289731203876348029269841974526700996630410672614463065110033482758008805103968126271695899586717420203835028366982377988605211805027656526858724531344611987849865428313589824505716180424818367214527505856186681009214135798656345860398717768849297532508304088670897051192426449261483265017924986254303768535251060424165590066813693565466799410133509636004786016061718602901245562708047204360447560146292418228949684742263573920548231066563187610421701985972495604427219097153354284983132671165345363889139730964706475848082334724656818900756665151177519447831887912549436143422681510989223609808807754075833598239309773526096092787261602436469587842363042290322192956236025675022840008183388537181056199215565648296684357811729792664239980158774040586806849959086229523721510301672473467247695192586628455089191273860024100551073100619294713854712191658543254061864508973494999301088603020368046001990239048477472027466861495377646414382960078169649839510909977001898091185748295883660046662818091018

def gP_2_3 : List Nat :=
  unpackCps 708 128970018322133519622047555043982266843638698204152900605029995210894534432034557988151303975292446900753762551873058626389400054504820265536431662300880875973223243751413271513828700472448016346970377278619364920443710093834158234436463758685090851757535452985115730197905398752354235128016319722607868124965262790872753284014668965400937695627753679574119061630540945700377168270320045690868808327820864962944485029806782288903383474731465374285757606611328955771804801732415452574150478855552651242903028316237723586384960836696706541256070872802510169144779820175680232681878987002702044561598840058335239554794142017083068779823688944668592475157794578985524699341823446943802327010467349563329626573316055053985998867112452839856547902141213760577994389849919886605979988964907588561577482983045423338974639789082362167466210958709089141210725904434173016622050527044399117652683728349516434768891888976167857401939393640333890335766502458345041486978285202645266866619488658339754101491629468557121748295218979647635708863228769655280245219255513485744630483337265841333564586037560668298558266735119127882668679145465966323433829321167606798718999728662966140904007787457411580539635318096660956491276577927429337691220813043146561547495970000041790189137277519719615415014065171180651400871460848172515842028387942754318943959177962135080486945751769410644511994163153092267011660031018198329019742955845208489979959197660856839558283650324935805984921340989744015921714068565247358103917626741518223904377522232325159382945775672009294328788227827862813461298235217627906307378773612820963840608820973254774462714436637808754039691365142913430332870522051397717376223750234221744147490767928118004261997808073005473142473518912507531104752311491813645950162734483232498993295263485327403336495514713503598933740918590363664112457122013342485660232905119921195186015662226260221081004949843774847484472978606605017988725263606807277731991108846336049157023390201760251402258141689753215024768944723671839919834598535176538243852389852646313916659956684199858261670974595018626704089284770536849658019758307276063497086918719858451962777250606768117959642170066277389956059175946449742037598124341876691995019269740238961538436373843459392083237445748262960643697912049327739265643414934208666727886199213542382897978518231865729548323

def gQ_2_3 : List Nat :=
  unpackCps 7 739528847775041081354

def gP_3_1 : List Nat :=
  unpackCps 31 21883211199423436038360318867913158690004745348366637049674406208273694764483464865159675911881162787

def gQ_3_1 : List Nat :=
  unpackCps 2146 636389634968716772221411240273641469815143295006530197328773559168171575630957187313460104009303823834457231433171829977795553066979533519336981048453099777790148236787828067340870602959084182301334667758316564036843550420921770042629570916048212430558569850275004322901418322461324754226431578666633983983319896412875516541496825198300049333261658933494052396284830621850288342930599084660488529166622342270847151814224878700256382049466307399827137094491876018724700699573633155346486647284908159329444358292273764012839060688487738167181540177942097053095322490659791024378478612999979557587358979232563874467219222920234022228122315432567132527002019469260521784497272319456449330930533731587628095987930872218155735658247079701747789074420620500573997491414293285471312035457707812911142685548997449298585435248600773052683513889097704687036277690453748435675137399581805509810693279317347331874404299424747425917525949585369932159142500005690043727150851905190516043450946260130634486575511466508814575230934337520947547123320470251282417401384689435156667894430824458132814871633650214682212038711235736760089381298613302812113445446352278695239960851543067393433054234763882647272025578145268941903605608661336208991699774075073097221393051644425638932625356127440183013865485672160584553006821149800171873729091908676739359040684795717139922952605615769882573273666234905945592683407939341385267727448683336641137816644951059221479946228591505766573917333428792491295069619216957032214404317835582777948164811266008621241085180243078464069832005376615254481234906186849925399398737611228208023835899430000612751114500267218330956762897276180481771600084322317404215280190108576344049281423982897797916211430074361365663350831341786837202230495496344133910411072990719659001531087904802587283956009505523290586366631275156226366037153325636870153748188429953518380428633474592958251123964314245982431699476205570195172351512758191785737359341570211518715911401852383022196066409605016135556988530368187009208834267832493801590954105902025054717702087420713934297059573613593183904923689568430865777440822602808528942684511840812330843324888610408750993842086285943836167226340921782587835580964826404970783775041871240436802904285436996312720120954580966430827811860206372304754056354152360018635302892351626243788751639732386442030506629769457401661674692985939737575118464245390334235187168643527030674522875737792689018655353264549636454511112568063342811453939427844457195255266718688336721203403388972607442089600295841934617229373272803590069249110859991899944554619741358958201320762455364558013145234272088568346102304405928101430961364131487016053131897574569037530268183036084744625389120025070271155095113609439949549163267685497322799241651481313731873830456646854696317972053981478407098529520491764958659287826088374490821033659412106273795814022137401031220433189303032477155316271183789768352930249804114007428361536169664958447609009911096346625277111010857076907163631656296523291588010427131183208064287084327388377951502250871175327137088453852456640205626533572335701620642778583809383349383455877991727333897251892555254430649882248529714844557467503658046738945396592033280918552204158971623896049562343288114489413724732575347947238036265389123841538527894507188404259831470910381508136918061458809887111906815554603090584572108765629633791397583290809196961513611371947469589783764278860359327080025850120020891220278371678980551283393089151359426153046561867708141796650454870534757749158285110372165931828663323053319391713545208490641388185267261814950945032920459457369465605635520702807384210865467945880563419649172378182696955726703665298534914378199747564445239879600759021392900407285177615641284115176820867469856268268615101449872322123993216143435076584600201650378658499665260798690153068001589379813186366528002077348893990586850857435265239540395884721297181283981696747114209065165756599895442747109595184128854661668947896549068209656721754421164140048118423416806020073741885417281193162784180075462070264313522082138892198510488133995708394347579896388038815275768117652668280479792545493636303764213101651261935199668632650013261547882981476447030505355317123666685035978175228542132086968787459116606224676237295245713708620300347717660395757472945801183963092291804423641122898992848120944770830264112400638102093728745888320774572701298976260055384331420195179996622712622473320430401018761408494893044018709848274577735894502019945548452969924782148548413838635174802547121648922923995670082905025279583439059155212275238989018452623085631895794189795786119205839331699828738288097623120953814701494766937733428342465871863923361468380657818089058686319430419655699093847119110944373195333221831767048021179627563870964838895480030302633788721042547596413823373541851389962094463384912443062221660617211102167598900726425014238762652163405778886504873420250501213128009666146653911758727228072995410279068096534165246663223693237854318679583475083696402512006656907713788172549593492076214204527737027056128737928125836304704868224866882118185286644868052405669025268400880208672558895089153043089876785993848676818544564314338489775316022082496706921189984669498799919223309446467400302285624243904735699548719235871538656498290660576388082767973147510209643985789986820226853640276101365199361050382369552178854389551076619544475817478194982076310247931185166787834424253948999529962932078469270928160918580707285975367677498167671371926524286288309850845286857033897659662417848387684591205309615509695297077196706552381160869444016746740932277318760189038868867909752716284659822118213164487091123395562380095024754356967038587678980485618937620097865840217151595049362528363445280578768309434015726870196971519166226669001470331753076850696146873616605787396344676016669329742479185247634210428522775965118861348835714873292684644258429048878161063020678718978696845382917063643970569762352641756285110972048584404683095276527088550765388073323860945104291669677607063662644262898200014872510792857897016738334626129756216830415921828684743939091532292557527130693691893832701602423411724605772692781305032557209702200562592717970395348261672688473996712344595056501506481079511859123233359647389995733518561157228166600512296783477046924016118131342616982385201644333376174497530063823914462980416425528924743470481933982492694530000415188699955667563810775933700281540825435930191701531081095816231243575290158557023963631319897429016517116819894522893584022705842477183337843530344214217779306119225185235129039595271088275939157267774275169665126335123544583224261078018495433713790974983917682739597251747848680207738967513074396379388703509946585008765515619771456852218107019341101323927718675583192742662716542912248106325714764052982319484099928742951970872244794097906723594458537390592079335884019512868104935828031437111559277271031609578561328856397776019641412353574028191130638095073423616311748687826039205991854339257787340535738020603394338007552992266544732267934088979146426043487258863546616809892209051236888838922063882

def gP_3_2 : List Nat :=
  unpackCps 103 569990500484405751799494698168166374703330092057118064149239153111882991711501421031801141588359665062992768777835356007438468898946970841034385210299441233290590600505487060149434832246781318630709720662079120407744618433235980959441362895645741987249942353876628774960635644544147245169856896946801257032278876564416289489422742989111331

def gQ_3_2 : List Nat :=
  unpackCps 2035 17623752771959551806986319459165176748442626239554018900961220408431524985635568987097046732881902182739678994417982000764042157364573847940493347704727431249924736512081776690120567556703623571080048251726263506207931798175928707523811781075733945009074494348211554117495733597215444240784534851140763011833249760963587256195356470666064668504681289735957722057563111996481893143572304783617471348661518117146140201052346948870425287960098034233828092208687841979447535716599890758052081689778957276079035340802229795711160329854981408454386435015021678924948310339135582387426649794744862452047595004348047871473817604148410393080273009153766462074232154346258824430529913806814071113488197545249242324845174571099831436738797945396688669974739824695171078768962778796868145674429953910269126750155850762916191726171059146296015923372405481978930150908021602603606834263202602618232614074546717924749875235323629947438111793559859569643696180836963723868499406615446020137137688610905103083145410559843389240418976726284824289321785028730029613087203565125340237116004224255091953806377616839600022250084693611211376471648733274005112873691707931594920002658331580384352990298133629477539743288353883194398777768516100799897921165347186728596231197496789486608646576035710536671146491280100121946166849760773347193165574738848270379701947237201625595653609686624927139496890900349220479299004180495794636278596656834689574234470944597945456799257955637357555253072582398512081634078005277745821181782422088201682648848122261719334984520439124774443674001785461578991228557177157366131312031145695302223416025002992912062232433815761777485108176880890669327047090645003437535581371267410046669101497973335278938947111548225204136738387737522497051138795235872313605752540605227548758175640945087322874838966324454804491311227510822433338531761310505442747155658935997937982918489155269012556541337010592591230652954831713974927668523785522895388330386109785743717123240659308506956678723597371056285889643871407349821366622993096205122310708498823682875960357744699537164952463437044757275667439593294184869787542526870407697053302842500140064970254814805183559896199681576200582591340254447021747046768493500428531081493545986009136914494610981858714585314030486089462800713321044738018662495949705669866242780360092193423820295331375415980665014195002474862569429383714058088562945723318315965732242090561199734702107753681620448347890869456770003523746255377031766535926810890788169670477642816437202040322099204426563268860771939079163541111946986312513592222195561767284025014721209602770049985064878090679205267457068346284126050841002135354869663167946050097234481324994150217022073065227311628111398537435746410982072718833753333390369808434418991731152904029156850595122533067333006434664421978363875439700731812238162872350353067573026345055453165279513235229084640700400915765661752408696910953684380046077638818750912273833705853086710588158596472592116304930519154332412014066621619754659785791090785660218685116549349648715992645535929742585150879246062911284392960059398527501928716204808336264528680550276674919299660786601168573284490926609241183584563491140687076661110239374507195453367291359960998547540972164184173677848381244035861854362200732691690888213209516728690153024522077162799966390866894260648709942673741561269254399345031374452170726654124962807165802679050517681197236061566719355184405765524280827417175515236258744696672943465673653787081749174214864345243964248080830222329636151804220928664104914980531629810680396601787555839229527811193661031139907150532426414941589054972461350960160010791085038535851344753314387993596104128906933688711031434807657316395980404410372842726908627340139849903835324982082982863796184442266749237150914413576370638192164231856530104684015109536706488841680867050030035190493811833037897473335253545198413447731387415938729490838464983104411039824827877366188475383502260725641313459888583255942443900063041370201303078302551633882774147922691880215825002291204422412383639566070360984984088434990498811901838983712924310064918127317317242467413977513436522515653919917507093652282443371339154388627883977611320179815260748145746945935688361388325234072881870409994854903923339487434735227753208921063818804664197926097038601988356559988630477638531989924760101533476815693002646386111250067525061648233069430698773555200592272555791519024898670901232170667827674246911170589017116570004410620406474469624669269417432679204766446124624268955671502953817036070885395424854296274464490433248867002333160756029585167334708153454697389401689919448928178064894493405186860299213290715329525575039142852978269548501945067719908047320379972311475243315974339628964994503571714904088186670312738489119552776501714441703199538093704707527748526771507478166482332288621552811948738810104201638514975550252008110370640289341578882783505474380479641209857755236135566484222493589434946195264531727220523298954223847944701090308258021869037089206502245417873679839681800787243115392996918537964351530341951491987195748130362430510558943001047466474961923686054904108344913281135930558798859969074351544284759536200344039852316902770365807337332296650199143262886552195839535175548945109547151462135754213178075927849776733912925826565191857927634233480317600563672763168815696108694811579680586098471146215541076881167814521419190544987495840114822568045329600428643138281608384836119976184647865650488978781538145314575824091962241482141854442287426030390938830170068421198959625695082091023086287669061696155419496003422827131694017843343459355743109858744935297579510226484118724689631134613189756437006358418677631612813206590464386914142922750367410400644386988004326952706858578435782078164421403478062770639246009739572958408493507060325482550892593846758274210712387495357256693178262045591357821963769166401828640168907381566749033341051720585411188036479611076991348763994366232762789086388872617783654155870990292637638395375578896811043934342753884723448777289303999475088981985490377373667479624664233641706442470114092495920369567269017038431552496125868586349448585557772772930504051911847707861137411438322868209696033560518147521697986342951703001099307092297965474704004889691839096538613674754140785107330324475705077228805911429981124170581595299421196420492155627971629486888501630550469226406156628863031939126972154369539817980318246300984640876114345602677911696762029439301893222770499793350411149106971349202322950143978622783743936520054530135227440345822594308103726944348714001681930951145454279306178446091451780923910484986090244485573972199185124359608433141785673877920986988827174189678324331675863458877460882968383456476686130843729262563338

def gP_12_3 : List Nat :=
  unpackCps 2046 46769738751096407152885567690334886873261914799121564104159211285494865712915156717066525996809821336170405671559804949428403785271591241638127283352527947540730797697937867509668385341760526921055898376121961666046012339656142679708476654095816877461623484617436797391038362138963934013336974307381076971310508827016721238954470252168708342291875785581619005866958984888912709665294479816698062761646846801256871928410483585809325421261489910918241221204881195781761745512463673011567332745174323239538290510362493246370008555717201282679595705548176804387413904600824364876352809901264614414248052616312108209128395505526946183867876198753913494881154859223762644330024548905862090001006337080692062656558607104858900866881692322348925097914677879248638138119056120273035077948691122872775337868339270023022890592241359689931814151694097705997742466933046456381436491758512058964690593994308163670584573007847798151112433078883925862613307288195085727499522823796111063301043707323107658539379305901370508926809046964647909842308531577119772123576449739371458676132287412428889819131271419931968368771362012144652479924586104557238410974286447075896364697683473424580135254080480553008229041015693588299205662706553089315873137747925114202541949563146806616241447725823993470773110968863023360901036578892202769820922263598477519539714034747430672245767847714138908225062469074093237751631002720406637725384429170681733243029857198819876315781609366690157547535855498484338216190457906396817479148854121944863316539981062816406279783218492585685891379827642769387237055482339903299356956947047416419786881851345652676093342364130558940199341494879151446697102590457002128004265913691516806333442174935511151403570260229094533562748630622405236777668482072679910685097691189107996960017158358928965843558638723559908340335465105539264494269560232211390944468585292982286558624622332250102219727837921424452485971601189005548109061098431097081108979002290836911365300051677368373491908575300776066039780806780753951200313495395963489279223606161902699917086249971917841406181577146429790902651907386448062657380163876713877912315517837289741274829997498346009162453480455615564524366934713185818719141666022352869313659815800623627470787875894871143871115778472066187735700497621660005835001129635169209488696875575445286128519454568801243494923470780668610300623018551097071536683352345887883509883533235863664178866665554635651793228878156596028988066705096594086225674312434092842413666217729230010307687156243169517570083823074008512488758252984256807687469679728871186200678467782042430753363315612694283415806745645043819280599691382799211265751321596180984719915648829327264064396136480449543711217587417480997995470734877565016923749297250704678404780237514934896891208374463747463165048103937693832032170373996266022048126240899444744926545548705666526288494851143843963878841612031417477914919323375887643276513756081686423269087707411247540357840289912045840145363198622298899848586376931323976384397137842286796587546842584207170161278042349329280036464170295092270302878175400624383315827716411197394703200328116064452476863879514398303444210994092962527829025105688070293670584294296259975464501199618185438583070273186261369884891363915236113806098758695624332274146024311669444806512825808182595866660281945904974411995088112511770786020740390573289498742635162646436849494242194334468325677884631596653933823366188339209195164377327380530834129599234881087476928357538631128541586734632551953029650839275838760648213938323913103655940561995018867800199315722855815163122258488008899475649274432125999303771169972434588387984763146386961240511275543280325761468264756077182238778566169959537209311805765407339333653588454494601677165431076739064620695641649649211126068922609116395598730505576683062627315311527106140762366299567144887772668919154821817369660034687356024830469951130059652632117772156103873164680901560903301943732988812150565370078451554526290716913369399881199721378414942823858470010577162892015928433813761291182805430718223532046425691108088620889582582002262200672122714528608892952749403114489419383420567428148322715080926904868311873258753956995260607417327606316748942843005544708985163631105889667797016711227169925179484044788640226246792780740459618163433185196017658584772218994216015787106761582641208963043471187709596285002121172677874691784662690018713201703690493566007996107443802484406984445006454130783118769984993948233658108103633948289544898343559959785673508631248124939689340832782198341424044062571793859680617524299109584855571625887366939115684640369185111014813315179336132621513053615652615151139142392543172773673292190554166117135451401990404323664168826003806523256802608278852726069625398090440520380351526966274950991104743286931147710986784558925017813618684808075987308283786832221546067474242737457896354307836636544966244988396663264435466594930743728602608815643128025581200468145582604720020343246615894217211283701705017221151722413754728674108891373777658545082756298649376040485433770466951378878753744478144847401413778780179296617418618895149905502972487293805043097184622339834950710917144863406130135055406473722025530980012777178589983670105310115576703142984387043802949432805461985115104931525274422070708876535877557392846566770366040060729584240073868838671548070270600673318122918154998031113578624397497131777512558829286985291495650654848514193029331635086321473897661162395925008378270656963235349181834964720420851488777570200048037450838398233960361440396089776938737872585085448416124584977739827943071172401660331716146194815863343656009450573059189489131939941893078945568052064241407037077378116447158752087373176077889224021092813637528892502206174937750485269846963807898043692172363915463551615273815078545228123931165426001471562864990067014233849785106136274872729661595526274438789262123207136016265309763262686155535133358603880787963060795028475225968053921886287576637767512767352463423411035406788166114781074299616607678267685902355022274686609358901750233305013183198399233162333145204853189819447613220751933727331780349847360493548276000659282026296558158453394139753570684620236164673198356806884758497596773939656502254037251261279887250457078006546779457511518644445678624683639033690070182265110746982357566481760080789292700093622208709858445367539311963144591613030406906201005090589464626302203471498124854154288115508742630284875322490693315860282236179888022261655273596347590244567235761806463840743578688222995806001560166263803478407911690053519692747325344581157035114791984823534579660315839490946187977247943906450247802334908242222045427053782381667566429034740776066735995938510070360081794152384109874624248628852635736340311995211871915409443

def gQ_12_3 : List Nat :=
  unpackCps 7 739528847775041081354

def gP_13_2 : List Nat :=
  unpackCps 1441 206701581848866913006458586792290964947334201216921498280841599626630462559437010831615904000387733962187616629378716188472282385532740249833267641089895479339465900677346934809203214981044669310994914341117330295298907163210351345526203285119142036190072134975348851174713185401889858652537973222956621868776967124335672092162442517657671348955877431693266965622117874103014094940592809496183954495683160352952955645878402135166955220693517940054580436132017148766101937431116717689462549141550505845361085568184907711537703028268239446769133243356090345818376505805625009117746733194741309873265128727242436974413105895160555148543820592222334083342021553196663342446334197845739927238015464743990812889972757769786719242358602465800777116907040507046988635354540329199297694999576646640540660647892419917836915315316536643051907645632016305976355085542990258433674889228781323500253908182190135559530257936369546152885592075350885174934140616050903431446839511448990119054537239646717363788206665402391745401503308861074852593779791933245054394090566952093082712768304827285481413620892139227637225954681062097418892957693994296702190091267219157247184945497435496059076006694189400620722099872951335997830083464513366604155164537346988742887698788160100505612398400906190489625950545913522637074253091618527044222306751800334970498331673984635337043210112654062516528509338337160780550654415544130732659596121332092957387471734194263257078950900849359621427595215667759999526142127522560185305843238835435477959556800333539719390909894191680667922953409031026862517346435931191048119728450511567856741165350389188730153961318054368251986472771693893580313239309245923169910498421295830279961317596067413560064612615104299059609761785399082944057460738845425554294070496440360666227286479191930093481332669374515868864703165093816901346913185525622075662321986325157185539872356855693342509882033354325971392447750921124909750912854634431921030036837587577072705757146511507448242418383383231223797564726737914187241146921552390051090404822430317860347516963785036524712486651116512140878400614791091326082064810214634422754456895739536939782484798146888694325063617995766768309810806497697126187577919960796601631312173302432511916166819366375686196688641184336190737947965180235299080364154987300701395017087128847236285171245636105154208840760271407962326505978336702994317566696591904589858109819397499211113280617409971731240189190008817179337652902873348860503520674210724849185601089734213058504664808196179526146136914926339045530408431794656154831840928709944584696787856229094104014968182540569081432370081065665175603372472119803244030339188232632581303837672836587575969466503831602813855153261026263551077152701237204970202339276623357136579757211768274357586520245578015694155493458783739129495900554834986856845033398872105951902182342591553437542073539828950592518751048742239112502864696023647224839436747339299692274637392825594511121150840388780039122392154299619251317042250759409218945801160985829246168896803881906521099734805840601597665848649316932558253189583488067959269904644873375953800734079776345759277622638964103235921067492426560112664386738796453791831895550150208337907872048398700468034124646118711208662328284544404731503491629881411430908575447057038211613925085885303019462299658486422991900302497217031953162830710981312239827555787316109551427178487761746646026088053408167924450275169626049790324705566961945532753017436634536871165051225390896397712848958844593867786648979146065057167364431333076723406884759112872583735455515668851583001996927702852486479080890101858973854902506897742502671038288204876042747435419878267578548549479200099908993054559331818179962824497940111540148836288167410909759777831935384134623034715471709120768306269187852995775910949439345765397867153010029084463255246898318212566199641951932493169867557156571460364509094041987256677598901893952230094540866878195463528442537235755826728857157238611486899361663270344193281491863954730986146370957938306045969130145739298552799175282493510516390336468187234092011645372435868906901145100058057239945249304157390129341518514357681315113459085068465320099025651663897529277258507543824391216797066051880236870902408682256537492734318780918964541711138099437358139783066447230829709852181606750874892005040329352117432189008208757212153971259917771779938548394166159427554389601526739811506312566578235727445976448368577193079687480423832909443348542992470639722933226132298785770175124528783948454412515748020515615774185459809108558454027913965094186307969104867868003098358565257033843853473259351081152601106146822327755686079235434611660701799564129892029797354620843958490769732055932635071503891953656760562608552781964942785749077169602595

def gQ_13_2 : List Nat :=
  unpackCps 2035 17623752771959551806986319459165176748442626239554018900961220408431524985635568987097046732881902182739678994417982000764042157364573847940493347704727431249924736512081776690120567556703623571080048251726263506207931798175928707523811781075733945009074494348211554117495733597215444240784534851140763011833249760963587256195356470666064668504681289735957722057563111996481893143572304783617471348661518117146140201052346948870425287960098034233828092208687841979447535716599890758052081689778957276079035340802229795711160329854981408454386435015021678924948310339135582387426649794744862452047595004348047871473817604148410393080273009153766462074232154346258824430529913806814071113488197545249242324845174571099831436738797945396688669974739824695171078768962778796868145674429953910269126750155850762916191726171059146296015923372405481978930150908021602603606834263202602618232614074546717924749875235323629947438111793559859569643696180836963723868499406615446020137137688610905103083145410559843389240418976726284824289321785028730029613087203565125340237116004224255091953806377616839600022250084693611211376471648733274005112873691707931594920002658331580384352990298133629477539743288353883194398777768516100799897921165347186728596231197496789486608646576035710536671146491280100121946166849760773347193165574738848270379701947237201625595653609686624927139496890900349220479299004180495794636278596656834689574234470944597945456799257955637357555253072582398512081634078005277745821181782422088201682648848122261719334984520439124774443674001785461578991228557177157366131312031145695302223416025002992912062232433815761777485108176880890669327047090645003437535581371267410046669101497973335278938947111548225204136738387737522497051138795235872313605752540605227548758175640945087322874838966324454804491311227510822433338531761310505442747155658935997937982918489155269012556541337010592591230652954831713974927668523785522895388330386109785743717123240659308506956678723597371056285889643871407349821366622993096205122310708498823682875960357744699537164952463437044757275667439593294184869787542526870407697053302842500140064970254814805183559896199681576200582591340254447021747046768493500428531081493545986009136914494610981858714585314030486089462800713321044738018662495949705669866242780360092193423820295331375415980665014195002474862569429383714058088562945723318315965732242090561199734702107753681620448347890869456770003523746255377031766535926810890788169670477642816437202040322099204426563268860771939079163541111946986312513592222195561767284025014721209602770049985064878090679205267457068346284126050841002135354869663167946050097234481324994150217022073065227311628111398537435746410982072718833753333390369808434418991731152904029156850595122533067333006434664421978363875439700731812238162872350353067573026345055453165279513235229084640700400915765661752408696910953684380046077638818750912273833705853086710588158596472592116304930519154332412014066621619754659785791090785660218685116549349648715992645535929742585150879246062911284392960059398527501928716204808336264528680550276674919299660786601168573284490926609241183584563491140687076661110239374507195453367291359960998547540972164184173677848381244035861854362200732691690888213209516728690153024522077162799966390866894260648709942673741561269254399345031374452170726654124962807165802679050517681197236061566719355184405765524280827417175515236258744696672943465673653787081749174214864345243964248080830222329636151804220928664104914980531629810680396601787555839229527811193661031139907150532426414941589054972461350960160010791085038535851344753314387993596104128906933688711031434807657316395980404410372842726908627340139849903835324982082982863796184442266749237150914413576370638192164231856530104684015109536706488841680867050030035190493811833037897473335253545198413447731387415938729490838464983104411039824827877366188475383502260725641313459888583255942443900063041370201303078302551633882774147922691880215825002291204422412383639566070360984984088434990498811901838983712924310064918127317317242467413977513436522515653919917507093652282443371339154388627883977611320179815260748145746945935688361388325234072881870409994854903923339487434735227753208921063818804664197926097038601988356559988630477638531989924760101533476815693002646386111250067525061648233069430698773555200592272555791519024898670901232170667827674246911170589017116570004410620406474469624669269417432679204766446124624268955671502953817036070885395424854296274464490433248867002333160756029585167334708153454697389401689919448928178064894493405186860299213290715329525575039142852978269548501945067719908047320379972311475243315974339628964994503571714904088186670312738489119552776501714441703199538093704707527748526771507478166482332288621552811948738810104201638514975550252008110370640289341578882783505474380479641209857755236135566484222493589434946195264531727220523298954223847944701090308258021869037089206502245417873679839681800787243115392996918537964351530341951491987195748130362430510558943001047466474961923686054904108344913281135930558798859969074351544284759536200344039852316902770365807337332296650199143262886552195839535175548945109547151462135754213178075927849776733912925826565191857927634233480317600563672763168815696108694811579680586098471146215541076881167814521419190544987495840114822568045329600428643138281608384836119976184647865650488978781538145314575824091962241482141854442287426030390938830170068421198959625695082091023086287669061696155419496003422827131694017843343459355743109858744935297579510226484118724689631134613189756437006358418677631612813206590464386914142922750367410400644386988004326952706858578435782078164421403478062770639246009739572958408493507060325482550892593846758274210712387495357256693178262045591357821963769166401828640168907381566749033341051720585411188036479611076991348763994366232762789086388872617783654155870990292637638395375578896811043934342753884723448777289303999475088981985490377373667479624664233641706442470114092495920369567269017038431552496125868586349448585557772772930504051911847707861137411438322868209696033560518147521697986342951703001099307092297965474704004889691839096538613674754140785107330324475705077228805911429981124170581595299421196420492155627971629486888501630550469226406156628863031939126972154369539817980318246300984640876114345602677911696762029439301893222770499793350411149106971349202322950143978622783743936520054530135227440345822594308103726944348714001681930951145454279306178446091451780923910484986090244485573972199185124359608433141785673877920986988827174189678324331675863458877460882968383456476686130843729262563338

def gP_23_1 : List Nat :=
  unpackCps 31 21883211199423436038360318867913158690004745348366637049674406208273694764483464865159675911881162787

def gQ_23_1 : List Nat :=
  unpackCps 2640 3987672980466732468638663522017031430897758157301359325830728997005688267304443171398528605536781541484926334301037682397326382134793906230377255242778262373522821435189420662073771942703812608900894116607516507469742892943838752107647965816814936197007289395371214022731424220829636977438831575528271575379483319869782091349082482368145919058946757096525668946128749138442173027184682964051411387824698731042923601427484067584913301375404444201920182924881615004789424379713201998970542609701494717223617166981975280846147931939568054295038628397864902569910108434888574403960591616723482779928781383220962612033545668692356331383588881902507094905090875604771249624800040769891303380976859552317791311618112014582564818950547477940586805565878524249789874965537512322492717445961356089198183001290991407891956567459855296341293568099575538282139565856443579174510679775774061172447272660332783678844089739555326689110676873746188800426391996805148715350532740145539177140691511584183848368773485955461214486496973290960248867285461099793847802347919399036852148422801454301535811146644876259977323663475800853707776768118843093860674525633586972786589440056914359482007106012514733646191331872109595301073780213502178415229769232549846814464707070696632895517508928335198156272965049571319649056093609792987562061098520857861305954749512064479252168490964328342681748458109748807451232607580567424848094230930288047251216545870138288254433012981219636936953212385278915015151304381825791091338649097695158369864674409463265807685783175485759660977429719505813486206139239721469422944593638556651378411876814693175834038338551072604471111507521243663306477439002851543632109581239386856198540164961925774463800324441508008288818952092175473963118375187303176710321461298859718573697735868931892525951621374464861554554325794276915238790029297358331226058363851449313451030770894923058610315064179752858843513759271786879422409202100361557110773366375089324445988539683116638025467540182756394694219861812710779945673574548555585810681796702731837474770241187645211580725372938132178391940677208522265829022475072020270098860255475896611568821773609572667430336790313186096754670564151844912212550528353251002775474940853848831503850099509178447165890343034389842451604038969014593070250412993056154088948054433580291137517436218608618710672877980137687458694043354525641298940702455921854780146357909084072215039915752685056853506709253434156528857701932295540511754684916592759963276839937729914001486081141057829407971282916998164152432365959067787436724265981935361462910239539104777789664223072792494171572148619523191575990766314604094290897832887411140419406946296533401362941956656883475366838747219445340526974751033228971783491078443236533927041567040405958865649985683259752309493923558040072350442060810190088625316958745424530274730376048807291651484622014943789151144583355153620601328315070201051101094507576962496785437715507917241537719239619968871834549925417666395376673642229392718771056546134138099111094214006485171136075428493780726517111356622911881740469638498730341277126003905885483282586672223806758537911509571856658297818218250996049171440590729804946850189106462619743329414681491247507304409099316256731427922506072811413182162294260984443409830664467453568238544005148912483561539320873056094473837830078145022708113258158717280909357213220607122143608727298725393779112495926517616399532517849828494354001096252884956696419671797049871265860648337807119611829471626384346744722345676144668871651468843084432611070934229097129246900747321498281125077817558482281263752472122881471255003174660949562714649152177358646522553391218796891123087403075375905015794174846250701458491421028418303143592077903267164698995851414640680515366380026331737595163008867987651749713817636158830670438800679689663619942792034688559375269390506375207888768034596366681031602956171345881385103458660585872356531312759968468407921110448371914700327819828088417400476841432247060413800861300557243727384801831644898691634560211175162118826881310941784454104169928182193390718364392914161550629370559017657852344912722560040833401030918578620180898367229302153443262125968069327174414560656566748459873750837619921193474672657247325327087625790785331065209549431175286934777710806933240498447997190062581446682204612512827673982913820125979734300382032411880577896719507239324312310628749722835847438360386218404572086331986640223806201678095825136976917369640635061497663216596457668680790251936133634482393471843268457802570633541706177384149941175079980393221786095246517057466227690613650794741654101779127433646929000740886144797758119680308972270943487755145676659023564313876299504646730854005824860776048861389903663988983674532463772122409352482944870644237319877172117466414537666288212926901476567621100771297072831993793561319622995775385392178052092093362317478362234825890853156531664998550430440046514949331370614363716846386297807527065501932119012345452437403717731782573312759369953358699100372267745095422948913054861276789512684064231712711911136883228098695488834593503911164262248284434375778265371683396749713943904879436113419355562365480751741498517620126242036693766647447644242190221146321982526217882377949656249305427984876512227599110953866129956049717098749730154111889241165280406378081826587542408474557234646289920750850399641073107053367910194484292998497331459381154008647900887256227365579902305912663905158548054596995202700006913909243429725718664811653384541307104217213353116544251581571879447019019708530804478029537620587343900267195374756749044100912572206210885658453189590445485273995893901690321930256845704985424128310474124356083929565067852568983728862687947712994360118489349251178064012628675516611443680304107409796169557579811407026180542485511437279513079138691532198525856503520301351319497796449197977514484652573183219327458510571278302800191651909873508802707098412801683903896078482506370762820867263311254618050721695328414779665196868196173391202273631815837104022390768756168835885921328891099746663229931920397330362468762738923312408121420262910044155300322779354154199907878585727329089592024662799012661437183380170935461506440812945816829041098836394737180105982536916031634995663981340801517026059829287139345447608151761243796990781568942973403370324137297829633272967054675365576509581283598917495651756876005859705712931666981626392616415940325325582034663885167804608733924312125888903809783828269512852674474633728043642032616682826744357320116110695243588549213595285469129280202593409659876192342697326750266384819941050676225350168800020144711950578119680967184201590695586739428289215493023568334992159765020533033776463912349182509360434435690147677969591629676766544540644206713491445874545550796795847130777972969944546915212744897209401637735997714458311354833412231440959153987736122634746670005654932940248212959347816553442400135691601605317206268124875098032113754185591319846794020290769617948781946224379615637244275901849576519428625912614490635258515712794061512283067627364582433481877083459793195372852271046757948345249276691240747743874665215495305708826746950219419363837419483378594619151129800797184957634348214563990870493822904971404276076465328905040917402699900036987641650453996529805957973061094866605185058940755221680566516128370018826028638955312187865722800926297441211478568808270412893335967660661791622160230483021594094793806701796012681176618218257455160791274594603585675911403763379005775991889443100244652616254811362040650073734454934373138473275598881886001501599786163868275360083616132156745161128590822145025987977307149400380272792446113593502418768746084109827566882553986799565354062823744887110006295004379760018983031801969919528338708009348461229154496818038842417695571476433421607603128308872455431390053061774051438657540271405648043807634820585831455062781648206840318766231823187278610832943504023518755113183784479400671130408140973963170983959216878429912015546309514235780354287392973370540358140577756147734818268681072649015579247194847907542150872480116704762953210367850691154321974005796694812805150850673902883650795914027570875391424406765893065898057316407769650426726022510178773494473234858266007933224324461835328748914073686879003034175165585983624014437044061412026888024102898216023002386354711771262783570263968061368945467227700220346259370350348519283440754122912593566887458068939750250007797011311619873293636552618814008510252393173348465569056626797096009985742320387558684702762520535524992795611639269396694427308228733585245659667835939982163062866343807319160589957896348626057549996471323159380678487779988523332269471701052409675821547262495676119252689646530481639434

theorem hStep_d_1 : pyReplace hOld1 hNew1 hDocH = hVal1 := by
  have hdec : hDocH = hP_d_1 ++ hOld1 ++ hQ_d_1 := eq_of_beq_list (by decide!)
  have hres : hP_d_1 ++ hNew1 ++ hQ_d_1 = hVal1 := eq_of_beq_list (by decide!)
  rw [hdec, pyReplace_single_occ hOld1 hNew1 hP_d_1 hQ_d_1 (by decide!)
    (by decide!) (by decide!), hres]

theorem hStep_d_2 : pyReplace hOld2 hNew2 hDocH = hVal2 := by
  have hdec : hDocH = hP_d_2 ++ hOld2 ++ hQ_d_2 := eq_of_beq_list (by decide!)
  have hres : hP_d_2 ++ hNew2 ++ hQ_d_2 = hVal2 := eq_of_beq_list (by decide!)
  rw [hdec, pyReplace_single_occ hOld2 hNew2 hP_d_2 hQ_d_2 (by decide!)
    (by decide!) (by decide!), hres]

theorem hStep_d_3 : pyReplace hOld3 hNew3 hDocH = hVal3 := by
  have hdec : hDocH = hP_d_3 ++ hOld3 ++ hQ_d_3 := eq_of_beq_list (by decide!)
  have hres : hP_d_3 ++ hNew3 ++ hQ_d_3 = hVal3 := eq_of_beq_list (by decide!)
  rw [hdec, pyReplace_single_occ hOld3 hNew3 hP_d_3 hQ_d_3 (by decide!)
    (by decide!) (by decide!), hres]

theorem hStep_1_2 : pyReplace hOld2 hNew2 hVal1 = hVal12 := by
  have hdec : hVal1 = hP_1_2 ++ hOld2 ++ hQ_1_2 := eq_of_beq_list (by decide!)
  have hres : hP_1_2 ++ hNew2 ++ hQ_1_2 = hVal12 := eq_of_beq_list (by decide!)
  rw [hdec, pyReplace_single_occ hOld2 hNew2 hP_1_2 hQ_1_2 (by decide!)
    (by decide!) (by decide!), hres]

theorem hStep_1_3 : pyReplace hOld3 hNew3 hVal1 = hVal13 := by
  have hdec : hVal1 = hP_1_3 ++ hOld3 ++ hQ_1_3 := eq_of_beq_list (by decide!)
  have hres : hP_1_3 ++ hNew3 ++ hQ_1_3 = hVal13 := eq_of_beq_list (by decide!)
  rw [hdec, pyReplace_single_occ hOld3 hNew3 hP_1_3 hQ_1_3 (by decide!)
    (by decide!) (by decide!), hres]

theorem hStep_2_1 : pyReplace hOld1 hNew1 hVal2 = hVal12 := by
  have hdec : hVal2 = hP_2_1 ++ hOld1 ++ hQ_2_1 := eq_of_beq_list (by decide!)
  have hres : hP_2_1 ++ hNew1 ++ hQ_2_1 = hVal12 := eq_of_beq_list (by decide!)
  rw [hdec, pyReplace_single_occ hOld1 hNew1 hP_2_1 hQ_2_1 (by decide!)
    (by decide!) (by decide!), hres]

theorem hStep_2_3 : pyReplace hOld3 hNew3 hVal2 = hVal23 := by
  have hdec : hVal2 = hP_2_3 ++ hOld3 ++ hQ_2_3 := eq_of_beq_list (by decide!)
  have hres : hP_2_3 ++ hNew3 ++ hQ_2_3 = hVal23 := eq_of_beq_list (by decide!)
  rw [hdec, pyReplace_single_occ hOld3 hNew3 hP_2_3 hQ_2_3 (by decide!)
    (by decide!) (by decide!), hres]

theorem hStep_3_1 : pyReplace hOld1 hNew1 hVal3 = hVal13 := by
  have hdec : hVal3 = hP_3_1 ++ hOld1 ++ hQ_3_1 := eq_of_beq_list (by decide!)
  have hres : hP_3_1 ++ hNew1 ++ hQ_3_1 = hVal13 := eq_of_beq_list (by decide!)
  rw [hdec, pyReplace_single_occ hOld1 hNew1 hP_3_1 hQ_3_1 (by decide!)
    (by decide!) (by decide!), hres]

theorem hStep_3_2 : pyReplace hOld2 hNew2 hVal3 = hVal23 := by
  have hdec : hVal3 = hP_3_2 ++ hOld2 ++ hQ_3_2 := eq_of_beq_list (by decide!)
  have hres : hP_3_2 ++ hNew2 ++ hQ_3_2 = hVal23 := eq_of_beq_list (by decide!)
  rw [hdec, pyReplace_single_occ hOld2 hNew2 hP_3_2 hQ_3_2 (by decide!)
    (by decide!) (by decide!), hres]

theorem hStep_12_3 : pyReplace hOld3 hNew3 hVal12 = hVal123 := by
  have hdec : hVal12 = hP_12_3 ++ hOld3 ++ hQ_12_3 := eq_of_beq_list (by decide!)
  have hres : hP_12_3 ++ hNew3 ++ hQ_12_3 = hVal123 := eq_of_beq_list (by decide!)
  rw [hdec, pyReplace_single_occ hOld3 hNew3 hP_12_3 hQ_12_3 (by decide!)
    (by decide!) (by decide!), hres]

theorem hStep_13_2 : pyReplace hOld2 hNew2 hVal13 = hVal123 := by
  have hdec : hVal13 = hP_13_2 ++ hOld2 ++ hQ_13_2 := eq_of_beq_list (by decide!)
  have hres : hP_13_2 ++ hNew2 ++ hQ_13_2 = hVal123 := eq_of_beq_list (by decide!)
  rw [hdec, pyReplace_single_occ hOld2 hNew2 hP_13_2 hQ_13_2 (by decide!)
    (by decide!) (by decide!), hres]

theorem hStep_23_1 : pyReplace hOld1 hNew1 hVal23 = hVal123 := by
  have hdec : hVal23 = hP_23_1 ++ hOld1 ++ hQ_23_1 := eq_of_beq_list (by decide!)
  have hres : hP_23_1 ++ hNew1 ++ hQ_23_1 = hVal123 := eq_of_beq_list (by decide!)
  rw [hdec, pyReplace_single_occ hOld1 hNew1 hP_23_1 hQ_23_1 (by decide!)
    (by decide!) (by decide!), hres]

theorem gStep_d_1 : pyReplace gOld1 gNew1 gDocG = gVal1 := by
  have hdec : gDocG = gP_d_1 ++ gOld1 ++ gQ_d_1 := eq_of_beq_list (by decide!)
  have hres : gP_d_1 ++ gNew1 ++ gQ_d_1 = gVal1 := eq_of_beq_list (by decide!)
  rw [hdec, pyReplace_single_occ gOld1 gNew1 gP_d_1 gQ_d_1 (by decide!)
    (by decide!) (by decide!), hres]

theorem gStep_d_2 : pyReplace gOld2 gNew2 gDocG = gVal2 := by
  have hdec : gDocG = gP_d_2 ++ gOld2 ++ gQ_d_2 := eq_of_beq_list (by decide!)
  have hres : gP_d_2 ++ gNew2 ++ gQ_d_2 = gVal2 := eq_of_beq_list (by decide!)
  rw [hdec, pyReplace_single_occ gOld2 gNew2 gP_d_2 gQ_d_2 (by decide!)
    (by decide!) (by decide!), hres]

theorem gStep_d_3 : pyReplace gOld3 gNew3 gDocG = gVal3 := by
  have hdec : gDocG = gP_d_3 ++ gOld3 ++ gQ_d_3 := eq_of_beq_list (by decide!)
  have hres : gP_d_3 ++ gNew3 ++ gQ_d_3 = gVal3 := eq_of_beq_list (by decide!)
  rw [hdec, pyReplace_single_occ gOld3 gNew3 gP_d_3 gQ_d_3 (by decide!)
    (by decide!) (by decide!), hres]

theorem gStep_1_2 : pyReplace gOld2 gNew2 gVal1 = gVal12 := by
  have hdec : gVal1 = gP_1_2 ++ gOld2 ++ gQ_1_2 := eq_of_beq_list (by decide!)
  have hres : gP_1_2 ++ gNew2 ++ gQ_1_2 = gVal12 := eq_of_beq_list (by decide!)
  rw [hdec, pyReplace_single_occ gOld2 gNew2 gP_1_2 gQ_1_2 (by decide!)
    (by decide!) (by decide!), hres]

theorem gStep_1_3 : pyReplace gOld3 gNew3 gVal1 = gVal13 := by
  have hdec : gVal1 = gP_1_3 ++ gOld3 ++ gQ_1_3 := eq_of_beq_list (by decide!)
  have hres : gP_1_3 ++ gNew3 ++ gQ_1_3 = gVal13 := eq_of_beq_list (by decide!)
  rw [hdec, pyReplace_single_occ gOld3 gNew3 gP_1_3 gQ_1_3 (by decide!)
    (by decide!) (by decide!), hres]

theorem gStep_2_1 : pyReplace gOld1 gNew1 gVal2 = gVal12 := by
  have hdec : gVal2 = gP_2_1 ++ gOld1 ++ gQ_2_1 := eq_of_beq_list (by decide!)
  have hres : gP_2_1 ++ gNew1 ++ gQ_2_1 = gVal12 := eq_of_beq_list (by decide!)
  rw [hdec, pyReplace_single_occ gOld1 gNew1 gP_2_1 gQ_2_1 (by decide!)
    (by decide!) (by decide!), hres]

theorem gStep_2_3 : pyReplace gOld3 gNew3 gVal2 = gVal23 := by
  have hdec : gVal2 = gP_2_3 ++ gOld3 ++ gQ_2_3 := eq_of_beq_list (by decide!)
  have hres : gP_2_3 ++ gNew3 ++ gQ_2_3 = gVal23 := eq_of_beq_list (by decide!)
  rw [hdec, pyReplace_single_occ gOld3 gNew3 gP_2_3 gQ_2_3 (by decide!)
    (by decide!) (by decide!), hres]

theorem gStep_3_1 : pyReplace gOld1 gNew1 gVal3 = gVal13 := by
  have hdec : gVal3 = gP_3_1 ++ gOld1 ++ gQ_3_1 := eq_of_beq_list (by decide!)
  have hres : gP_3_1 ++ gNew1 ++ gQ_3_1 = gVal13 := eq_of_beq_list (by decide!)
  rw [hdec, pyReplace_single_occ gOld1 gNew1 gP_3_1 gQ_3_1 (by decide!)
    (by decide!) (by decide!), hres]

theorem gStep_3_2 : pyReplace gOld2 gNew2 gVal3 = gVal23 := by
  have hdec : gVal3 = gP_3_2 ++ gOld2 ++ gQ_3_2 := eq_of_beq_list (by decide!)
  have hres : gP_3_2 ++ gNew2 ++ gQ_3_2 = gVal23 := eq_of_beq_list (by decide!)
  rw [hdec, pyReplace_single_occ gOld2 gNew2 gP_3_2 gQ_3_2 (by decide!)
    (by decide!) (by decide!), hres]

theorem gStep_12_3 : pyReplace gOld3 gNew3 gVal12 = gVal123 := by
  have hdec : gVal12 = gP_12_3 ++ gOld3 ++ gQ_12_3 := eq_of_beq_list (by decide!)
  have hres : gP_12_3 ++ gNew3 ++ gQ_12_3 = gVal123 := eq_of_beq_list (by decide!)
  rw [hdec, pyReplace_single_occ gOld3 gNew3 gP_12_3 gQ_12_3 (by decide!)
    (by decide!) (by decide!), hres]

theorem gStep_13_2 : pyReplace gOld2 gNew2 gVal13 = gVal123 := by
  have hdec : gVal13 = gP_13_2 ++ gOld2 ++ gQ_13_2 := eq_of_beq_list (by decide!)
  have hres : gP_13_2 ++ gNew2 ++ gQ_13_2 = gVal123 := eq_of_beq_list (by decide!)
  rw [hdec, pyReplace_single_occ gOld2 gNew2 gP_13_2 gQ_13_2 (by decide!)
    (by decide!) (by decide!), hres]

theorem gStep_23_1 : pyReplace gOld1 gNew1 gVal23 = gVal123 := by
  have hdec : gVal23 = gP_23_1 ++ gOld1 ++ gQ_23_1 := eq_of_beq_list (by decide!)
  have hres : gP_23_1 ++ gNew1 ++ gQ_23_1 = gVal123 := eq_of_beq_list (by decide!)
  rw [hdec, pyReplace_single_occ gOld1 gNew1 gP_23_1 gQ_23_1 (by decide!)
    (by decide!) (by decide!), hres]

/-! ### Executable forms of the idempotence side conditions -/

/-- Tail-recursive length comparison (avoids materialising lengths of the
long constants during kernel evaluation). -/
def lenLeB : List Nat → List Nat → Bool
  | [], _ => true
  | _ :: _, [] => false
  | _ :: as, _ :: bs => lenLeB as bs

theorem lenLeB_iff : ∀ a b : List Nat, lenLeB a b = true ↔ a.length ≤ b.length := by
  intro a
  induction a with
  | nil => intro b; simp [lenLeB]
  | cons x as ih =>
    intro b
    cases b with
    | nil => simp [lenLeB]
    | cons y bs =>
      show lenLeB as bs = true ↔ _
      rw [ih bs]
      simp

/-- No proper non-empty tail of `old` among `old.drop 1 … old.drop m` is a
prefix of `nw`. -/
def tailsNotPrefixB (old nw : List Nat) : Nat → Bool
  | 0 => true
  | k + 1 => !((old.drop (k + 1)).isPrefixOf nw) && tailsNotPrefixB old nw k

theorem tailsNotPrefixB_iff (old nw : List Nat) :
    ∀ m, tailsNotPrefixB old nw m = true ↔
      ∀ k, 1 ≤ k → k ≤ m → ¬ old.drop k <+: nw := by
  intro m
  induction m with
  | zero =>
    constructor
    · intro _ k hk1 hk0 hp
      omega
    · intro _
      rfl
  | succ n ih =>
    show (!((old.drop (n + 1)).isPrefixOf nw) && tailsNotPrefixB old nw n) = true ↔ _
    rw [Bool.and_eq_true, Bool.not_eq_true', ih]
    constructor
    · rintro ⟨hhead, hrest⟩ k hk1 hkm
      by_cases hk : k = n + 1
      · subst hk
        intro hp
        rw [ List.isPrefixOf_iff_prefix.mpr hp] at hhead
        exact Bool.noConfusion hhead
      · exact hrest k hk1 (by omega)
    · intro h
      refine ⟨?_, fun k hk1 hkm => h k hk1 (by omega)⟩
      by_cases hb : (old.drop (n + 1)).isPrefixOf nw = true
      · exact absurd ( List.isPrefixOf_iff_prefix.mp hb) (h (n + 1) (by omega) (Nat.le_refl _))
      · exact Bool.eq_false_iff.mpr hb

/-- No proper non-empty head of `old` among `old.take 1 … old.take m` is a
suffix of `nw`. -/
def headsNotSuffixB (old nw : List Nat) : Nat → Bool
  | 0 => true
  | k + 1 => !((old.take (k + 1)).isSuffixOf nw) && headsNotSuffixB old nw k

theorem headsNotSuffixB_iff (old nw : List Nat) :
    ∀ m, headsNotSuffixB old nw m = true ↔
      ∀ k, 1 ≤ k → k ≤ m → ¬ old.take k <:+ nw := by
  intro m
  induction m with
  | zero =>
    constructor
    · intro _ k hk1 hk0 hp
      omega
    · intro _
      rfl
  | succ n ih =>
    show (!((old.take (n + 1)).isSuffixOf nw) && headsNotSuffixB old nw n) = true ↔ _
    rw [Bool.and_eq_true, Bool.not_eq_true', ih]
    constructor
    · rintro ⟨hhead, hrest⟩ k hk1 hkm
      by_cases hk : k = n + 1
      · subst hk
        intro hp
        rw [ List.isSuffixOf_iff_suffix.mpr hp] at hhead
        exact Bool.noConfusion hhead
      · exact hrest k hk1 (by omega)
    · intro h
      refine ⟨?_, fun k hk1 hkm => h k hk1 (by omega)⟩
      by_cases hb : (old.take (n + 1)).isSuffixOf nw = true
      · exact absurd ( List.isSuffixOf_iff_suffix.mp hb) (h (n + 1) (by omega) (Nat.le_refl _))
      · exact Bool.eq_false_iff.mpr hb

/-- The idempotence corollaries with all side conditions in executable
form, ready to be discharged by evaluation for each concrete rule. -/
theorem pyReplace_idem_of_boolChecks (old nw : List Nat)
    (h0 : old.isEmpty = false)
    (hlen : lenLeB old nw = true)
    (hi : containsB old nw = false)
    (hii : tailsNotPrefixB old nw (old.length - 1) = true)
    (hiii : headsNotSuffixB old nw (old.length - 1) = true) :
    (∀ d, ¬ old <:+: pyReplace old nw d) ∧
    (∀ d, pyReplace old nw (pyReplace old nw d) = pyReplace old nw d) := by
  have h0' : old ≠ [] := by simpa using h0
  have hlen' : old.length ≤ nw.length := (lenLeB_iff old nw).mp hlen
  have hi' : ¬ old <:+: nw := not_infix_of_containsB _ _ hi
  have hii' : ∀ k < old.length, 0 < k → ¬ old.drop k <+: nw := by
    intro k hk hk0
    exact (tailsNotPrefixB_iff old nw (old.length - 1)).mp hii k (by omega) (by omega)
  have hiii' : ∀ k < old.length, 0 < k → ¬ old.take k <:+ nw := by
    intro k hk hk0
    exact (headsNotSuffixB_iff old nw (old.length - 1)).mp hiii k (by omega) (by omega)
  exact ⟨fun d => pyReplace_no_occ_of_conds old nw h0' hlen' hi' hii' hiii' d,
    fun d => pyReplace_idem_of_conds old nw h0' hlen' hi' hii' hiii' d⟩

/-! ### The claims -/

/-- C1: for every document containing anchor `A` exactly once, applying
the patch rule `(A, I)` yields a document in which `A` occurs immediately
followed by `I`, and every part of the document outside the replaced
region (`pre` before, `post` after) is unchanged. -/
theorem patch_unique_occurrence (A I pre post : List Nat) (hA : A ≠ [])
    (huniq : ∀ i < (pre ++ A ++ post).length,
      occursAtB A (pre ++ A ++ post) i = true → i = pre.length) :
    applyRule A I (pre ++ A ++ post) = pre ++ A ++ I ++ post := by
  have hA1 : 0 < A.length := List.length_pos.mpr hA
  have hlen : (pre ++ A ++ post).length = pre.length + A.length + post.length := by
    simp only [List.length_append]
  have hpost : ¬ A <:+: post := by
    rintro ⟨u, v, huv⟩
    have hb : occursAtB A (pre ++ A ++ post) (pre.length + A.length + u.length) = true := by
      rw [occursAtB_iff]
      refine ⟨v, ?_⟩
      have hsplit : pre ++ A ++ post = (pre ++ A ++ u) ++ (A ++ v) := by
        rw [← huv]
        simp [List.append_assoc]
      have hxs : (pre ++ A ++ u).length = pre.length + A.length + u.length := by
        simp only [List.length_append]
      rw [hsplit, ← hxs, List.drop_left]
    have hpl : post.length = u.length + A.length + v.length := by
      rw [← huv]
      simp only [List.length_append]
    have hi : pre.length + A.length + u.length < (pre ++ A ++ post).length := by
      omega
    have := huniq _ hi hb
    omega
  have hcond : ∀ i < pre.length, ¬ A <+: (pre ++ (A ++ post)).drop i := by
    intro i hi hp
    have hb : occursAtB A (pre ++ A ++ post) i = true := by
      rw [occursAtB_iff, List.append_assoc]
      exact hp
    have := huniq i (by omega) hb
    omega
  unfold applyRule
  rw [pyReplace_eq_replCore _ _ _ hA, List.append_assoc,
    replCore_skip A (A ++ I) pre (A ++ post) hcond, replCore_head A (A ++ I) hA post,
    replCore_of_no_occ A (A ++ I) post hpost]
  simp [List.append_assoc]

theorem patch_unique_occurrence_witness :
    applyRule (strCps "ab") (strCps "X") (strCps "z" ++ strCps "ab" ++ strCps "w") =
      strCps "z" ++ strCps "ab" ++ strCps "X" ++ strCps "w" :=
  patch_unique_occurrence (strCps "ab") (strCps "X") (strCps "z") (strCps "w")
    (by decide) (by decide)

/-- C2 counterexample: Python `str.replace` (and `re.sub`) replace every
occurrence, not only the first.  With the handoff script's third rule and
a document containing its anchor twice, the second occurrence is also
replaced, so the output differs from what the claim predicts. -/
theorem second_occurrence_also_replaced :
    pyReplace hOld3 hNew3 (hOld3 ++ strCps "\n\n" ++ hOld3) =
      hNew3 ++ strCps "\n\n" ++ hNew3 ∧
    pyReplace hOld3 hNew3 (hOld3 ++ strCps "\n\n" ++ hOld3) ≠
      hNew3 ++ strCps "\n\n" ++ hOld3 := by
  constructor
  · exact eq_of_beq_list (by decide!)
  · intro h
    have h2 : (hNew3 ++ strCps "\n\n" ++ hNew3 ==
        hNew3 ++ strCps "\n\n" ++ hOld3) = false := by decide!
    rw [(eq_of_beq_list (by decide! :
      (pyReplace hOld3 hNew3 (hOld3 ++ strCps "\n\n" ++ hOld3) ==
        hNew3 ++ strCps "\n\n" ++ hNew3) = true))] at h
    rw [h] at h2
    simp at h2

/-- C2 amended: the substitution step replaces every leftmost
non-overlapping occurrence of the anchor; in particular, when the anchor
occurs exactly twice (disjointly), both occurrences are replaced. -/
theorem replace_all_two_occurrences (A N pre mid post : List Nat) (hA : A ≠ [])
    (huniq : ∀ i < (pre ++ A ++ mid ++ A ++ post).length,
      occursAtB A (pre ++ A ++ mid ++ A ++ post) i = true →
      i = pre.length ∨ i = pre.length + A.length + mid.length) :
    pyReplace A N (pre ++ A ++ mid ++ A ++ post) = pre ++ N ++ mid ++ N ++ post := by
  have hA1 : 0 < A.length := List.length_pos.mpr hA
  have hlen : (pre ++ A ++ mid ++ A ++ post).length =
      pre.length + A.length + mid.length + A.length + post.length := by
    simp only [List.length_append]
  have hdrop2 : ∀ j, (pre ++ A ++ mid ++ A ++ post).drop (pre.length + A.length + j) =
      (mid ++ A ++ post).drop j := by
    intro j
    have hsplit : pre ++ A ++ mid ++ A ++ post = (pre ++ A) ++ (mid ++ A ++ post) := by
      simp [List.append_assoc]
    have hxs : (pre ++ A).length = pre.length + A.length := by
      simp only [List.length_append]
    rw [hsplit, ← hxs, drop_append_len]
  have hpost : ¬ A <:+: post := by
    rintro ⟨u, v, huv⟩
    have hb : occursAtB A (pre ++ A ++ mid ++ A ++ post)
        (pre.length + A.length + (mid.length + A.length + u.length)) = true := by
      rw [occursAtB_iff, hdrop2]
      refine ⟨v, ?_⟩
      have hsplit : mid ++ A ++ post = (mid ++ A ++ u) ++ (A ++ v) := by
        rw [← huv]
        simp [List.append_assoc]
      have hxs : (mid ++ A ++ u).length = mid.length + A.length + u.length := by
        simp only [List.length_append]
      rw [hsplit, ← hxs, List.drop_left]
    have hpl : post.length = u.length + A.length + v.length := by
      rw [← huv]
      simp only [List.length_append]
    have hi : pre.length + A.length + (mid.length + A.length + u.length) <
        (pre ++ A ++ mid ++ A ++ post).length := by
      omega
    rcases huniq _ hi hb with h | h <;> omega
  have hcondmid : ∀ j < mid.length, ¬ A <+: (mid ++ (A ++ post)).drop j := by
    intro j hj hp
    have hb : occursAtB A (pre ++ A ++ mid ++ A ++ post) (pre.length + A.length + j) = true := by
      rw [occursAtB_iff, hdrop2, List.append_assoc]
      exact hp
    have hi : pre.length + A.length + j < (pre ++ A ++ mid ++ A ++ post).length := by
      omega
    rcases huniq _ hi hb with h | h <;> omega
  have hcondpre : ∀ i < pre.length, ¬ A <+: (pre ++ (A ++ (mid ++ (A ++ post)))).drop i := by
    intro i hi hp
    have hb : occursAtB A (pre ++ A ++ mid ++ A ++ post) i = true := by
      rw [occursAtB_iff]
      have : pre ++ A ++ mid ++ A ++ post = pre ++ (A ++ (mid ++ (A ++ post))) := by
        simp [List.append_assoc]
      rw [this]
      exact hp
    have hi2 : i < (pre ++ A ++ mid ++ A ++ post).length := by
      omega
    rcases huniq i hi2 hb with h | h <;> omega
  have hstep : pyReplace A N (pre ++ A ++ mid ++ A ++ post) =
      pyReplace A N (pre ++ (A ++ (mid ++ (A ++ post)))) := by
    have : pre ++ A ++ mid ++ A ++ post = pre ++ (A ++ (mid ++ (A ++ post))) := by
      simp [List.append_assoc]
    rw [this]
  rw [hstep, pyReplace_eq_replCore _ _ _ hA,
    replCore_skip A N pre (A ++ (mid ++ (A ++ post))) hcondpre,
    replCore_head A N hA (mid ++ (A ++ post)),
    replCore_skip A N mid (A ++ post) hcondmid,
    replCore_head A N hA post,
    replCore_of_no_occ A N post hpost]
  simp [List.append_assoc]

theorem replace_all_two_occurrences_witness :
    pyReplace (strCps "ab") (strCps "cd")
        (strCps "x" ++ strCps "ab" ++ strCps "y" ++ strCps "ab" ++ strCps "z") =
      strCps "x" ++ strCps "cd" ++ strCps "y" ++ strCps "cd" ++ strCps "z" :=
  replace_all_two_occurrences (strCps "ab") (strCps "cd") (strCps "x") (strCps "y")
    (strCps "z") (by decide) (by decide)

/-- C4: on a document that does not contain the anchor, the substitution
is the identity (and is a total function: no exception is modelled or
needed). -/
theorem replace_id_on_anchor_free (old nw d : List Nat) (h : ¬ old <:+: d) :
    pyReplace old nw d = d :=
  pyReplace_of_no_occ old nw d h

theorem replace_id_on_anchor_free_witness :
    pyReplace (strCps "q") (strCps "qZ") (strCps "abc") = strCps "abc" :=
  replace_id_on_anchor_free (strCps "q") (strCps "qZ") (strCps "abc") (by decide)

/-- C7: the spec's end-to-end scenario 1: with anchor `"X\n\n---\n"` and
insertion `"Z\n"`, the document `"X\n\n---\n\nY"` becomes
`"X\n\n---\nZ\n\nY"`. -/
theorem scenario_one :
    applyRule (strCps "X\n\n---\n") (strCps "Z\n") (strCps "X\n\n---\n\nY") =
      strCps "X\n\n---\nZ\n\nY" := by decide

/-- C3: the patch applicator is not idempotent.  The handoff script's
third rule prepends its insertion before an anchor that survives
patching, so on any document still containing the anchor a second run
inserts again; on the anchor itself, two runs leave the insertion block
(the context-budget checklist) present twice. -/
theorem prepend_rule_not_idempotent :
    (∀ d : List Nat, hOld3 <:+: d →
      hOld3 <:+: pyReplace hOld3 hNew3 d ∧
      pyReplace hOld3 hNew3 (pyReplace hOld3 hNew3 d) ≠ pyReplace hOld3 hNew3 d) ∧
    pyReplace hOld3 hNew3 (pyReplace hOld3 hNew3 hOld3) =
      strCps context_budget_checklist ++ strCps context_budget_checklist ++ hOld3 := by
  constructor
  · intro d hd
    have h0 : hOld3 ≠ [] := by decide!
    have hsurv : hOld3 <:+: hNew3 := infix_of_containsB _ _ (by decide!)
    have hlt : hOld3.length < hNew3.length := by decide!
    exact ⟨pyReplace_occ_survives _ _ h0 hsurv d hd,
      pyReplace_not_idem _ _ h0 hsurv hlt d hd⟩
  · exact eq_of_beq_list (by decide!)

theorem prepend_rule_not_idempotent_witness :
    hOld3 <:+: pyReplace hOld3 hNew3 hOld3 ∧
    pyReplace hOld3 hNew3 (pyReplace hOld3 hNew3 hOld3) ≠ pyReplace hOld3 hNew3 hOld3 :=
  prepend_rule_not_idempotent.1 hOld3 (List.infix_rfl)

/-- C5: the drivers are straight-line code: whatever the file content,
they write a transformed content back and print their fixed confirmation
lines; a rule whose anchor is absent leaves the document untouched while
the other rules still apply. -/
theorem driver_with_missing_anchor : ∀ c : List Nat,
    (handoffMain c).2 = handoffMessages ∧
    (specGuideMain c).2 = specGuideMessages ∧
    (¬ hOld1 <:+: c →
      handoffMain c = (pyReplace hOld3 hNew3 (pyReplace hOld2 hNew2 c), handoffMessages)) ∧
    (¬ gOld1 <:+: c →
      specGuideMain c = (pyReplace gOld3 gNew3 (pyReplace gOld2 gNew2 c), specGuideMessages)) := by
  intro c
  refine ⟨rfl, rfl, ?_, ?_⟩
  · intro h
    unfold handoffMain handoffTransform
    rw [pyReplace_of_no_occ hOld1 hNew1 c h]
  · intro h
    unfold specGuideMain specGuideTransform
    rw [pyReplace_of_no_occ gOld1 gNew1 c h]

theorem driver_with_missing_anchor_witness :
    handoffMain [] = (pyReplace hOld3 hNew3 (pyReplace hOld2 hNew2 []), handoffMessages) ∧
    specGuideMain [] = (pyReplace gOld3 gNew3 (pyReplace gOld2 gNew2 []), specGuideMessages) :=
  ⟨(driver_with_missing_anchor []).2.2.1 (not_infix_of_containsB _ _ (by decide)),
   (driver_with_missing_anchor []).2.2.2 (not_infix_of_containsB _ _ (by decide))⟩

/-- C6 counterexample: within the handoff script the anchors are not
non-overlapping.  In the modelled target document, rule 3's anchor
occurs at position 171 and rule 2's anchor at position 190, inside the
span of rule 3's anchor; indeed the last 88 code points of rule 3's
anchor are exactly the first 88 code points of rule 2's anchor (the bold
"A phase is NOT complete…" sentence is shared). -/
theorem handoff_anchors_overlap :
    occursAtB hOld3 hDocH 171 = true ∧
    occursAtB hOld2 hDocH 190 = true ∧
    171 < 190 ∧ 190 < 171 + hOld3.length ∧
    hOld3.drop 19 = hOld2.take 88 ∧ hOld3.drop 19 ≠ [] := by decide!

/-- C6 amended: the handoff script's rules 2 and 3 have overlapping
anchors (they share the bold sentence), so the rules are not
non-overlapping; they are nevertheless independent on the (modelled)
target documents: every application order produces the same final
document as the scripted order, for both scripts. -/
theorem rules_order_independent :
    (pyReplace hOld3 hNew3 (pyReplace hOld1 hNew1 (pyReplace hOld2 hNew2 hDocH)) =
      handoffTransform hDocH) ∧
    (pyReplace hOld2 hNew2 (pyReplace hOld3 hNew3 (pyReplace hOld1 hNew1 hDocH)) =
      handoffTransform hDocH) ∧
    (pyReplace hOld2 hNew2 (pyReplace hOld1 hNew1 (pyReplace hOld3 hNew3 hDocH)) =
      handoffTransform hDocH) ∧
    (pyReplace hOld1 hNew1 (pyReplace hOld3 hNew3 (pyReplace hOld2 hNew2 hDocH)) =
      handoffTransform hDocH) ∧
    (pyReplace hOld1 hNew1 (pyReplace hOld2 hNew2 (pyReplace hOld3 hNew3 hDocH)) =
      handoffTransform hDocH) ∧
    (pyReplace gOld3 gNew3 (pyReplace gOld1 gNew1 (pyReplace gOld2 gNew2 gDocG)) =
      specGuideTransform gDocG) ∧
    (pyReplace gOld2 gNew2 (pyReplace gOld3 gNew3 (pyReplace gOld1 gNew1 gDocG)) =
      specGuideTransform gDocG) ∧
    (pyReplace gOld2 gNew2 (pyReplace gOld1 gNew1 (pyReplace gOld3 gNew3 gDocG)) =
      specGuideTransform gDocG) ∧
    (pyReplace gOld1 gNew1 (pyReplace gOld3 gNew3 (pyReplace gOld2 gNew2 gDocG)) =
      specGuideTransform gDocG) ∧
    (pyReplace gOld1 gNew1 (pyReplace gOld2 gNew2 (pyReplace gOld3 gNew3 gDocG)) =
      specGuideTransform gDocG) := by
  have hs : handoffTransform hDocH = hVal123 := by
    unfold handoffTransform
    rw [hStep_d_1, hStep_1_2, hStep_12_3]
  have gs : specGuideTransform gDocG = gVal123 := by
    unfold specGuideTransform
    rw [gStep_d_1, gStep_1_2, gStep_12_3]
  refine ⟨?_, ?_, ?_, ?_, ?_, ?_, ?_, ?_, ?_, ?_⟩
  · rw [hs, hStep_d_2, hStep_2_1, hStep_12_3]
  · rw [hs, hStep_d_1, hStep_1_3, hStep_13_2]
  · rw [hs, hStep_d_3, hStep_3_1, hStep_13_2]
  · rw [hs, hStep_d_2, hStep_2_3, hStep_23_1]
  · rw [hs, hStep_d_3, hStep_3_2, hStep_23_1]
  · rw [gs, gStep_d_2, gStep_2_1, gStep_12_3]
  · rw [gs, gStep_d_1, gStep_1_3, gStep_13_2]
  · rw [gs, gStep_d_3, gStep_3_1, gStep_13_2]
  · rw [gs, gStep_d_2, gStep_2_3, gStep_23_1]
  · rw [gs, gStep_d_3, gStep_3_2, gStep_23_1]

/-- C8: if the target file is missing or not writable, a driver run
fails with a propagated error and the file state is unchanged (no
partial write), for both scripts. -/
theorem driver_fatal_no_partial_write (f : TargetFile)
    (h : f.content = none ∨ f.writable = false) :
    (∃ e, runDriver handoffTransform handoffMessages f = (DriverOutcome.ioError e, f)) ∧
    (∃ e, runDriver specGuideTransform specGuideMessages f = (DriverOutcome.ioError e, f)) := by
  obtain ⟨c, w⟩ := f
  cases c with
  | none => exact ⟨⟨"FileNotFoundError", rfl⟩, ⟨"FileNotFoundError", rfl⟩⟩
  | some d =>
    have hw : w = false := by
      rcases h with h | h
      · exact absurd h (by simp)
      · exact h
    subst hw
    exact ⟨⟨"PermissionError", rfl⟩, ⟨"PermissionError", rfl⟩⟩

theorem driver_fatal_no_partial_write_witness :
    (∃ e, runDriver handoffTransform handoffMessages ⟨none, true⟩ =
      (DriverOutcome.ioError e, ⟨none, true⟩)) ∧
    (∃ e, runDriver specGuideTransform specGuideMessages ⟨none, true⟩ =
      (DriverOutcome.ioError e, ⟨none, true⟩)) :=
  driver_fatal_no_partial_write ⟨none, true⟩ (Or.inl rfl)

theorem sublist_of_take_drop_eq (old nw : List Nat) (k j : Nat)
    (hkj : k ≤ j) (hk : nw.take k = old.take k) (hj : nw.drop j = old.drop k) :
    List.Sublist old nw := by
  have h1 : (nw.drop k).drop (j - k) = old.drop k := by
    rw [List.drop_drop, Nat.add_sub_cancel' hkj, hj]
  have h3 : List.Sublist (old.take k ++ old.drop k)
      (old.take k ++ ((nw.drop k).take (j - k) ++ (nw.drop k).drop (j - k))) :=
    List.Sublist.append (List.Sublist.refl _)
      (by rw [h1]; exact List.sublist_append_right _ _)
  rw [List.take_append_drop, List.take_append_drop, ← hk, List.take_append_drop] at h3
  exact h3

/-- C9: both scripts' in-memory transformations are insertion-only: every
rule's replacement contains its anchor as a subsequence (the insertion is
spliced into the anchor), so for every input document the output contains
the input as a subsequence and is at least as long. -/
theorem transforms_insert_only : ∀ c : List Nat,
    (List.Sublist c (handoffTransform c) ∧ c.length ≤ (handoffTransform c).length) ∧
    (List.Sublist c (specGuideTransform c) ∧ c.length ≤ (specGuideTransform c).length) := by
  have s1 : List.Sublist hOld1 hNew1 :=
    sublist_of_take_drop_eq hOld1 hNew1 91 1053 (by decide)
      (eq_of_beq_list (by decide!)) (eq_of_beq_list (by decide!))
  have s2 : List.Sublist hOld2 hNew2 :=
    sublist_of_take_drop_eq hOld2 hNew2 88 1300 (by decide)
      (eq_of_beq_list (by decide!)) (eq_of_beq_list (by decide!))
  have s3 : List.Sublist hOld3 hNew3 :=
    sublist_of_take_drop_eq hOld3 hNew3 0 264 (by decide)
      (eq_of_beq_list (by decide!)) (eq_of_beq_list (by decide!))
  have t1 : List.Sublist gOld1 gNew1 :=
    sublist_of_take_drop_eq gOld1 gNew1 28 1366 (by decide)
      (eq_of_beq_list (by decide!)) (eq_of_beq_list (by decide!))
  have t2 : List.Sublist gOld2 gNew2 :=
    sublist_of_take_drop_eq gOld2 gNew2 68 562 (by decide)
      (eq_of_beq_list (by decide!)) (eq_of_beq_list (by decide!))
  have t3 : List.Sublist gOld3 gNew3 :=
    sublist_of_take_drop_eq gOld3 gNew3 221 1983 (by decide)
      (eq_of_beq_list (by decide!)) (eq_of_beq_list (by decide!))
  intro c
  have hh : List.Sublist c (handoffTransform c) := by
    unfold handoffTransform
    exact ((pyReplace_sublist hOld1 hNew1 s1 c).trans
      (pyReplace_sublist hOld2 hNew2 s2 _)).trans (pyReplace_sublist hOld3 hNew3 s3 _)
  have hg : List.Sublist c (specGuideTransform c) := by
    unfold specGuideTransform
    exact ((pyReplace_sublist gOld1 gNew1 t1 c).trans
      (pyReplace_sublist gOld2 gNew2 t2 _)).trans (pyReplace_sublist gOld3 gNew3 t3 _)
  exact ⟨⟨hh, hh.length_le⟩, ⟨hg, hg.length_le⟩⟩

/-- C10: the five rules whose insertion lands strictly inside the anchor
(handoff rules 1 and 2, all three spec-guide rules) are idempotent on
their own output: after one application the anchor no longer occurs
anywhere in the result, so a second application changes nothing, for
every input document. -/
theorem interior_rules_idempotent :
    ((∀ d, ¬ hOld1 <:+: pyReplace hOld1 hNew1 d) ∧
      ∀ d, pyReplace hOld1 hNew1 (pyReplace hOld1 hNew1 d) = pyReplace hOld1 hNew1 d) ∧
    ((∀ d, ¬ hOld2 <:+: pyReplace hOld2 hNew2 d) ∧
      ∀ d, pyReplace hOld2 hNew2 (pyReplace hOld2 hNew2 d) = pyReplace hOld2 hNew2 d) ∧
    ((∀ d, ¬ gOld1 <:+: pyReplace gOld1 gNew1 d) ∧
      ∀ d, pyReplace gOld1 gNew1 (pyReplace gOld1 gNew1 d) = pyReplace gOld1 gNew1 d) ∧
    ((∀ d, ¬ gOld2 <:+: pyReplace gOld2 gNew2 d) ∧
      ∀ d, pyReplace gOld2 gNew2 (pyReplace gOld2 gNew2 d) = pyReplace gOld2 gNew2 d) ∧
    ((∀ d, ¬ gOld3 <:+: pyReplace gOld3 gNew3 d) ∧
      ∀ d, pyReplace gOld3 gNew3 (pyReplace gOld3 gNew3 d) = pyReplace gOld3 gNew3 d) := by
  refine ⟨?_, ?_, ?_, ?_, ?_⟩ <;>
    exact pyReplace_idem_of_boolChecks _ _ (by decide!) (by decide!) (by decide!)
      (by decide!) (by decide!)
